import Mathlib

/-!
# Dalamud crash pipeline: the in-process trap (`Dalamud.Boot/veh.cpp`) and the
# out-of-process monitor (`DalamudCrashHandler/DalamudCrashHandler.cpp`)

Wide strings (`std::wstring`) are lists of characters.  Operating-system calls
whose answers the program cannot compute itself are inputs of the model.
-/

namespace Dalamud

/-- A wide string: the sequence of its characters. -/
abbrev WString := List Char

/-- The backslash character. -/
def BS : Char := Char.ofNat 92

/-- The double-quote character. -/
def DQ : Char := Char.ofNat 34

/-- The space character. -/
def SP : Char := Char.ofNat 32

/-- The horizontal tab. -/
def TAB : Char := Char.ofNat 9

/-- The newline character. -/
def NL : Char := Char.ofNat 10

/-- The vertical tab. -/
def VT : Char := Char.ofNat 11

/-- The terminating character of a C string. -/
def NUL : Char := Char.ofNat 0

/-- What a callee that takes a wide string as a NUL-terminated string (as
`&argstr[0]` or `c_str()`) sees of it: the characters before the first NUL. -/
def c_str (s : WString) : WString :=
  s.takeWhile (fun c => c != NUL)

/-! ## The dialog identifiers (the same `enum` in both source files) -/

/-- The enumerator `IdRadioRestartNormal`. -/
def IdRadioRestartNormal : Int := 101

/-- The enumerator `IdRadioRestartWithout3pPlugins`. -/
def IdRadioRestartWithout3pPlugins : Int := 102

/-- The enumerator `IdRadioRestartWithoutPlugins`. -/
def IdRadioRestartWithoutPlugins : Int := 103

/-- The enumerator `IdRadioRestartWithoutDalamud`. -/
def IdRadioRestartWithoutDalamud : Int := 104

/-- The enumerator `IdButtonRestart`. -/
def IdButtonRestart : Int := 201

/-- The enumerator `IdButtonExit`, which is `IDCANCEL`. -/
def IdButtonExit : Int := 2

namespace CrashHandler

/-! ## `escape_shell_arg` (DalamudCrashHandler.cpp, lines 317-348) -/

/-- The characters of the set given to `arg.find_first_of`: space, tab, newline,
vertical tab, double quote. -/
def needsQuoting (c : Char) : Bool :=
  c == SP || c == TAB || c == NL || c == VT || c == DQ

/-- The body of the `for (auto it = arg.begin(); ; ++it)` loop.  The first
argument is what is left of `arg` from `it` on, the second is `bsCount`, the
backslashes counted by the inner `while` and not yet written to `res`. -/
def escape_loop : WString → Nat → WString
  | [], bsCount => List.replicate (bsCount * 2) BS
  | c :: rest, bsCount =>
    if c = BS then escape_loop rest (bsCount + 1)
    else if c = DQ then List.replicate (bsCount * 2 + 1) BS ++ c :: escape_loop rest 0
    else List.replicate bsCount BS ++ c :: escape_loop rest 0

/-- The function `escape_shell_arg`. -/
def escape_shell_arg (arg : WString) : WString :=
  if !arg.isEmpty && !arg.any needsQuoting then arg
  else DQ :: (escape_loop arg 0 ++ [DQ])

/-! ## `restart_game_using_injector` (DalamudCrashHandler.cpp, lines 350-404) -/

/-- The `switch (nRadioButton)` of `restart_game_using_injector`: what it adds
to `args` between `launch` and the separator. -/
def mode_flag (nRadioButton : Int) : List WString :=
  if nRadioButton = IdRadioRestartWithout3pPlugins then ["--no-3rd-plugin".toList]
  else if nRadioButton = IdRadioRestartWithoutPlugins then ["--no-plugin".toList]
  else if nRadioButton = IdRadioRestartWithoutDalamud then ["--without-dalamud".toList]
  else []

/-- The vector `args` of `restart_game_using_injector`.  `injector` is the value
of `(std::filesystem::path(pathStr).parent_path() / L"Dalamud.Injector.exe").wstring()`. -/
def injector_args (injector : WString) (nRadioButton : Int) (launcherArgs : List WString) :
    List WString :=
  [injector, "launch".toList] ++ mode_flag nRadioButton ++ ["--".toList] ++ launcherArgs

/-- The string `argstr` of `restart_game_using_injector`: every argument escaped
and followed by a space, then `pop_back` of the last space (`args` is never
empty there). -/
def build_argstr (args : List WString) : WString :=
  (args.foldl (fun argstr arg => argstr ++ escape_shell_arg arg ++ [SP]) []).dropLast

/-! ## Tokenizing a command line

The rules by which a started process splits its command line, as the
round-trip property words them: whitespace outside quotes separates
arguments; `2n` backslashes before a double quote give `n` backslashes and the
quote delimits; `2n+1` backslashes before a double quote give `n` backslashes
and a literal quote; every other backslash is literal. -/

/-- One pass over the command line.  `cur` is the argument being built,
`inArg` tells whether an argument has been started, `inQuotes` whether a quoted
part is open, `bs` the number of backslashes read and not yet decided.
`ws` tells which characters are whitespace. -/
def tokenize_from (ws : Char → Bool) :
    WString → WString → Bool → Bool → Nat → List WString
  | [], cur, inArg, _, bs =>
    if inArg then [cur ++ List.replicate bs BS] else []
  | c :: rest, cur, inArg, inQuotes, bs =>
    if c = BS then tokenize_from ws rest cur true inQuotes (bs + 1)
    else if c = DQ then
      if bs % 2 = 0 then
        tokenize_from ws rest (cur ++ List.replicate (bs / 2) BS) true (!inQuotes) 0
      else
        tokenize_from ws rest (cur ++ List.replicate (bs / 2) BS ++ [DQ]) true inQuotes 0
    else if ws c && !inQuotes then
      if inArg then
        (cur ++ List.replicate bs BS) :: tokenize_from ws rest [] false false 0
      else tokenize_from ws rest [] false false 0
    else tokenize_from ws rest (cur ++ List.replicate bs BS ++ [c]) true inQuotes 0

/-- The argument list of a command line. -/
def tokenize (ws : Char → Bool) (cmdline : WString) : List WString :=
  tokenize_from ws cmdline [] false false 0

/-- Whitespace of a Windows command line: space and tab. -/
def is_space_or_tab (c : Char) : Bool :=
  c == SP || c == TAB

/-! ## The documented escaping rule

A second description of `escape_shell_arg`, following the words of its
specification and not its loop: the argument is cut into maximal runs of
backslashes, each followed by one other character or by the end. -/

/-- The inside of the quotes by the documented rule: a run of `n` backslashes
directly before a double quote becomes `2n+1` backslashes and that quote, a run
of `n` backslashes at the end of the argument becomes `2n` backslashes, every
other run and character is copied. -/
def quoted_rule (arg : WString) : WString :=
  let n := (arg.takeWhile (fun c => c == BS)).length
  match h : arg.dropWhile (fun c => c == BS) with
  | [] => List.replicate (2 * n) BS
  | c :: rest =>
    if c = DQ then List.replicate (2 * n + 1) BS ++ DQ :: quoted_rule rest
    else List.replicate n BS ++ c :: quoted_rule rest
termination_by arg.length
decreasing_by
  all_goals
    have hle : (arg.dropWhile (fun c => c == BS)).length ≤ arg.length :=
      (List.dropWhile_sublist (fun c => c == BS)).length_le
    rw [h] at hle
    simp only [List.length_cons] at hle
    omega

/-- The documented rule of `escape_shell_arg`: an argument that is not empty and
has no space, tab, newline, vertical tab or double quote is left as it is; any
other argument is put between double quotes with `quoted_rule` applied. -/
def escape_rule (arg : WString) : WString :=
  if arg ≠ [] ∧ ∀ c ∈ arg, c ∉ [SP, TAB, NL, VT, DQ] then arg
  else DQ :: (quoted_rule arg ++ [DQ])

/-! ## The monitor's `main` (DalamudCrashHandler.cpp, lines 485-753)

Handles are natural numbers, `0` being `nullptr`.  The answers of the operating
system that stay the same during a run are a `World`; what happens during one
turn of the `while (true)` loop is an `Event`; a run is given by the vector
`args` of its command line and the list of its events.  The output on
`std::cout` and `std::cerr` is left out, but for the report of the exit code
of the target and the report of a failed attach. -/

/-- The enumerator `InvalidParameter`. -/
def InvalidParameter : Int := -101

/-- The enumerator `ProcessExitedUnknownExitCode`. -/
def ProcessExitedUnknownExitCode : Int := -102

/-- The option `--process-handle=`. -/
def OPT_PROCESS_HANDLE : WString := "--process-handle=".toList

/-- The option `--exception-info-pipe-read-handle=`. -/
def OPT_PIPE_READ_HANDLE : WString := "--exception-info-pipe-read-handle=".toList

/-- The option `--asset-directory=`. -/
def OPT_ASSET_DIRECTORY : WString := "--asset-directory=".toList

/-- The option `--log-directory=`. -/
def OPT_LOG_DIRECTORY : WString := "--log-directory=".toList

/-- The separator `--`. -/
def SEPARATOR : WString := "--".toList

/-- The answers that stay the same during a run of the monitor. -/
structure World where
  /-- The function `std::wcstoull` with base `0`. -/
  wcstoull : WString → Nat
  /-- The function `GetProcessId`, `0` when the handle is not valid. -/
  GetProcessId : Nat → Nat
  /-- The path of `Dalamud.Injector.exe` next to the monitor. -/
  injector : WString
  /-- The operator `/` of `std::filesystem::path`. -/
  path_append : WString → WString → WString

/-- What the argument loop of `main` sets. -/
structure Startup where
  /-- The global `g_hProcess`. -/
  g_hProcess : Nat
  /-- The local `hPipeRead`. -/
  hPipeRead : Nat
  /-- The global `g_assetsDirectory`. -/
  g_assetsDirectory : WString
  /-- The local `logDir`. -/
  logDir : WString
  /-- The local `launcherArgs`, an optional vector. -/
  launcherArgs : Option (List WString)
deriving DecidableEq, Repr

/-- The values before the argument loop. -/
def Startup.initial : Startup :=
  { g_hProcess := 0, hPipeRead := 0, g_assetsDirectory := [], logDir := [],
    launcherArgs := none }

/-- One turn of the argument loop; nothing when `main` returns
`InvalidParameter` at this argument. -/
def parse_arg (W : World) (st : Startup) (arg : WString) : Option Startup :=
  match st.launcherArgs with
  | some l => some { st with launcherArgs := some (l ++ [arg]) }
  | none =>
    if OPT_PROCESS_HANDLE.isPrefixOf arg then
      some { st with g_hProcess := W.wcstoull (arg.drop OPT_PROCESS_HANDLE.length) }
    else if OPT_PIPE_READ_HANDLE.isPrefixOf arg then
      some { st with hPipeRead := W.wcstoull (arg.drop OPT_PIPE_READ_HANDLE.length) }
    else if OPT_ASSET_DIRECTORY.isPrefixOf arg then
      some { st with g_assetsDirectory := arg.drop OPT_ASSET_DIRECTORY.length }
    else if OPT_LOG_DIRECTORY.isPrefixOf arg then
      some { st with logDir := arg.drop OPT_LOG_DIRECTORY.length }
    else if arg = SEPARATOR then some { st with launcherArgs := some [] }
    else none

/-- The argument loop `for (size_t i = 1; i < args.size(); i++)` from the state
`st`, over the arguments that are left. -/
def parse_args (W : World) : List WString → Startup → Option Startup
  | [], st => some st
  | arg :: rest, st =>
    match parse_arg W st arg with
    | none => none
    | some st2 => parse_args W rest st2

/-- The fields of `exinfo` that `main` reads. -/
structure exception_info where
  /-- The value `exinfo.ExceptionRecord.ExceptionCode`. -/
  ExceptionCode : Nat
  /-- The value `exinfo.nLifetime`. -/
  nLifetime : Int
  /-- The value `exinfo.dwStackTraceLength`. -/
  dwStackTraceLength : Nat
  /-- The value `exinfo.hThreadHandle`. -/
  hThreadHandle : Nat
deriving DecidableEq, Repr

/-- The calls of `attach_debugger` whose result is tested. -/
inductive AttachCall where
  | DebugCreate
  | AttachProcess
  | QueryInterface_IDebugControl4
  | WaitForEvent
  | QueryInterface_IDebugSymbols3
  | QueryInterface_IDebugSystemObjects
deriving DecidableEq, Repr

/-- What happens during one turn of the `while (true)` loop. -/
structure Event where
  /-- The descriptor read from the pipe; nothing when `ReadFile` fails or
  reads another size. -/
  ReadFile : Option exception_info
  /-- Whether `WaitForSingleObject(g_hProcess, 0)` returns `WAIT_OBJECT_0`. -/
  target_exited : Bool
  /-- The exit code given by `GetExitCodeProcess`, nothing when it fails. -/
  GetExitCodeProcess : Option Nat
  /-- Whether `CreateProcessW` succeeds in `restart_game_using_injector`. -/
  CreateProcessW : Bool
  /-- Whether `try_attach_xclr`, when it tries, loads the library and obtains
  an instance from `CLRDataCreateInstance`. -/
  CLRDataCreateInstance : Bool
  /-- The first call of `attach_debugger` that fails, if any. -/
  attach_failure : Option AttachCall
  /-- The supplied stack trace, nothing when its `ReadFile` fails. -/
  stackTrace : Option WString
  /-- The text formatted from `GetLocalTime` and the process id for the names
  of the dump and of the log. -/
  stamp : WString
  /-- The error text when `CreateFileW` fails for the dump, nothing when it
  succeeds. -/
  dumpError : Option WString
  /-- The value of `to_address_string(exinfo.ContextRecord.Rip, false)`. -/
  rip_string : WString
  /-- The time written after `Time: `. -/
  time_string : WString
  /-- What `print_exception_info` appends to `log`. -/
  print_exception_info : WString
  /-- What `print_exception_info_extended` appends to `log`. -/
  print_exception_info_extended : WString
  /-- Whether the environment variable `DALAMUD_NO_METRIC` is set. -/
  DALAMUD_NO_METRIC : Bool
  /-- Whether `WinHttpOpen` gives a session to the reporting thread. -/
  WinHttpOpen : Bool
  /-- Whether `WinHttpConnect` gives a connection to the reporting thread. -/
  WinHttpConnect : Bool
  /-- Whether `WinHttpOpenRequest` gives a request to the reporting thread. -/
  WinHttpOpenRequest : Bool
  /-- Whether `WinHttpSendRequest` succeeds in the reporting thread. -/
  WinHttpSendRequest : Bool
  /-- The result of `TaskDialogIndirect`: nothing when it failed, otherwise
  the button pressed and the radio button selected. -/
  TaskDialogIndirect : Option (Int × Int)
  /-- The flag `attemptResume` after the dialog. -/
  attemptResume : Bool

/-- The steps of the monitor. -/
inductive Step where
  | ReadFile_exinfo
  | WaitForSingleObject
  | GetExitCodeProcess
  | report_exit_code (excode : Nat)
  | report_exit_code_unreadable
  | TerminateProcess (uExitCode : Nat)
  | CreateProcessW (lpApplicationName lpCommandLine : WString)
  | MessageBoxW_failed_to_restart
  | LoadLibraryW_mscordaccore
  | DebugCreate
  | AttachProcess
  | QueryInterface_IDebugControl4
  | SetExecutionStatus
  | WaitForEvent
  | QueryInterface_IDebugSymbols3
  | AppendSymbolPathWide
  | QueryInterface_IDebugSystemObjects
  | wcerr_failed_to_read_call_stack
  | ReadFile_stackTrace (nNumberOfBytesToRead : Nat)
  | CreateFileW (dumpPath : WString)
  | wofstream (logPath text : WString)
  | std_thread
  | WinHttpOpen
  | WinHttpConnect (pswzServerName : WString)
  | WinHttpOpenRequest (pwszVerb pwszObjectName : WString)
  | WinHttpSendRequest
  | cerr_failed_to_send_metric
  | join_submitThread
  | TaskDialogIndirect (pszExpandedInformation : WString)
  | ResumeThread (hThread : Nat)
deriving DecidableEq, Repr

/-- How a run of `main` ends. -/
inductive Exit where
  /-- The function `main` returned this value. -/
  | returned (code : Int)
  /-- An exception left `main`. -/
  | uncaught_exception
  /-- The empty `launcherArgs` was dereferenced. -/
  | empty_optional_dereferenced
  /-- The monitor is blocked in `ReadFile`: no further event. -/
  | waiting
deriving DecidableEq, Repr

/-- The end of a run and its steps. -/
structure Run where
  /-- How the run ends. -/
  exit : Exit
  /-- The steps, in order. -/
  trace : List Step
deriving DecidableEq, Repr

/-- The run `r` after the steps `steps`. -/
def Run.after (steps : List Step) (r : Run) : Run :=
  { r with trace := steps ++ r.trace }

/-- The function `restart_game_using_injector`: it starts the injector with the
command line built from `args`, and shows a message box if that fails. -/
def restart_game_using_injector (W : World) (succeeds : Bool) (nRadioButton : Int)
    (launcherArgs : List WString) : List Step :=
  Step.CreateProcessW W.injector
      (c_str (build_argstr (injector_args W.injector nRadioButton launcherArgs)))
    :: (if succeeds then [] else [Step.MessageBoxW_failed_to_restart])

/-- The function `try_attach_xclr` when `g_pClrDataProcess` is `attached`: the
steps and the new state of `g_pClrDataProcess`. -/
def try_attach_xclr (attached : Bool) (e : Event) : List Step × Bool :=
  if attached then ([], true)
  else ([Step.LoadLibraryW_mscordaccore], e.CLRDataCreateInstance)

/-- The function `attach_debugger`: its steps up to the first call that fails,
and whether it throws.  When a call fails the `catch` block writes
`Failed to read call stack` on `std::wcerr` and throws a `std::exception`.  The
results of `SetExecutionStatus` and `AppendSymbolPathWide` are not tested, so
these two calls have no failure. -/
def attach_debugger : Option AttachCall → List Step × Bool
  | some AttachCall.DebugCreate =>
    ([Step.DebugCreate, Step.wcerr_failed_to_read_call_stack], true)
  | some AttachCall.AttachProcess =>
    ([Step.DebugCreate, Step.AttachProcess, Step.wcerr_failed_to_read_call_stack], true)
  | some AttachCall.QueryInterface_IDebugControl4 =>
    ([Step.DebugCreate, Step.AttachProcess, Step.QueryInterface_IDebugControl4,
      Step.wcerr_failed_to_read_call_stack], true)
  | some AttachCall.WaitForEvent =>
    ([Step.DebugCreate, Step.AttachProcess, Step.QueryInterface_IDebugControl4,
      Step.SetExecutionStatus, Step.WaitForEvent, Step.wcerr_failed_to_read_call_stack], true)
  | some AttachCall.QueryInterface_IDebugSymbols3 =>
    ([Step.DebugCreate, Step.AttachProcess, Step.QueryInterface_IDebugControl4,
      Step.SetExecutionStatus, Step.WaitForEvent, Step.QueryInterface_IDebugSymbols3,
      Step.wcerr_failed_to_read_call_stack], true)
  | some AttachCall.QueryInterface_IDebugSystemObjects =>
    ([Step.DebugCreate, Step.AttachProcess, Step.QueryInterface_IDebugControl4,
      Step.SetExecutionStatus, Step.WaitForEvent, Step.QueryInterface_IDebugSymbols3,
      Step.AppendSymbolPathWide, Step.QueryInterface_IDebugSystemObjects,
      Step.wcerr_failed_to_read_call_stack], true)
  | none =>
    ([Step.DebugCreate, Step.AttachProcess, Step.QueryInterface_IDebugControl4,
      Step.SetExecutionStatus, Step.WaitForEvent, Step.QueryInterface_IDebugSymbols3,
      Step.AppendSymbolPathWide, Step.QueryInterface_IDebugSystemObjects], false)

/-- The digits of `{:X}`: upper-case hexadecimal. -/
def HEX (n : Nat) : WString :=
  (Nat.toDigits 16 n).map Char.toUpper

/-- The path `dumpPath`. -/
def dumpPath (W : World) (cfg : Startup) (e : Event) : WString :=
  if cfg.logDir = [] then []
  else W.path_append cfg.logDir ("dalamud_appcrash_".toList ++ e.stamp ++ ".dmp".toList)

/-- The path `logPath`. -/
def logPath (W : World) (cfg : Startup) (e : Event) : WString :=
  if cfg.logDir = [] then []
  else W.path_append cfg.logDir ("dalamud_appcrash_".toList ++ e.stamp ++ ".log".toList)

/-- The string `stackTrace` after its read. -/
def stackTrace (x : exception_info) (e : Event) : WString :=
  if x.dwStackTraceLength = 0 then []
  else
    match e.stackTrace with
    | some s => s
    | none => List.replicate x.dwStackTraceLength NUL

/-- The string `window_log_str`: `log` as it is after `print_exception_info`. -/
def window_log_str (W : World) (cfg : Startup) (x : exception_info) (e : Event) : WString :=
  "Unhandled native exception occurred at ".toList ++ e.rip_string ++ [NL]
  ++ "Code: ".toList ++ HEX x.ExceptionCode ++ [NL]
  ++ (if dumpPath W cfg e = [] then "Dump skipped".toList
      else
        match e.dumpError with
        | none => "Dump at: ".toList ++ dumpPath W cfg e
        | some err => "Dump error: ".toList ++ err) ++ [NL]
  ++ "Time: ".toList ++ e.time_string ++ [NL]
  ++ [NL] ++ stackTrace x e ++ [NL]
  ++ e.print_exception_info

/-- The string `log.str()` after `print_exception_info_extended`. -/
def log (W : World) (cfg : Startup) (x : exception_info) (e : Event) : WString :=
  window_log_str W cfg x e ++ e.print_exception_info_extended

/-- The string `url` of the metric request. -/
def url (x : exception_info) : WString :=
  "/Dalamud/Metric/ReportCrash/?lt=".toList ++ (toString x.nLifetime).toList
  ++ "&code=".toList ++ Nat.toDigits 16 x.ExceptionCode

/-- The server of the metric request. -/
def METRIC_SERVER : WString := "kamori.goats.dev".toList

/-- The verb of the metric request. -/
def GET : WString := "GET".toList

/-- The body of the reporting thread `submitThread`: each call is made when
the one before gave a handle, and the failure is reported when the request was
not sent. -/
def submit (x : exception_info) (e : Event) : List Step :=
  [Step.WinHttpOpen]
  ++ (if e.WinHttpOpen then
        [Step.WinHttpConnect METRIC_SERVER]
        ++ (if e.WinHttpConnect then
              [Step.WinHttpOpenRequest GET (c_str (url x))]
              ++ (if e.WinHttpOpenRequest then [Step.WinHttpSendRequest] else [])
            else [])
      else [])
  ++ (if e.WinHttpOpen && e.WinHttpConnect && e.WinHttpOpenRequest && e.WinHttpSendRequest
      then [] else [Step.cerr_failed_to_send_metric])

/-- The start of the reporting thread, its steps and its join, when the
environment variable `DALAMUD_NO_METRIC` is not set.  The thread runs beside the
building of the dialog; its steps are put between its start and its join. -/
def reporting (x : exception_info) (e : Event) : List Step :=
  if e.DALAMUD_NO_METRIC then []
  else [Step.std_thread] ++ submit x e ++ [Step.join_submitThread]

/-- The steps of one turn from the read of the stack trace to the call of
`TaskDialogIndirect`. -/
def report (W : World) (cfg : Startup) (x : exception_info) (e : Event) : List Step :=
  (if x.dwStackTraceLength = 0 then []
   else [Step.ReadFile_stackTrace (2 * x.dwStackTraceLength)])
  ++ (if dumpPath W cfg e = [] then [] else [Step.CreateFileW (dumpPath W cfg e)])
  ++ [Step.wofstream (logPath W cfg e) (log W cfg x e)]
  ++ reporting x e
  ++ [Step.TaskDialogIndirect (window_log_str W cfg x e)]

/-- The loop `while (true)` of `main`.  `attached` tells whether
`g_pClrDataProcess` is set. -/
def main_loop (W : World) (cfg : Startup) : Bool → List Event → Run
  | _, [] => { exit := Exit.waiting, trace := [Step.ReadFile_exinfo] }
  | attached, e :: rest =>
    match e.ReadFile with
    | none =>
      if e.target_exited then
        { exit := Exit.returned 0,
          trace := [Step.ReadFile_exinfo, Step.WaitForSingleObject, Step.GetExitCodeProcess,
            match e.GetExitCodeProcess with
            | none => Step.report_exit_code_unreadable
            | some excode => Step.report_exit_code excode] }
      else
        { exit := Exit.returned 0,
          trace := [Step.ReadFile_exinfo, Step.WaitForSingleObject,
            Step.TerminateProcess 0xFFFFFFFF] }
    | some x =>
      if x.ExceptionCode = 0x12345678 then
        match cfg.launcherArgs with
        | none =>
          { exit := Exit.empty_optional_dereferenced,
            trace := [Step.ReadFile_exinfo, Step.TerminateProcess 0] }
        | some l =>
          { exit := Exit.returned 0,
            trace := [Step.ReadFile_exinfo, Step.TerminateProcess 0]
              ++ restart_game_using_injector W e.CreateProcessW IdRadioRestartNormal l }
      else if (attach_debugger e.attach_failure).2 then
        { exit := Exit.uncaught_exception,
          trace := [Step.ReadFile_exinfo] ++ (try_attach_xclr attached e).1
            ++ (attach_debugger e.attach_failure).1 }
      else
        let before :=
          [Step.ReadFile_exinfo] ++ (try_attach_xclr attached e).1
          ++ (attach_debugger e.attach_failure).1 ++ report W cfg x e
        match e.TaskDialogIndirect with
        | none =>
          (main_loop W cfg (try_attach_xclr attached e).2 rest).after
            (before ++ [Step.ResumeThread x.hThreadHandle])
        | some (nButtonPressed, nRadioButton) =>
          if nButtonPressed = IdButtonRestart then
            match cfg.launcherArgs with
            | none =>
              { exit := Exit.empty_optional_dereferenced,
                trace := before ++ [Step.TerminateProcess x.ExceptionCode] }
            | some l =>
              (main_loop W cfg (try_attach_xclr attached e).2 rest).after
                (before ++ [Step.TerminateProcess x.ExceptionCode]
                  ++ restart_game_using_injector W e.CreateProcessW nRadioButton l)
          else if e.attemptResume then
            (main_loop W cfg (try_attach_xclr attached e).2 rest).after
              (before ++ [Step.ResumeThread x.hThreadHandle])
          else
            (main_loop W cfg (try_attach_xclr attached e).2 rest).after
              (before ++ [Step.TerminateProcess x.ExceptionCode])

/-- The function `main`, on the vector `args` of the command line. -/
def main (W : World) (args : List WString) (events : List Event) : Run :=
  match parse_args W (args.drop 1) Startup.initial with
  | none => { exit := Exit.returned InvalidParameter, trace := [] }
  | some cfg =>
    if cfg.g_hProcess = 0 then { exit := Exit.returned InvalidParameter, trace := [] }
    else if cfg.hPipeRead = 0 then { exit := Exit.returned InvalidParameter, trace := [] }
    else if cfg.g_assetsDirectory = [] then
      { exit := Exit.returned InvalidParameter, trace := [] }
    else if W.GetProcessId cfg.g_hProcess = 0 then
      { exit := Exit.returned InvalidParameter, trace := [] }
    else main_loop W cfg false events

/-! ### Reading a command line -/

/-- An argument that the argument loop accepts before the separator: one of
the four options, or the separator itself. -/
def recognised (arg : WString) : Bool :=
  OPT_PROCESS_HANDLE.isPrefixOf arg || OPT_PIPE_READ_HANDLE.isPrefixOf arg
  || OPT_ASSET_DIRECTORY.isPrefixOf arg || OPT_LOG_DIRECTORY.isPrefixOf arg
  || arg == SEPARATOR

/-- The arguments before the first `--`. -/
def options_of (rest : List WString) : List WString :=
  rest.takeWhile (fun a => a != SEPARATOR)

/-- The value given to the option `name` among `opts`: the text after `name` in
the last argument that starts with `name`; nothing when the option is missing. -/
def option_value (name : WString) : List WString → Option WString
  | [] => none
  | a :: rest =>
    match option_value name rest with
    | some v => some v
    | none => if name.isPrefixOf a then some (a.drop name.length) else none

/-- Every start of the injector in a trace has `W.injector` as its program and,
as its command line, the arguments `injector`, `launch`, the flag of some mode,
`--` and then exactly `l`. -/
def restarts_with (W : World) (l : List WString) (trace : List Step) : Prop :=
  ∀ s ∈ trace, ∀ app cmd, s = Step.CreateProcessW app cmd →
    app = W.injector ∧
    ∃ nRadioButton : Int,
      cmd = c_str (build_argstr
        ([W.injector, "launch".toList] ++ mode_flag nRadioButton ++ [SEPARATOR] ++ l))

/-! ### A sample run -/

/-- The number written in decimal digits at the start of a string. -/
def leading_decimal (s : WString) : Nat :=
  (s.takeWhile Char.isDigit).foldl (fun n c => 10 * n + (c.toNat - 48)) 0

/-- A world in which the handle `1234` is the target process `777`. -/
def sample_world : World where
  wcstoull := leading_decimal
  GetProcessId := fun hProcess => if hProcess = 1234 then 777 else 0
  injector := "C:\\Dalamud\\Dalamud.Injector.exe".toList
  path_append := fun a b => a ++ BS :: b

/-- A turn in which the trap asks for a restart. -/
def sample_restart_event : Event where
  ReadFile := some { ExceptionCode := 0x12345678, nLifetime := 60, dwStackTraceLength := 0,
                     hThreadHandle := 0x88 }
  target_exited := false
  GetExitCodeProcess := none
  CreateProcessW := true
  CLRDataCreateInstance := false
  attach_failure := none
  stackTrace := none
  stamp := "20240101_120000_000_777".toList
  dumpError := none
  rip_string := "ffxiv_dx11.exe+1234".toList
  time_string := "2024-01-01 12:00:00".toList
  print_exception_info := "\nException Info #0\n".toList
  print_exception_info_extended := "\nRegisters\n".toList
  DALAMUD_NO_METRIC := true
  WinHttpOpen := true
  WinHttpConnect := true
  WinHttpOpenRequest := true
  WinHttpSendRequest := true
  TaskDialogIndirect := none
  attemptResume := false

/-- Options with valid handles and an asset directory, and no log directory. -/
def sample_options : List WString :=
  ["--process-handle=1234".toList, "--exception-info-pipe-read-handle=56".toList,
    "--asset-directory=C:\\assets".toList]

/-- Options whose process handle is `0`. -/
def sample_options_without_process : List WString :=
  ["--process-handle=0".toList, "--exception-info-pipe-read-handle=56".toList,
    "--asset-directory=C:\\assets".toList]

/-! ### Reading a run -/

/-- A call of `TerminateProcess`. -/
def Step.is_TerminateProcess : Step → Bool
  | Step.TerminateProcess _ => true
  | _ => false

/-- A call of `ResumeThread`. -/
def Step.is_ResumeThread : Step → Bool
  | Step.ResumeThread _ => true
  | _ => false

/-- A start of the injector. -/
def Step.is_CreateProcessW : Step → Bool
  | Step.CreateProcessW _ _ => true
  | _ => false

/-- A call of the network interface. -/
def Step.is_network_call : Step → Bool
  | Step.WinHttpOpen => true
  | Step.WinHttpConnect _ => true
  | Step.WinHttpOpenRequest _ _ => true
  | Step.WinHttpSendRequest => true
  | _ => false

/-- A step of the reporting thread, its start or its join. -/
def Step.is_reporting : Step → Bool
  | Step.std_thread => true
  | Step.cerr_failed_to_send_metric => true
  | Step.join_submitThread => true
  | s => s.is_network_call

/-- The creation of the dump file or the writing of the log file. -/
def Step.is_file_write : Step → Bool
  | Step.CreateFileW _ => true
  | Step.wofstream _ _ => true
  | _ => false

/-- A call of `TaskDialogIndirect`. -/
def Step.is_TaskDialogIndirect : Step → Bool
  | Step.TaskDialogIndirect _ => true
  | _ => false

/-- A call made by `try_attach_xclr` or `attach_debugger`. -/
def Step.is_attach : Step → Bool
  | Step.LoadLibraryW_mscordaccore => true
  | Step.DebugCreate => true
  | Step.AttachProcess => true
  | Step.QueryInterface_IDebugControl4 => true
  | Step.SetExecutionStatus => true
  | Step.WaitForEvent => true
  | Step.QueryInterface_IDebugSymbols3 => true
  | Step.AppendSymbolPathWide => true
  | Step.QueryInterface_IDebugSystemObjects => true
  | _ => false

/-- The steps of a turn on the fault `x`, from the read of the descriptor to the
call of `TaskDialogIndirect`. -/
def before_decision (W : World) (cfg : Startup) (attached : Bool) (x : exception_info)
    (e : Event) : List Step :=
  [Step.ReadFile_exinfo] ++ (try_attach_xclr attached e).1
  ++ (attach_debugger e.attach_failure).1 ++ report W cfg x e

/-- The descriptor of an access violation, sixty seconds after the start. -/
def sample_fault_info : exception_info :=
  { ExceptionCode := 0xC0000005, nLifetime := 60, dwStackTraceLength := 0,
    hThreadHandle := 0x88 }

/-- A turn in which an access violation is reported and the user presses Exit. -/
def sample_crash_event : Event :=
  { sample_restart_event with
    ReadFile := some sample_fault_info
    DALAMUD_NO_METRIC := false
    TaskDialogIndirect := some (IdButtonExit, IdRadioRestartNormal) }

/-- A turn in which the read of the pipe fails because the target has exited;
`excode` is its exit code, if it can be read. -/
def sample_exit_event (excode : Option Nat) : Event :=
  { sample_restart_event with
    ReadFile := none
    target_exited := true
    GetExitCodeProcess := excode }

/-- The settings of a monitor started with a log directory and host arguments. -/
def sample_startup : Startup :=
  { g_hProcess := 1234, hPipeRead := 56, g_assetsDirectory := "C:\\assets".toList,
    logDir := "C:\\logs".toList, launcherArgs := some ["DEV.TestSID=0".toList] }

/-- A turn in which the user presses Restart with the radio button for a
restart without plugins. -/
def sample_restart_pressed_event : Event :=
  { sample_crash_event with
    TaskDialogIndirect := some (IdButtonRestart, IdRadioRestartWithoutPlugins) }

/-- A turn in which `TaskDialogIndirect` fails. -/
def sample_dialog_failed_event : Event :=
  { sample_crash_event with TaskDialogIndirect := none }

/-- A turn in which the user clicks the resume link. -/
def sample_resume_event : Event :=
  { sample_crash_event with attemptResume := true }

/-- A turn in which `AttachProcess` fails. -/
def sample_attach_failed_event : Event :=
  { sample_crash_event with attach_failure := some AttachCall.AttachProcess }

/-- A turn in which the metric is switched off. -/
def sample_no_metric_event : Event :=
  { sample_crash_event with DALAMUD_NO_METRIC := true }

/-- A turn in which the metric is on and `WinHttpOpen` gives no session. -/
def sample_offline_event : Event :=
  { sample_crash_event with WinHttpOpen := false }

end CrashHandler

namespace Veh

/-! ## The in-process trap (`Dalamud.Boot/veh.cpp`)

Pointers and handles are natural numbers, `0` being `nullptr`.  What the
operating system and the runtime libraries answer during one call is an input
(`Host`, `InstallHost`).  A call returns its value together with the steps it
took, in the order of the source. -/

/-- The value `EXCEPTION_CONTINUE_SEARCH` of `excpt.h`. -/
def EXCEPTION_CONTINUE_SEARCH : Int := 0

/-- The fault code that asks for a restart (`0x12345678` in `exception_handler`). -/
def RESTART_SENTINEL : Nat := 0x12345678

/-- The `case` labels of `is_whitelist_exception`, in the order of the source,
with their values of `winnt.h` and `ntstatus.h`:
`STATUS_ACCESS_VIOLATION`, `STATUS_IN_PAGE_ERROR`, `STATUS_INVALID_HANDLE`,
`STATUS_INVALID_PARAMETER`, `STATUS_NO_MEMORY`, `STATUS_ILLEGAL_INSTRUCTION`,
`STATUS_NONCONTINUABLE_EXCEPTION`, `STATUS_INVALID_DISPOSITION`,
`STATUS_ARRAY_BOUNDS_EXCEEDED`, `STATUS_FLOAT_DENORMAL_OPERAND`,
`STATUS_FLOAT_DIVIDE_BY_ZERO`, `STATUS_FLOAT_INEXACT_RESULT`,
`STATUS_FLOAT_INVALID_OPERATION`, `STATUS_FLOAT_OVERFLOW`,
`STATUS_FLOAT_STACK_CHECK`, `STATUS_FLOAT_UNDERFLOW`,
`STATUS_INTEGER_DIVIDE_BY_ZERO`, `STATUS_INTEGER_OVERFLOW`,
`STATUS_PRIVILEGED_INSTRUCTION`, `STATUS_STACK_OVERFLOW`, `STATUS_DLL_NOT_FOUND`,
`STATUS_ORDINAL_NOT_FOUND`, `STATUS_ENTRYPOINT_NOT_FOUND`,
`STATUS_DLL_INIT_FAILED`, `STATUS_CONTROL_STACK_VIOLATION`,
`STATUS_FLOAT_MULTIPLE_FAULTS`, `STATUS_FLOAT_MULTIPLE_TRAPS`,
`STATUS_HEAP_CORRUPTION`, `STATUS_STACK_BUFFER_OVERRUN`,
`STATUS_INVALID_CRUNTIME_PARAMETER`, `STATUS_THREAD_NOT_RUNNING`,
`STATUS_ALREADY_REGISTERED`. -/
def whitelist : List Nat :=
  [0xC0000005, 0xC0000006, 0xC0000008, 0xC000000D, 0xC0000017, 0xC000001D,
   0xC0000025, 0xC0000026, 0xC000008C, 0xC000008D, 0xC000008E, 0xC000008F,
   0xC0000090, 0xC0000091, 0xC0000092, 0xC0000093, 0xC0000094, 0xC0000095,
   0xC0000096, 0xC00000FD, 0xC0000135, 0xC0000138, 0xC0000139, 0xC0000142,
   0xC00001B2, 0xC00002B4, 0xC00002B5, 0xC0000374, 0xC0000409, 0xC0000417,
   0xC0000516, 0xC0000718]

/-- The function `is_whitelist_exception`. -/
def is_whitelist_exception (code : Nat) : Bool :=
  whitelist.contains code

/-- The globals of veh.cpp. -/
structure Globals where
  /-- The handle returned by `AddVectoredExceptionHandler`. -/
  g_veh_handle : Nat
  /-- The full-dump flag. -/
  g_veh_do_full_dump : Bool
  /-- The pointer to the mapped shared descriptor. -/
  g_crashhandler_shared_info : Nat
  /-- The handle of the event. -/
  g_crashhandler_event : Nat
  /-- The start time, in ticks of `std::chrono::system_clock`. -/
  g_time_start : Int
deriving DecidableEq, Repr

/-- The fields of the shared `exception_info` that veh.cpp writes. -/
structure exception_info where
  /-- The path buffer. -/
  DumpPath : WString
  /-- The id of the faulted thread. -/
  ThreadId : Nat
  /-- The id of the host process. -/
  ProcessId : Nat
  /-- The pointer `ex` of the fault. -/
  ExceptionPointers : Nat
  /-- The full-dump flag. -/
  DoFullDump : Bool
  /-- The fault code. -/
  ExceptionCode : Nat
  /-- The elapsed lifetime, in seconds. -/
  Lifetime : Int
deriving DecidableEq, Repr

/-- The argument of `exception_handler`: the pointer `ex` and what the handler
reads through it. -/
structure Fault where
  /-- The pointer `ex` itself. -/
  ex : Nat
  /-- The value `ex->ExceptionRecord->ExceptionCode`. -/
  ExceptionCode : Nat
  /-- The value `ex->ContextRecord->Rip`. -/
  Rip : Nat
  /-- The value `ex->ContextRecord->Rsp`; it is `0`, outside the range in which
  the stack is shown, where it is not given. -/
  Rsp : Nat := 0
deriving DecidableEq, Repr

/-- What the surroundings answer during one call of `exception_handler`. -/
structure Host where
  /-- The module that holds an address, by `GetModuleHandleExA`. -/
  GetModuleHandleExA : Nat → Option Nat
  /-- The path of a module, by `GetModuleFileNameW`; empty when it fails. -/
  GetModuleFileNameW : Nat → WString
  /-- The member `std::filesystem::path::filename`. -/
  filename : WString → WString
  /-- The comparison `_wcsicmp`, which ignores case. -/
  wcsicmp : WString → WString → Int
  /-- The value of `GetThreadId(GetCurrentThread())`. -/
  GetThreadId : Nat
  /-- The value of `GetCurrentProcessId()`. -/
  GetCurrentProcessId : Nat
  /-- The string `dmp_path`. -/
  dmp_path : WString
  /-- The string `log_path`. -/
  log_path : WString
  /-- The four lines written to `log` before `print_exception_info`. -/
  log_header : WString
  /-- What `print_exception_info` appends to `log`.  The records that the
  system hands to the handler are taken as a readable chain that ends. -/
  print_exception_info : WString
  /-- Whether the eight bytes at an address can be loaded.  The section `Stack`
  of `print_exception_info_extended` loads each of its 16 words through a plain
  pointer, and such a load raises an access violation when they cannot. -/
  readable : Nat → Bool
  /-- What `print_exception_info_extended` appends to `log` when it ends. -/
  print_exception_info_extended : WString
  /-- The value of `std::chrono::system_clock::now()`, in ticks. -/
  system_clock_now : Int
  /-- The error code of `g_clr->get_function_pointer`, `0` when it succeeds. -/
  get_function_pointer : Nat
  /-- The message returned by the managed callback. -/
  VehCallback : WString
  /-- The result of `TaskDialogIndirect`: nothing when it failed, otherwise
  the button pressed and the radio button selected. -/
  TaskDialogIndirect : Option (Int × Int)

/-- The steps of the trap and of its installation. -/
inductive Step where
  | restart_game_using_injector (nRadioButton : Int)
  | TerminateProcess (uExitCode : Nat)
  | allow_list_filter
  | ownership_filter
  | lock
  | access_violation (address : Nat)
  | narrative (window_log_str log : WString)
  | memset_shared_info
  | store_DumpPath (v : WString)
  | store_ThreadId (v : Nat)
  | store_ProcessId (v : Nat)
  | store_ExceptionPointers (v : Nat)
  | store_DoFullDump (v : Bool)
  | store_ExceptionCode (v : Nat)
  | store_Lifetime (v : Int)
  | SetEvent
  | get_function_pointer
  | VehCallback (dmp_path log_path log : WString)
  | logging_E (message : WString)
  | TaskDialogIndirect (pszContent pszExpandedInformation : WString)
  | AddVectoredExceptionHandler
  | SetUnhandledExceptionFilter
  | CreateFileMapping
  | MapViewOfFile
  | CreateEvent
  | CreateProcess (lpApplicationName : WString) (lpCommandLine : Option WString)
  | CloseHandle
deriving DecidableEq, Repr

/-- The value returned by `exception_handler` and the steps it took. -/
structure Result where
  /-- The returned value; nothing when the handler does not return, because a
  load that it makes raises an access violation. -/
  ret : Option Int
  /-- The steps, in order. -/
  trace : List Step
deriving DecidableEq, Repr

/-- The first module name given to `is_ffxiv_address`. -/
def FFXIV_DX11_EXE : WString := "ffxiv_dx11.exe".toList

/-- The second module name given to `is_ffxiv_address`. -/
def CIMGUI_DLL : WString := "cimgui.dll".toList

/-- The function `get_module_file_and_base`: the base and the path of the
module that holds `address`. -/
def get_module_file_and_base (h : Host) (address : Nat) : Option (Nat × WString) :=
  match h.GetModuleHandleExA address with
  | some handle =>
    if h.GetModuleFileNameW handle ≠ [] then some (handle, h.GetModuleFileNameW handle)
    else none
  | none => none

/-- The function `is_ffxiv_address`. -/
def is_ffxiv_address (h : Host) (module_name : WString) (address : Nat) : Bool :=
  match get_module_file_and_base h address with
  | some (_, module_path) => h.wcsicmp (h.filename module_path) module_name == 0
  | none => false

/-- The number of ticks of `std::chrono::system_clock` in one second. -/
def TICKS_PER_SECOND : Int := 10000000

/-- The expression `duration_cast<seconds>(t.time_since_epoch()).count()`. -/
def seconds_since_epoch (t : Int) : Int :=
  Int.tdiv t TICKS_PER_SECOND

/-- The digits of `{:08x}`: lower-case hexadecimal, filled with zeros to eight. -/
def hex08 (n : Nat) : WString :=
  List.replicate (8 - (Nat.toDigits 16 n).length) (Char.ofNat 48) ++ Nat.toDigits 16 n

/-- The message built when `get_function_pointer` fails. -/
def failure_message (log_path : WString) (err : Nat) : WString :=
  ("An error within the game has occurred.\n\n" ++
   "This may be caused by a faulty plugin, a broken TexTools modification, any other third-party tool or simply a bug in the game.\n" ++
   "Please try \"Start Over\" or \"Download Index Backup\" in TexTools, an integrity check in the XIVLauncher settings, and disabling plugins you don't need.\n\n" ++
   "The log file is located at:\n").toList ++ log_path ++
   "\n\nPress OK to exit the application.\n\nFailed to read stack trace: 0x".toList ++ hex08 err

/-- The block `if (g_crashhandler_shared_info && g_crashhandler_event)`. -/
def publish (G : Globals) (h : Host) (f : Fault) : List Step :=
  if G.g_crashhandler_shared_info ≠ 0 ∧ G.g_crashhandler_event ≠ 0 then
    [Step.memset_shared_info,
     Step.store_DumpPath ((c_str h.dmp_path).take 1000),
     Step.store_ThreadId h.GetThreadId,
     Step.store_ProcessId h.GetCurrentProcessId,
     Step.store_ExceptionPointers f.ex,
     Step.store_DoFullDump G.g_veh_do_full_dump,
     Step.store_ExceptionCode f.ExceptionCode,
     Step.store_Lifetime
       (seconds_since_epoch h.system_clock_now - seconds_since_epoch G.g_time_start),
     Step.SetEvent]
  else []

/-- The body of the dialog thread after `TaskDialogIndirect`. -/
def dialog_decision (h : Host) (f : Fault) : List Step :=
  match h.TaskDialogIndirect with
  | none => []
  | some (nButtonPressed, nRadioButton) =>
    if nButtonPressed = IdButtonRestart then
      [Step.restart_game_using_injector nRadioButton, Step.TerminateProcess f.ExceptionCode]
    else []

/-- The string `window_log_str`: `log` as it is after `print_exception_info`. -/
def window_log_str (h : Host) : WString :=
  h.log_header ++ h.print_exception_info

/-- The string `log.str()` after `print_exception_info_extended`. -/
def log (h : Host) : WString :=
  window_log_str h ++ h.print_exception_info_extended

/-- The string `message`: built by the trap when `get_function_pointer` fails,
returned by the managed callback otherwise. -/
def message (h : Host) : WString :=
  if h.get_function_pointer ≠ 0 then failure_message h.log_path h.get_function_pointer
  else h.VehCallback

/-- The address of the first word of the section `Stack` that cannot be
loaded, if there is one: `print_exception_info_extended` shows the stack when
the stack pointer lies strictly between 0x10000 and 0x7FFFFFFE0000, and then
loads the 16 words at `Rsp + i * 8` one after the other. -/
def stack_fault (h : Host) (f : Fault) : Option Nat :=
  if 0x10000 < f.Rsp ∧ f.Rsp < 0x7FFFFFFE0000 then
    ((List.range 16).map (fun i => (f.Rsp + i * 8) % 2 ^ 64)).find?
      (fun address => !h.readable address)
  else none

/-- The steps of `exception_handler` from the lock to the start of the dialog
thread, when the narrative is built to its end. -/
def narration (G : Globals) (h : Host) (f : Fault) : List Step :=
  [Step.lock, Step.narrative (window_log_str h) (log h)]
  ++ publish G h f
  ++ (if h.get_function_pointer ≠ 0 then [Step.get_function_pointer]
      else [Step.get_function_pointer, Step.VehCallback h.dmp_path h.log_path (log h)])
  ++ [Step.logging_E (message h)]

/-- The function `exception_handler`.  After the two filters it takes the lock
and builds the narrative; when a load of the section `Stack` raises an access
violation, the handler goes no further: it publishes nothing, presents no
dialog and does not return. -/
def exception_handler (G : Globals) (h : Host) (f : Fault) : Result :=
  if f.ExceptionCode = RESTART_SENTINEL then
    { ret := EXCEPTION_CONTINUE_SEARCH,
      trace := [Step.restart_game_using_injector IdRadioRestartNormal, Step.TerminateProcess 0] }
  else if !is_whitelist_exception f.ExceptionCode then
    { ret := EXCEPTION_CONTINUE_SEARCH, trace := [Step.allow_list_filter] }
  else if !is_ffxiv_address h FFXIV_DX11_EXE f.Rip
      && !is_ffxiv_address h CIMGUI_DLL f.Rip then
    { ret := EXCEPTION_CONTINUE_SEARCH, trace := [Step.allow_list_filter, Step.ownership_filter] }
  else
    match stack_fault h f with
    | some address =>
      { ret := none,
        trace :=
          [Step.allow_list_filter, Step.ownership_filter, Step.lock,
            Step.access_violation address] }
    | none =>
      { ret := EXCEPTION_CONTINUE_SEARCH,
        trace :=
          [Step.allow_list_filter, Step.ownership_filter]
          ++ narration G h f
          ++ [Step.TaskDialogIndirect (message h) (window_log_str h)]
          ++ dialog_decision h f }

/-- What the surroundings answer during one call of `veh::add_handler`. -/
structure InstallHost where
  /-- The handle returned by `AddVectoredExceptionHandler`. -/
  AddVectoredExceptionHandler : Nat
  /-- The value of `std::chrono::system_clock::now()`, in ticks. -/
  system_clock_now : Int
  /-- The handle returned by `CreateFileMapping`. -/
  CreateFileMapping : Nat
  /-- The pointer returned by `MapViewOfFile`. -/
  MapViewOfFile : Nat
  /-- The handle returned by `CreateEvent`. -/
  CreateEvent : Nat
  /-- The operator `/` of `std::filesystem::path`. -/
  path_append : WString → WString → WString

/-- The value returned by `veh::add_handler`, the globals after it and the steps
it took. -/
structure InstallResult where
  /-- The returned value. -/
  ret : Bool
  /-- The globals after the call. -/
  globals : Globals
  /-- The steps, in order. -/
  trace : List Step
deriving DecidableEq, Repr

/-- The function `veh::add_handler`. -/
def add_handler (G : Globals) (o : InstallHost) (doFullDump : Bool)
    (workingDirectory : WString) : InstallResult :=
  if G.g_veh_handle ≠ 0 then { ret := false, globals := G, trace := [] }
  else
    { ret := decide (o.AddVectoredExceptionHandler ≠ 0),
      globals :=
        { g_veh_handle := o.AddVectoredExceptionHandler,
          g_veh_do_full_dump := doFullDump,
          g_time_start := o.system_clock_now,
          g_crashhandler_shared_info :=
            if o.CreateFileMapping = 0 then 0 else o.MapViewOfFile,
          g_crashhandler_event := o.CreateEvent },
      trace :=
        [Step.AddVectoredExceptionHandler, Step.SetUnhandledExceptionFilter,
          Step.CreateFileMapping]
        ++ (if o.CreateFileMapping = 0 then [] else [Step.MapViewOfFile])
        ++ [Step.CreateEvent,
            Step.CreateProcess
              (o.path_append workingDirectory "DalamudCrashHandler.exe".toList) none,
            Step.CloseHandle, Step.CloseHandle] }

/-! ### Reading a trace -/

/-- A step that writes to the shared descriptor. -/
def Step.writes_descriptor : Step → Bool
  | Step.memset_shared_info => true
  | Step.store_DumpPath _ => true
  | Step.store_ThreadId _ => true
  | Step.store_ProcessId _ => true
  | Step.store_ExceptionPointers _ => true
  | Step.store_DoFullDump _ => true
  | Step.store_ExceptionCode _ => true
  | Step.store_Lifetime _ => true
  | _ => false

/-- A step of the narration of a fault: a write to the shared descriptor, the
signal of the event, the building of the narrative, the managed callback, the
dialog. -/
def Step.is_narrative_action : Step → Bool
  | Step.SetEvent => true
  | Step.narrative _ _ => true
  | Step.VehCallback _ _ _ => true
  | Step.TaskDialogIndirect _ _ => true
  | s => s.writes_descriptor

/-- A step that puts an end to the host: the relaunch or the termination. -/
def Step.ends_host : Step → Bool
  | Step.restart_game_using_injector _ => true
  | Step.TerminateProcess _ => true
  | _ => false

/-- Whether the dialog was presented. -/
def Step.is_dialog : Step → Bool
  | Step.TaskDialogIndirect _ _ => true
  | _ => false

/-- The fault goes on to the next handler: the trap returns
`EXCEPTION_CONTINUE_SEARCH` and has neither relaunched nor terminated the host. -/
def propagation_continues (r : Result) : Bool :=
  r.ret == EXCEPTION_CONTINUE_SEARCH && !r.trace.any Step.ends_host

/-- The shared descriptor after one step. -/
def Step.apply (m : exception_info) : Step → exception_info
  | Step.memset_shared_info =>
    { DumpPath := [], ThreadId := 0, ProcessId := 0, ExceptionPointers := 0,
      DoFullDump := false, ExceptionCode := 0, Lifetime := 0 }
  | Step.store_DumpPath v => { m with DumpPath := v }
  | Step.store_ThreadId v => { m with ThreadId := v }
  | Step.store_ProcessId v => { m with ProcessId := v }
  | Step.store_ExceptionPointers v => { m with ExceptionPointers := v }
  | Step.store_DoFullDump v => { m with DoFullDump := v }
  | Step.store_ExceptionCode v => { m with ExceptionCode := v }
  | Step.store_Lifetime v => { m with Lifetime := v }
  | _ => m

/-- The shared descriptor after a trace, from the content `m`. -/
def shared_info_after (m : exception_info) (trace : List Step) : exception_info :=
  trace.foldl Step.apply m

/-- The contents of the shared descriptor at each signal of the event, in
order, along a trace that starts from the content `m`. -/
def signalled (m : exception_info) : List Step → List exception_info
  | [] => []
  | Step.SetEvent :: rest => m :: signalled m rest
  | s :: rest => signalled (s.apply m) rest

/-- The address is outside the protected modules: it resolves to no module, or
to a module whose file name is neither `ffxiv_dx11.exe` nor `cimgui.dll` when
case is ignored. -/
def outside_protected_modules (h : Host) (address : Nat) : Prop :=
  get_module_file_and_base h address = none ∨
  ∃ base path, get_module_file_and_base h address = some (base, path) ∧
    h.wcsicmp (h.filename path) FFXIV_DX11_EXE ≠ 0 ∧
    h.wcsicmp (h.filename path) CIMGUI_DLL ≠ 0

/-- The fault passed both filters of `exception_handler`. -/
def passed_both_filters (h : Host) (f : Fault) : Prop :=
  is_whitelist_exception f.ExceptionCode = true ∧
  (is_ffxiv_address h FFXIV_DX11_EXE f.Rip = true ∨
    is_ffxiv_address h CIMGUI_DLL f.Rip = true)

/-! ### A sample host -/

/-- The lower-case form of an ASCII letter. -/
def ascii_lower (c : Char) : Char :=
  if 65 ≤ c.toNat ∧ c.toNat ≤ 90 then Char.ofNat (c.toNat + 32) else c

/-- A comparison that ignores the case of ASCII letters. -/
def ascii_wcsicmp : WString → WString → Int
  | [], [] => 0
  | [], _ :: _ => -1
  | _ :: _, [] => 1
  | a :: as, b :: bs =>
    if ascii_lower a = ascii_lower b then ascii_wcsicmp as bs
    else ((ascii_lower a).toNat : Int) - ((ascii_lower b).toNat : Int)

/-- The last component of a path whose separators are `\` and `/`. -/
def last_component (p : WString) : WString :=
  (p.reverse.takeWhile (fun c => c != BS && c != Char.ofNat 47)).reverse

/-- A host in which the game's executable is mapped at `0x140000000`, every
other address belongs to no module, the managed callback is available and
the user presses Restart with the third radio button. -/
def sample_host : Host where
  GetModuleHandleExA := fun a =>
    if 0x140000000 ≤ a ∧ a < 0x144000000 then some 0x140000000 else none
  GetModuleFileNameW := fun m =>
    if m = 0x140000000 then "C:\\Games\\FFXIV\\game\\FFXIV_DX11.EXE".toList else []
  filename := last_component
  wcsicmp := ascii_wcsicmp
  readable := fun _ => true
  GetThreadId := 4242
  GetCurrentProcessId := 777
  dmp_path := "C:\\logs\\dalamud_appcrash.dmp".toList
  log_path := "C:\\logs\\dalamud_appcrash.log".toList
  log_header := "Unhandled native exception occurred at ffxiv_dx11.exe+1234\n".toList
  print_exception_info := "\nException Info #1\n".toList
  print_exception_info_extended := "\nRegisters\n".toList
  system_clock_now := 17000000605000000
  get_function_pointer := 0
  VehCallback := "An error occurred".toList
  TaskDialogIndirect := some (IdButtonRestart, IdRadioRestartWithoutPlugins)

/-- The globals of an installed trap with the shared channel open. -/
def sample_globals : Globals where
  g_veh_handle := 0x5000
  g_veh_do_full_dump := true
  g_crashhandler_shared_info := 0x6000
  g_crashhandler_event := 0x44
  g_time_start := 17000000000000000

/-- An access violation inside the game's executable. -/
def sample_fault : Fault where
  ex := 0x9000
  ExceptionCode := 0xC0000005
  Rip := 0x140001234
  Rsp := 0x7FF000001000

/-- The host of `sample_host` in which the stack of the faulting thread is the
only memory that can be loaded, and ends at `0x7FF000002000`. -/
def sample_stack_end_host : Host :=
  { sample_host with
    readable := fun address => decide (0x7FF000000000 ≤ address ∧ address < 0x7FF000002000) }

/-- An access violation inside the game's executable, the stack pointer being
64 bytes below the end of the stack. -/
def sample_stack_end_fault : Fault where
  ex := 0x9000
  ExceptionCode := 0xC0000005
  Rip := 0x140001234
  Rsp := 0x7FF000001FC0

/-- Answers of a system on which every call of `veh::add_handler` succeeds. -/
def sample_install : InstallHost where
  AddVectoredExceptionHandler := 0x5000
  system_clock_now := 17000000000000000
  CreateFileMapping := 0x40
  MapViewOfFile := 0x6000
  CreateEvent := 0x44
  path_append := fun a b => a ++ BS :: b

end Veh

/-! ## Address resolution (`to_address_string` in both source files)

Both functions return a string made by one of their calls of `std::format`.
The model keeps which call made it, with its arguments; `AddressString.text` is
the string itself.  Addresses are natural numbers below `2^64`. -/

/-- The value returned by `to_address_string`. -/
inductive AddressString where
  /-- The format `CLR:{:X}\t({}+{:X})` of the monitor. -/
  | clr (address : Nat) (name : WString) (displacement : Nat)
  /-- The format `{}\t({})` of a found symbol: `addr_str`, then the symbol with
  its displacement. -/
  | symbol (addr_str : WString) (name : WString)
  /-- The format `{} [{}]`: `addr_str`, then in brackets the resolution of the
  value read at the address. -/
  | deref (addr_str : WString) (value : AddressString)
  /-- The string `addr_str` alone. -/
  | plain (addr_str : WString)
deriving DecidableEq, Repr

/-- The string that `std::format` makes. -/
def AddressString.text : AddressString → WString
  | AddressString.clr address name displacement =>
    "CLR:".toList ++ CrashHandler.HEX address ++ [TAB, Char.ofNat 40] ++ name
      ++ [Char.ofNat 43] ++ CrashHandler.HEX displacement ++ [Char.ofNat 41]
  | AddressString.symbol addr_str name =>
    addr_str ++ [TAB, Char.ofNat 40] ++ name ++ [Char.ofNat 41]
  | AddressString.deref addr_str value =>
    addr_str ++ [SP, Char.ofNat 91] ++ value.text ++ [Char.ofNat 93]
  | AddressString.plain addr_str => addr_str

/-- Whether the string carries the bracketed hint, that is, was made by the
format `{} [{}]`. -/
def AddressString.has_hint : AddressString → Bool
  | AddressString.deref _ _ => true
  | _ => false

/-- The number of bracketed hints in the string, nested ones included. -/
def AddressString.hints : AddressString → Nat
  | AddressString.deref _ value => value.hints + 1
  | _ => 0

/-- The text `{}+{:X}` of a module and an offset. -/
def module_offset (file : WString) (offset : Nat) : WString :=
  file ++ [Char.ofNat 43] ++ CrashHandler.HEX offset

/-- The difference of two `DWORD64`. -/
def sub64 (a b : Nat) : Nat :=
  (a + (2 ^ 64 - b % 2 ^ 64)) % 2 ^ 64

/-- The local `value` of `to_address_string` after the conditional read:
`read address` is what `ReadProcessMemory` leaves in it, `0` when nothing is
read. -/
def deref_value (read : Nat → Nat) (address : Nat) (try_ptrderef : Bool) : Nat :=
  if try_ptrderef = true ∧ address > 0x10000 ∧ address < 0x7FFFFFFE0000 then read address
  else 0

namespace CrashHandler

/-! ### The monitor's resolution (DalamudCrashHandler.cpp, lines 57-173) -/

/-- What the target process and the debugger session answer to the monitor. -/
structure Target where
  /-- Whether `g_pClrDataProcess` is set. -/
  g_pClrDataProcess : Bool
  /-- The name and the displacement given by `GetRuntimeNameByAddress`, nothing
  when it fails. -/
  GetRuntimeNameByAddress : Nat → Option (WString × Nat)
  /-- The handles of the modules of the target at the call of
  `EnumProcessModules` in a turn of the enumeration loop, nothing when the call
  fails: the call writes as many of them as `buf` holds and sets `needed` to
  the size of them all. -/
  EnumProcessModules : Nat → Option (List Nat)
  /-- The field `e_lfanew` of the `IMAGE_DOS_HEADER` read at a module handle,
  nothing when the read fails or is short. -/
  read_IMAGE_DOS_HEADER : Nat → Option Int
  /-- The field `OptionalHeader.SizeOfImage` of the `IMAGE_NT_HEADERS64` read at
  an address, nothing when the read fails or is short. -/
  read_IMAGE_NT_HEADERS64 : Nat → Option Nat
  /-- The path given by `GetModuleFileNameExW`, empty when it fails. -/
  GetModuleFileNameExW : Nat → WString
  /-- The member `std::filesystem::path::filename`. -/
  filename : WString → WString
  /-- What `ReadProcessMemory` leaves in `value`, which starts as `0`. -/
  ReadProcessMemory_value : Nat → Nat
  /-- The name and the displacement given by `GetNameByOffsetWide`, nothing when
  it fails. -/
  GetNameByOffsetWide : Nat → Option (WString × Nat)

/-- The assignment `data[key] = value` on a `std::map`, kept as a list of
pairs in increasing order of the keys. -/
def map_assign {β : Type} (key : Nat) (value : β) : List (Nat × β) → List (Nat × β)
  | [] => [(key, value)]
  | (k, v) :: rest =>
    if key < k then (key, value) :: (k, v) :: rest
    else if key = k then (key, value) :: rest
    else (k, v) :: map_assign key value rest

/-- The member `resize` of a vector of handles: the first `n` entries, filled
up with null handles. -/
def resize (n : Nat) (buf : List Nat) : List Nat :=
  buf.take n ++ List.replicate (n - buf.length) 0

/-- The enumeration loop of `get_remote_modules` with `remaining` turns left,
at its turn `i`: the vector `buf` when the loop is left. -/
def enumerate (T : Target) : Nat → Nat → List Nat → List Nat
  | 0, _, buf => buf
  | remaining + 1, i, buf =>
    match T.EnumProcessModules i with
    | none => buf
    | some modules =>
      if (8 * modules.length) % 2 ^ 32 > 8 * buf.length then
        enumerate T remaining (i + 1)
          (resize ((8 * modules.length) % 2 ^ 32 / 8 + 16)
            (modules.take buf.length ++ buf.drop modules.length))
      else
        resize ((8 * modules.length) % 2 ^ 32 / 8)
          (modules.take buf.length ++ buf.drop modules.length)

/-- The vector `buf` after the enumeration loop of `get_remote_modules`, which
starts with 8192 null handles and has 64 turns. -/
def enumerated_handles (T : Target) : List Nat :=
  enumerate T 64 0 (List.replicate 8192 0)

/-- The address `reinterpret_cast<const char*>(hModule) + dosh.e_lfanew`. -/
def nt_headers_address (hModule : Nat) (e_lfanew : Int) : Nat :=
  (((hModule : Int) + e_lfanew) % 2 ^ 64).toNat

/-- The loop `for (const auto& hModule : buf)` of `get_remote_modules` over the
handles that are left, `data` being the map built so far. -/
def read_module_sizes (T : Target) : List Nat → List (Nat × Nat) → List (Nat × Nat)
  | [], data => data
  | hModule :: rest, data =>
    match T.read_IMAGE_DOS_HEADER hModule with
    | none => read_module_sizes T rest data
    | some e_lfanew =>
      match T.read_IMAGE_NT_HEADERS64 (nt_headers_address hModule e_lfanew) with
      | none => read_module_sizes T rest data
      | some SizeOfImage => read_module_sizes T rest (map_assign hModule SizeOfImage data)

/-- The function `get_remote_modules`: the image size of each module. -/
def get_remote_modules (T : Target) : List (Nat × Nat) :=
  read_module_sizes T (enumerated_handles T) []

/-- The function `get_remote_module_paths`: the path of each module of
`get_remote_modules` whose path is known. -/
def get_remote_module_paths (T : Target) : List (Nat × WString) :=
  (get_remote_modules T).filterMap (fun entry =>
    if T.GetModuleFileNameExW entry.1 = [] then none
    else some (entry.1, T.GetModuleFileNameExW entry.1))

/-- The expression `get_remote_modules().at(hModule)`. -/
def module_size (T : Target) (hModule : Nat) : Nat :=
  ((get_remote_modules T).lookup hModule).getD 0

/-- The loop of `get_module_file_and_base` over the entries that are left. -/
def find_module (T : Target) (address : Nat) : List (Nat × WString) → Option (Nat × WString)
  | [] => none
  | (hModule, path) :: rest =>
    if address < hModule then find_module T address rest
    else if (hModule + module_size T hModule) % 2 ^ 64 ≤ address then
      find_module T address rest
    else some (hModule, path)

/-- The function `get_module_file_and_base`: the base and the path of the
module that holds `address`. -/
def get_module_file_and_base (T : Target) (address : Nat) : Option (Nat × WString) :=
  find_module T address (get_remote_module_paths T)

/-- The name given by the managed runtime, when `g_pClrDataProcess` is set and
`GetRuntimeNameByAddress` succeeds. -/
def runtime_name (T : Target) (address : Nat) : Option (WString × Nat) :=
  if T.g_pClrDataProcess then T.GetRuntimeNameByAddress address else none

/-- The local `addr_str` of `to_address_string`. -/
def addr_str (T : Target) (address : Nat) : WString :=
  match get_module_file_and_base T address with
  | some (module_base, module_path) =>
    module_offset (c_str (T.filename module_path)) (address - module_base)
  | none => HEX address

/-- The function `to_address_string` of the monitor. -/
def to_address_string (T : Target) (address : Nat) (try_ptrderef : Bool) : AddressString :=
  match runtime_name T address with
  | some (name, displacement) => AddressString.clr address name displacement
  | none =>
    match T.GetNameByOffsetWide address with
    | some (name, displacement) =>
      AddressString.symbol (addr_str T address) (name ++ [Char.ofNat 43] ++ HEX displacement)
    | none =>
      if h : deref_value T.ReadProcessMemory_value address try_ptrderef ≠ 0 then
        AddressString.deref (addr_str T address)
          (to_address_string T (deref_value T.ReadProcessMemory_value address try_ptrderef)
            false)
      else AddressString.plain (addr_str T address)
termination_by (if try_ptrderef = true then 1 else 0)
decreasing_by
  cases try_ptrderef with
  | false => exact absurd (if_neg (fun c => Bool.noConfusion c.1)) h
  | true => simp

/-- A target with the game's executable at `0x7FF600000000` and a library at
`0x7FFA00000000`, one managed frame, one native symbol and one stored
pointer. -/
def sample_target : Target where
  g_pClrDataProcess := true
  GetRuntimeNameByAddress := fun a =>
    if a = 0x7FF600001234 then some ("Dalamud.EntryPoint.Initialize".toList, 0x1C) else none
  EnumProcessModules := fun _ => some [0x7FFA00000000, 0x7FF600000000]
  read_IMAGE_DOS_HEADER := fun _ => some 0xF8
  read_IMAGE_NT_HEADERS64 := fun a =>
    if a = 0x7FF6000000F8 then some 0x4000000
    else if a = 0x7FFA000000F8 then some 0x200000
    else none
  GetModuleFileNameExW := fun m =>
    if m = 0x7FF600000000 then "C:\\Games\\FFXIV\\game\\ffxiv_dx11.exe".toList
    else if m = 0x7FFA00000000 then "C:\\Windows\\System32\\ntdll.dll".toList
    else []
  filename := Veh.last_component
  ReadProcessMemory_value := fun a => if a = 0x7FF600002000 then 0x7FFA00000040 else 0
  GetNameByOffsetWide := fun a =>
    if a = 0x7FF600003000 then some ("ffxiv_dx11!WinMain".toList, 0x10) else none

end CrashHandler

namespace Veh

/-! ### The trap's resolution (veh.cpp, lines 78-143) -/

/-- What the process answers to the trap's symbol and memory queries. -/
structure Introspection where
  /-- What `ReadProcessMemory` leaves in `value`, which starts as `0`. -/
  ReadProcessMemory_value : Nat → Nat
  /-- The name and the displacement given by `SymFromAddrW`, nothing when it
  fails. -/
  SymFromAddrW : Nat → Option (WString × Nat)

/-- The function `get_sym_from_addr`: the displacement and the name of the
symbol, when `SymFromAddrW` succeeds with a name that is not empty. -/
def get_sym_from_addr (i : Introspection) (address : Nat) : Option (Nat × WString) :=
  match i.SymFromAddrW address with
  | some (name, displacement) =>
    if c_str name ≠ [] then some (displacement, c_str name) else none
  | none => none

/-- The local `addr_str` of `to_address_string`. -/
def addr_str (h : Host) (address : Nat) : WString :=
  match get_module_file_and_base h address with
  | some (module_base, module_path) =>
    module_offset (c_str (h.filename module_path)) (sub64 address module_base)
  | none => CrashHandler.HEX address

/-- The function `to_address_string` of the trap. -/
def to_address_string (h : Host) (i : Introspection) (address : Nat) (try_ptrderef : Bool) :
    AddressString :=
  match get_sym_from_addr i address with
  | some (displacement, symbol) =>
    AddressString.symbol (addr_str h address)
      (if displacement ≠ 0 then symbol ++ "+0x".toList ++ CrashHandler.HEX displacement
       else symbol)
  | none =>
    if hv : deref_value i.ReadProcessMemory_value address try_ptrderef ≠ 0 then
      AddressString.deref (addr_str h address)
        (to_address_string h i (deref_value i.ReadProcessMemory_value address try_ptrderef)
          false)
    else AddressString.plain (addr_str h address)
termination_by (if try_ptrderef = true then 1 else 0)
decreasing_by
  cases try_ptrderef with
  | false => exact absurd (if_neg (fun c => Bool.noConfusion c.1)) hv
  | true => simp

/-- Answers of a process with two symbols and one stored pointer in the
executable of `sample_host`. -/
def sample_introspection : Introspection where
  ReadProcessMemory_value := fun a => if a = 0x140002000 then 0x150000000 else 0
  SymFromAddrW := fun a =>
    if a = 0x140001234 then some ("WinMain".toList, 0x34)
    else if a = 0x140005000 then some ("CreateWindow".toList, 0)
    else none

end Veh

/-! ## The narrative (`print_exception_info` and `print_exception_info_extended`)

The strings are named so that the sections of the narrative can be told apart. -/

/-- The registers of a `CONTEXT` that the narrative shows. -/
structure CONTEXT where
  Rax : Nat
  Rbx : Nat
  Rcx : Nat
  Rdx : Nat
  R8 : Nat
  R9 : Nat
  R10 : Nat
  R11 : Nat
  R12 : Nat
  R13 : Nat
  R14 : Nat
  R15 : Nat
  Rsi : Nat
  Rdi : Nat
  Rbp : Nat
  Rsp : Nat
  Rip : Nat
deriving DecidableEq, Repr

/-- The format `\n  {name}:\t{}` of one register. -/
def register_line (resolve : Nat → WString) (name : WString) (value : Nat) : WString :=
  [NL, SP, SP] ++ name ++ [Char.ofNat 58, TAB] ++ resolve value

/-- The section `Registers` of `print_exception_info_extended`, `resolve`
being the text of `to_address_string` with its default flag. -/
def registers_section (resolve : Nat → WString) (ctx : CONTEXT) : WString :=
  "\nRegisters\n\x7b".toList
  ++ register_line resolve "RAX".toList ctx.Rax
  ++ register_line resolve "RBX".toList ctx.Rbx
  ++ register_line resolve "RCX".toList ctx.Rcx
  ++ register_line resolve "RDX".toList ctx.Rdx
  ++ register_line resolve "R8".toList ctx.R8
  ++ register_line resolve "R9".toList ctx.R9
  ++ register_line resolve "R10".toList ctx.R10
  ++ register_line resolve "R11".toList ctx.R11
  ++ register_line resolve "R12".toList ctx.R12
  ++ register_line resolve "R13".toList ctx.R13
  ++ register_line resolve "R14".toList ctx.R14
  ++ register_line resolve "R15".toList ctx.R15
  ++ register_line resolve "RSI".toList ctx.Rsi
  ++ register_line resolve "RDI".toList ctx.Rdi
  ++ register_line resolve "RBP".toList ctx.Rbp
  ++ register_line resolve "RSP".toList ctx.Rsp
  ++ register_line resolve "RIP".toList ctx.Rip
  ++ "\n\x7d\n".toList

/-- The format `\n  [RSP+{:X}]\t{}` of one word of the stack, `entry` being its
offset and its value. -/
def stack_line (resolve : Nat → WString) (entry : Nat × Nat) : WString :=
  "\n  [RSP+".toList ++ CrashHandler.HEX entry.1 ++ [Char.ofNat 93, TAB] ++ resolve entry.2

/-- The first line of the section `Stack`. -/
def STACK_HEADER : WString := "\nStack\n\x7b".toList

/-- The first line of the section `Modules`. -/
def MODULES_HEADER : WString := "\nModules\n\x7b".toList

/-- The last line of a section. -/
def SECTION_END : WString := "\n\x7d\n".toList

/-- The digits of `{:08X}`. -/
def HEX08 (n : Nat) : WString :=
  List.replicate (8 - (CrashHandler.HEX n).length) (Char.ofNat 48) ++ CrashHandler.HEX n

/-- The format `\n  {:08X}\t{}` of one module, `entry` being its base and its
path. -/
def module_line (entry : Nat × WString) : WString :=
  [NL, SP, SP] ++ HEX08 entry.1 ++ [TAB] ++ entry.2

namespace CrashHandler

/-! ### The monitor's narrative (DalamudCrashHandler.cpp, lines 175-314) -/

/-- The image size that `get_remote_modules` reads from the headers of a
module, nothing when one of the two reads fails. -/
def image_size (T : Target) (hModule : Nat) : Option Nat :=
  match T.read_IMAGE_DOS_HEADER hModule with
  | none => none
  | some e_lfanew => T.read_IMAGE_NT_HEADERS64 (nt_headers_address hModule e_lfanew)

/-- The fields of an `EXCEPTION_RECORD` as they are in the monitor's buffer
after a read. -/
structure EXCEPTION_RECORD where
  ExceptionCode : Nat
  ExceptionFlags : Nat
  /-- The address of the next record of the chain. -/
  ExceptionRecord : Nat
  ExceptionAddress : Nat
  NumberParameters : Nat
  /-- The array `ExceptionInformation`. -/
  ExceptionInformation : List Nat
deriving DecidableEq, Repr

/-- The value of `sizeof(EXCEPTION_RECORD)` in a 64-bit build. -/
def SIZEOF_EXCEPTION_RECORD : Nat := 152

/-- The value of `offsetof(EXCEPTION_RECORD, ExceptionInformation)` in a 64-bit
build. -/
def OFFSETOF_ExceptionInformation : Nat := 32

/-- The two tests on `read` in the condition of the loop of
`print_exception_info`: the header was read, and so were the declared
parameters. -/
def record_complete (read : Nat) (exRec : EXCEPTION_RECORD) : Bool :=
  decide (read ≥ OFFSETOF_ExceptionInformation)
  && decide (read ≥ OFFSETOF_ExceptionInformation + 8 * exRec.NumberParameters)

/-- What the loop of `print_exception_info` over the remote records does: the
number of calls of `ReadProcessMemory`, and the records it renders, each with
the value of `rec_index`. -/
structure RecordWalk where
  reads : Nat
  rendered : List (Nat × EXCEPTION_RECORD)
deriving DecidableEq, Repr

/-- The loop of `print_exception_info` over the remote records, from the state
`rec_index`, `pRemoteExRec`.  `memory pRemoteExRec` is the answer of
`ReadProcessMemory` at that address: nothing when it fails, otherwise the
number of bytes read, which is at most the size asked for, and the buffer. -/
def walk_records (memory : Nat → Option (Nat × EXCEPTION_RECORD))
    (rec_index pRemoteExRec : Nat) : RecordWalk :=
  if pRemoteExRec = 0 then { reads := 0, rendered := [] }
  else if h : rec_index < 64 then
    match memory pRemoteExRec with
    | none => { reads := 1, rendered := [] }
    | some (read, exRec) =>
      if record_complete (min read SIZEOF_EXCEPTION_RECORD) exRec then
        { reads :=
            (walk_records memory (rec_index + 1)
              (if exRec.NumberParameters = 0 then pRemoteExRec
               else exRec.ExceptionRecord)).reads + 1,
          rendered :=
            (rec_index, exRec) ::
              (walk_records memory (rec_index + 1)
                (if exRec.NumberParameters = 0 then pRemoteExRec
                 else exRec.ExceptionRecord)).rendered }
      else { reads := 1, rendered := [] }
  else { reads := 0, rendered := [] }
termination_by 64 - rec_index
decreasing_by
  all_goals omega

/-- The line `Parameters: ` of a record. -/
def parameters_text (exRec : EXCEPTION_RECORD) : WString :=
  "Parameters: ".toList
  ++ List.intercalate ", ".toList
      ((List.range exRec.NumberParameters).map
        (fun i => HEX (exRec.ExceptionInformation.getD i 0)))

/-- The first line of the block of a record. -/
def EXCEPTION_INFO : WString := "\nException Info #".toList

/-- The block that `print_exception_info` writes for a record. -/
def record_text (rec_index : Nat) (exRec : EXCEPTION_RECORD) : WString :=
  EXCEPTION_INFO ++ (toString rec_index).toList ++ [NL]
  ++ "Code: ".toList ++ HEX exRec.ExceptionCode ++ [NL]
  ++ "Flags: ".toList ++ HEX exRec.ExceptionFlags ++ [NL]
  ++ "Address: ".toList ++ HEX exRec.ExceptionAddress ++ [NL]
  ++ (if exRec.NumberParameters = 0 then [] else parameters_text exRec)

/-- The function `print_exception_info`: what it appends to `log`.
`ExceptionRecord` is `ex.ExceptionRecord`; `call_stack` is what the `try` block
writes, the call stack or the message of its failure. -/
def print_exception_info (memory : Nat → Option (Nat × EXCEPTION_RECORD))
    (ExceptionRecord : Nat) (call_stack : WString) : WString :=
  ((walk_records memory 0 ExceptionRecord).rendered.map
    (fun block => record_text block.1 block.2)).flatten
  ++ call_stack

/-- What `ReadProcessMemory` at the stack pointer leaves: the number of bytes
read, which starts as `0`, and the vector `stackData`, which starts as 64 zero
words. -/
structure StackRead where
  read : Nat
  stackData : List Nat
deriving DecidableEq, Repr

/-- The values of `i` for which the body of the loop over `stackData` runs. -/
def stack_indices (read : Nat) : List Nat :=
  (List.range 64).takeWhile (fun i => decide (i * 8 < read))

/-- The words that the section `Stack` lists, each with its offset. -/
def stack_entries (S : StackRead) : List (Nat × Nat) :=
  (stack_indices S.read).filterMap (fun i =>
    if S.stackData.getD i 0 ≠ 0 then some (i * 8, S.stackData.getD i 0) else none)

/-- The section `Stack` of `print_exception_info_extended`. -/
def stack_section (T : Target) (Rsp : Nat) (S : StackRead) : WString :=
  if 0x10000 < Rsp ∧ Rsp < 0x7FFFFFFE0000 then
    STACK_HEADER
    ++ ((stack_entries S).map
        (stack_line (fun value => (to_address_string T value true).text))).flatten
    ++ SECTION_END
  else []

/-- The section `Modules` of `print_exception_info_extended`. -/
def modules_section (T : Target) : WString :=
  MODULES_HEADER ++ ((get_remote_module_paths T).map module_line).flatten ++ SECTION_END

/-- The function `print_exception_info_extended`: what it appends to `log`. -/
def print_exception_info_extended (T : Target) (ctx : CONTEXT) (S : StackRead) : WString :=
  registers_section (fun value => (to_address_string T value true).text) ctx
  ++ stack_section T ctx.Rsp S
  ++ modules_section T

end CrashHandler

namespace Veh

/-! ### The trap's extended narrative (veh.cpp, lines 145-197) -/

/-- The section `Stack` of `print_exception_info_extended`: the 16 words at the
stack pointer, `word address` being the value of the word at `address`. -/
def stack_section (h : Host) (i : Introspection) (Rsp : Nat) (word : Nat → Nat) : WString :=
  if 0x10000 < Rsp ∧ Rsp < 0x7FFFFFFE0000 then
    STACK_HEADER
    ++ ((List.range 16).map (fun k =>
        stack_line (fun value => (to_address_string h i value true).text)
          (k * 8, word ((Rsp + k * 8) % 2 ^ 64)))).flatten
    ++ SECTION_END
  else []

/-- The section `Modules` of `print_exception_info_extended`.  `snapshot` is the
list of the modules given by `Module32First` and `Module32Next`, each with its
base and its path; it is empty when there is no snapshot. -/
def modules_section (snapshot : List (Nat × WString)) : WString :=
  MODULES_HEADER
  ++ (snapshot.map (fun entry => module_line (entry.1, c_str entry.2))).flatten
  ++ SECTION_END

/-- The function `print_exception_info_extended`: what it appends to `log`. -/
def print_exception_info_extended (h : Host) (i : Introspection) (ctx : CONTEXT)
    (word : Nat → Nat) (snapshot : List (Nat × WString)) : WString :=
  registers_section (fun value => (to_address_string h i value true).text) ctx
  ++ stack_section h i ctx.Rsp word
  ++ modules_section snapshot

end Veh

/-- The registers at a fault inside the game's executable. -/
def sample_context : CONTEXT :=
  { Rax := 0, Rbx := 0x7FF600002000, Rcx := 5, Rdx := 0, R8 := 0, R9 := 0, R10 := 0, R11 := 0,
    R12 := 0, R13 := 0, R14 := 0, R15 := 0, Rsi := 0, Rdi := 0, Rbp := 0x7FF000001040,
    Rsp := 0x7FF000001000, Rip := 0x7FF600003000 }

namespace CrashHandler

/-! ### Sample runs, records and stacks -/

/-- A turn in which the managed runtime is found, an access violation is
reported and the user clicks the resume link. -/
def sample_resumed_fault : Event :=
  { sample_resume_event with CLRDataCreateInstance := true }

/-- A fault that is not the restart request, for which `attach_debugger`
succeeds and after which the faulted thread is resumed: the user asked to
resume and the dialog did not return the Restart button. -/
def Event.is_resumed_fault (e : Event) : Bool :=
  (match e.ReadFile with
   | some x => decide (x.ExceptionCode ≠ 0x12345678)
   | none => false)
  && e.attach_failure.isNone && e.attemptResume
  && (match e.TaskDialogIndirect with
      | some (nButtonPressed, _) => decide (nButtonPressed ≠ IdButtonRestart)
      | none => true)

/-- The record of an access violation: a write to the address `0x10`, with a
link to the record at `0x9100`. -/
def sample_access_violation : EXCEPTION_RECORD :=
  { ExceptionCode := 0xC0000005, ExceptionFlags := 0, ExceptionRecord := 0x9100,
    ExceptionAddress := 0x7FF600001234, NumberParameters := 2,
    ExceptionInformation := [1, 0x10, 0, 0, 0, 0, 0, 0, 0, 0, 0, 0, 0, 0, 0] }

/-- The record of a C++ exception with one parameter, the last of its chain. -/
def sample_nested_record : EXCEPTION_RECORD :=
  { ExceptionCode := 0xE06D7363, ExceptionFlags := 1, ExceptionRecord := 0,
    ExceptionAddress := 0x7FFA00000040, NumberParameters := 1,
    ExceptionInformation := [0x19930520, 0, 0, 0, 0, 0, 0, 0, 0, 0, 0, 0, 0, 0, 0] }

/-- The record of an illegal instruction: it has no parameter and no link. -/
def sample_illegal_instruction : EXCEPTION_RECORD :=
  { ExceptionCode := 0xC000001D, ExceptionFlags := 0, ExceptionRecord := 0,
    ExceptionAddress := 0x7FF600001234, NumberParameters := 0,
    ExceptionInformation := [0, 0, 0, 0, 0, 0, 0, 0, 0, 0, 0, 0, 0, 0, 0] }

/-- A record with one parameter whose link is its own address. -/
def sample_looping_record : EXCEPTION_RECORD :=
  { ExceptionCode := 0xC0000005, ExceptionFlags := 0, ExceptionRecord := 0xB000,
    ExceptionAddress := 0x7FF600001234, NumberParameters := 1,
    ExceptionInformation := [0x10, 0, 0, 0, 0, 0, 0, 0, 0, 0, 0, 0, 0, 0, 0] }

/-- A memory of the target with a chain of two records at `0x9000`, a record
without parameters at `0xA000`, a record linked to itself at `0xB000` and a
record of which only 16 bytes can be read at `0xC000`. -/
def sample_records (address : Nat) : Option (Nat × EXCEPTION_RECORD) :=
  if address = 0x9000 then some (152, sample_access_violation)
  else if address = 0x9100 then some (152, sample_nested_record)
  else if address = 0xA000 then some (152, sample_illegal_instruction)
  else if address = 0xB000 then some (152, sample_looping_record)
  else if address = 0xC000 then some (16, sample_access_violation)
  else none

/-- A read of the whole window of the stack: the first word points into the
game's executable, the second is zero, the third is `5`. -/
def sample_stack_read : StackRead :=
  { read := 512, stackData := [0x7FF600003000, 0, 5] ++ List.replicate 61 0 }

/-- A read of the stack that stops after 12 bytes: the first word is complete,
of the second word only the lower half was read. -/
def sample_partial_stack_read : StackRead :=
  { read := 12, stackData := [0x1111, 0x2222] ++ List.replicate 62 0 }

/-- A turn in which an access violation is reported and the extended narrative
is the one of the sample target. -/
def sample_narrated_event : Event :=
  { sample_crash_event with
    print_exception_info_extended :=
      print_exception_info_extended sample_target sample_context sample_stack_read }

end CrashHandler

namespace Veh

/-- The host of `sample_host` with the extended narrative of a fault at
`sample_context`, every word of the stack being zero. -/
def sample_narrated_host : Host :=
  { sample_host with
    print_exception_info_extended :=
      print_exception_info_extended sample_host sample_introspection sample_context
        (fun _ => 0) [(0x140000000, "C:\\Games\\FFXIV\\game\\FFXIV_DX11.EXE".toList)] }

end Veh

/-! # Theorems -/

namespace CrashHandler

theorem BS_ne_DQ : BS ≠ DQ := by decide
theorem SP_ne_BS : SP ≠ BS := by decide
theorem SP_ne_DQ : SP ≠ DQ := by decide

theorem tokenize_from_backslashes (ws : Char → Bool) (n : Nat) (xs cur : WString) (q : Bool)
    (b : Nat) :
    tokenize_from ws (List.replicate n BS ++ xs) cur true q b
      = tokenize_from ws xs cur true q (b + n) := by
  induction n generalizing b with
  | zero => simp
  | succ n ih =>
    rw [List.replicate_succ, List.cons_append, tokenize_from, if_pos rfl, ih]
    congr 1
    omega

theorem tokenize_from_escape_loop (ws : Char → Bool) (arg : WString) :
    ∀ (bs : Nat) (cur rest : WString),
      tokenize_from ws (escape_loop arg bs ++ DQ :: rest) cur true true 0
        = tokenize_from ws rest (cur ++ List.replicate bs BS ++ arg) true false 0 := by
  induction arg with
  | nil =>
    intro bs cur rest
    rw [escape_loop, tokenize_from_backslashes, tokenize_from, if_neg BS_ne_DQ.symm, if_pos rfl,
      if_pos (by omega)]
    have h : (0 + bs * 2) / 2 = bs := by omega
    simp [h]
  | cons c arg ih =>
    intro bs cur rest
    by_cases hb : c = BS
    · subst hb
      rw [escape_loop, if_pos rfl, ih]
      simp [List.replicate_succ', List.append_assoc]
    · by_cases hq : c = DQ
      · subst hq
        rw [escape_loop, if_neg hb, if_pos rfl, List.append_assoc, tokenize_from_backslashes,
          List.cons_append, tokenize_from, if_neg hb, if_pos rfl, if_neg (by omega), ih]
        have h : (bs * 2 + 1) / 2 = bs := by omega
        simp [h]
      · rw [escape_loop, if_neg hb, if_neg hq, List.append_assoc, tokenize_from_backslashes,
          List.cons_append, tokenize_from, if_neg hb, if_neg hq, ih]
        simp



theorem needsQuoting_BS : needsQuoting BS = false := by decide
theorem needsQuoting_DQ : needsQuoting DQ = true := by decide
theorem needsQuoting_SP : needsQuoting SP = true := by decide

/-- At the end of an argument undecided backslashes are literal. -/
theorem tokenize_from_flush (ws : Char → Bool) (hsp : ws SP = true) (rest cur : WString)
    (b : Nat) (hrest : rest = [] ∨ ∃ r, rest = SP :: r) :
    tokenize_from ws rest cur true false b
      = tokenize_from ws rest (cur ++ List.replicate b BS) true false 0 := by
  rcases hrest with h | ⟨r, h⟩
  · subst h
    simp [tokenize_from]
  · subst h
    simp [tokenize_from, SP_ne_BS, SP_ne_DQ, hsp]

theorem tokenize_from_bare (ws : Char → Bool) (hsp : ws SP = true)
    (hws : ∀ c, ws c = true → needsQuoting c = true)
    (rest : WString) (hrest : rest = [] ∨ ∃ r, rest = SP :: r) (arg : WString) :
    (∀ c ∈ arg, needsQuoting c = false) → ∀ (cur : WString) (b : Nat),
      tokenize_from ws (arg ++ rest) cur true false b
        = tokenize_from ws rest (cur ++ List.replicate b BS ++ arg) true false 0 := by
  induction arg with
  | nil =>
    intro _ cur b
    simpa using tokenize_from_flush ws hsp rest cur b hrest
  | cons c arg ih =>
    intro harg cur b
    have hc : needsQuoting c = false := harg c (List.mem_cons_self _ _)
    have harg2 : ∀ d ∈ arg, needsQuoting d = false := fun d hd => harg d (List.mem_cons_of_mem _ hd)
    by_cases hb : c = BS
    · subst hb
      rw [List.cons_append, tokenize_from, if_pos rfl, ih harg2]
      simp [List.replicate_succ', List.append_assoc]
    · have hq : c ≠ DQ := by
        intro h
        rw [h, needsQuoting_DQ] at hc
        exact Bool.noConfusion hc
      have hw : ws c = false := by
        cases h : ws c with
        | false => rfl
        | true => rw [hws c h] at hc; exact Bool.noConfusion hc
      rw [List.cons_append, tokenize_from, if_neg hb, if_neg hq, hw, ih harg2]
      simp

theorem tokenize_from_escape_shell_arg (ws : Char → Bool) (hsp : ws SP = true)
    (hws : ∀ c, ws c = true → needsQuoting c = true)
    (rest : WString) (hrest : rest = [] ∨ ∃ r, rest = SP :: r) (arg : WString) :
    tokenize_from ws (escape_shell_arg arg ++ rest) [] false false 0
      = tokenize_from ws rest arg true false 0 := by
  unfold escape_shell_arg
  split
  · rename_i h
    simp only [Bool.and_eq_true, Bool.not_eq_true', List.any_eq_false] at h
    obtain ⟨hne, hall⟩ := h
    cases arg with
    | nil => simp at hne
    | cons c arg =>
      have hc : needsQuoting c = false := by simpa using hall c (List.mem_cons_self _ _)
      have harg2 : ∀ d ∈ arg, needsQuoting d = false :=
        fun d hd => by simpa using hall d (List.mem_cons_of_mem _ hd)
      by_cases hb : c = BS
      · subst hb
        rw [List.cons_append, tokenize_from, if_pos rfl,
          tokenize_from_bare ws hsp hws rest hrest arg harg2]
        simp
      · have hq : c ≠ DQ := by
          intro h
          rw [h, needsQuoting_DQ] at hc
          exact Bool.noConfusion hc
        have hw : ws c = false := by
          cases h : ws c with
          | false => rfl
          | true => rw [hws c h] at hc; exact Bool.noConfusion hc
        rw [List.cons_append, tokenize_from, if_neg hb, if_neg hq, hw]
        simp only [Bool.false_and, Bool.false_eq_true, if_false]
        rw [tokenize_from_bare ws hsp hws rest hrest arg harg2]
        simp
  · rw [List.cons_append, List.append_assoc, tokenize_from, if_neg BS_ne_DQ.symm, if_pos rfl,
      if_pos (by omega)]
    simpa using tokenize_from_escape_loop ws arg 0 [] rest

theorem argstr_foldl_append (args : List WString) : ∀ acc : WString,
    args.foldl (fun argstr arg => argstr ++ escape_shell_arg arg ++ [SP]) acc
      = acc ++ args.foldl (fun argstr arg => argstr ++ escape_shell_arg arg ++ [SP]) [] := by
  induction args with
  | nil => intro acc; simp
  | cons a l ih =>
    intro acc
    rw [List.foldl_cons, ih, List.foldl_cons, ih ([] ++ escape_shell_arg a ++ [SP])]
    simp

theorem argstr_foldl_ne_nil (a : WString) (l : List WString) :
    (a :: l).foldl (fun argstr arg => argstr ++ escape_shell_arg arg ++ [SP]) [] ≠ [] := by
  rw [List.foldl_cons, argstr_foldl_append]
  simp

theorem build_argstr_singleton (a : WString) : build_argstr [a] = escape_shell_arg a := by
  simp [build_argstr]

theorem build_argstr_cons_cons (a b : WString) (l : List WString) :
    build_argstr (a :: b :: l) = escape_shell_arg a ++ SP :: build_argstr (b :: l) := by
  unfold build_argstr
  rw [List.foldl_cons, argstr_foldl_append,
    List.dropLast_append_of_ne_nil _ (argstr_foldl_ne_nil b l)]
  simp

theorem tokenize_build_argstr (ws : Char → Bool) (hsp : ws SP = true)
    (hws : ∀ c, ws c = true → needsQuoting c = true) (a : WString) (l : List WString) :
    tokenize ws (build_argstr (a :: l)) = a :: l := by
  induction l generalizing a with
  | nil =>
    have h := tokenize_from_escape_shell_arg ws hsp hws [] (Or.inl rfl) a
    rw [List.append_nil] at h
    rw [build_argstr_singleton, tokenize, h]
    simp [tokenize_from]
  | cons b l ih =>
    rw [build_argstr_cons_cons, tokenize,
      tokenize_from_escape_shell_arg ws hsp hws _ (Or.inr ⟨_, rfl⟩) a, tokenize_from,
      if_neg SP_ne_BS, if_neg SP_ne_DQ, hsp]
    have h := ih b
    rw [tokenize] at h
    simp [h]

theorem mem_escape_loop (arg : WString) : ∀ (bs : Nat) (x : Char),
    x ∈ escape_loop arg bs → x = BS ∨ x = DQ ∨ x ∈ arg := by
  induction arg with
  | nil =>
    intro bs x hx
    rw [escape_loop] at hx
    exact Or.inl (List.eq_of_mem_replicate hx)
  | cons c arg ih =>
    intro bs x hx
    rw [escape_loop] at hx
    split at hx
    · rcases ih _ x hx with h | h | h
      · exact Or.inl h
      · exact Or.inr (Or.inl h)
      · exact Or.inr (Or.inr (List.mem_cons_of_mem _ h))
    · split at hx
      · rcases List.mem_append.1 hx with h | h
        · exact Or.inl (List.eq_of_mem_replicate h)
        · rcases List.mem_cons.1 h with h | h
          · exact Or.inr (Or.inr (h ▸ List.mem_cons_self _ _))
          · rcases ih _ x h with h | h | h
            · exact Or.inl h
            · exact Or.inr (Or.inl h)
            · exact Or.inr (Or.inr (List.mem_cons_of_mem _ h))
      · rcases List.mem_append.1 hx with h | h
        · exact Or.inl (List.eq_of_mem_replicate h)
        · rcases List.mem_cons.1 h with h | h
          · exact Or.inr (Or.inr (h ▸ List.mem_cons_self _ _))
          · rcases ih _ x h with h | h | h
            · exact Or.inl h
            · exact Or.inr (Or.inl h)
            · exact Or.inr (Or.inr (List.mem_cons_of_mem _ h))

theorem mem_escape_shell_arg (arg : WString) (x : Char) (hx : x ∈ escape_shell_arg arg) :
    x = BS ∨ x = DQ ∨ x ∈ arg := by
  unfold escape_shell_arg at hx
  split at hx
  · exact Or.inr (Or.inr hx)
  · rcases List.mem_cons.1 hx with h | h
    · exact Or.inr (Or.inl h)
    · rcases List.mem_append.1 h with h | h
      · exact mem_escape_loop arg 0 x h
      · exact Or.inr (Or.inl (List.mem_singleton.1 h))

theorem mem_argstr_foldl (args : List WString) (x : Char)
    (hx : x ∈ args.foldl (fun argstr arg => argstr ++ escape_shell_arg arg ++ [SP]) []) :
    x = BS ∨ x = DQ ∨ x = SP ∨ ∃ a ∈ args, x ∈ a := by
  induction args with
  | nil => simp at hx
  | cons a l ih =>
    rw [List.foldl_cons, argstr_foldl_append] at hx
    rcases List.mem_append.1 hx with h | h
    · rcases List.mem_append.1 h with h | h
      · rcases mem_escape_shell_arg a x (by simpa using h) with h | h | h
        · exact Or.inl h
        · exact Or.inr (Or.inl h)
        · exact Or.inr (Or.inr (Or.inr ⟨a, List.mem_cons_self _ _, h⟩))
      · exact Or.inr (Or.inr (Or.inl (List.mem_singleton.1 h)))
    · rcases ih h with h | h | h | ⟨b, hb, h⟩
      · exact Or.inl h
      · exact Or.inr (Or.inl h)
      · exact Or.inr (Or.inr (Or.inl h))
      · exact Or.inr (Or.inr (Or.inr ⟨b, List.mem_cons_of_mem _ hb, h⟩))

theorem c_str_build_argstr (args : List WString) (hnul : ∀ a ∈ args, NUL ∉ a) :
    c_str (build_argstr args) = build_argstr args := by
  unfold c_str
  rw [List.takeWhile_eq_self_iff]
  intro x hx
  have hx2 := mem_argstr_foldl args x (List.mem_of_mem_dropLast hx)
  have hne : x ≠ NUL := by
    rcases hx2 with h | h | h | ⟨a, ha, h⟩
    · rw [h]; decide
    · rw [h]; decide
    · rw [h]; decide
    · intro hx0
      exact hnul a ha (hx0 ▸ h)
  simpa using hne

theorem is_space_or_tab_needsQuoting (c : Char) (h : is_space_or_tab c = true) :
    needsQuoting c = true := by
  unfold is_space_or_tab at h
  unfold needsQuoting
  simp only [Bool.or_eq_true] at h ⊢
  tauto

/-- C1 (escape/tokenize round trip): for every non-empty list `args` of wide
strings without NUL, the command line that `restart_game_using_injector` builds
from it (every argument through `escape_shell_arg`, joined by single spaces), as
the started process receives it, tokenizes back to exactly `args`.  It holds for
every notion `ws` of whitespace that contains the space and only characters
that make `escape_shell_arg` quote, so for space and tab. -/
theorem escape_tokenize_roundtrip (ws : Char → Bool) (hsp : ws SP = true)
    (hws : ∀ c, ws c = true → needsQuoting c = true)
    (args : List WString) (hne : args ≠ []) (hnul : ∀ a ∈ args, NUL ∉ a) :
    tokenize ws (c_str (build_argstr args)) = args := by
  rw [c_str_build_argstr args hnul]
  cases args with
  | nil => exact absurd rfl hne
  | cons a l => exact tokenize_build_argstr ws hsp hws a l

/-- The round trip at the two arguments the specification names: a path with a
space, and an argument with an embedded double quote and trailing backslashes. -/
theorem escape_tokenize_roundtrip_witness :
    tokenize is_space_or_tab
        (c_str (build_argstr ["C:\\Program Files\\App\\app.exe".toList,
          "say \"hi\" to C:\\dir\\\\".toList]))
      = ["C:\\Program Files\\App\\app.exe".toList, "say \"hi\" to C:\\dir\\\\".toList] :=
  escape_tokenize_roundtrip is_space_or_tab (by decide) is_space_or_tab_needsQuoting
    ["C:\\Program Files\\App\\app.exe".toList, "say \"hi\" to C:\\dir\\\\".toList]
    (List.cons_ne_nil _ _) (by decide)

theorem takeWhile_run (n : Nat) (tail : WString) (htail : ∀ c r, tail = c :: r → c ≠ BS) :
    (List.replicate n BS ++ tail).takeWhile (fun c => c == BS) = List.replicate n BS := by
  induction n with
  | zero =>
    cases tail with
    | nil => rfl
    | cons c r =>
      have := htail c r rfl
      simp [List.takeWhile_cons, this]
  | succ n ih => simp [List.replicate_succ, List.takeWhile_cons, ih]

theorem dropWhile_run (n : Nat) (tail : WString) (htail : ∀ c r, tail = c :: r → c ≠ BS) :
    (List.replicate n BS ++ tail).dropWhile (fun c => c == BS) = tail := by
  induction n with
  | zero =>
    cases tail with
    | nil => rfl
    | cons c r =>
      have := htail c r rfl
      simp [List.dropWhile_cons, this]
  | succ n ih => simp [List.replicate_succ, List.dropWhile_cons, ih]

theorem quoted_rule_run_end (n : Nat) :
    quoted_rule (List.replicate n BS) = List.replicate (2 * n) BS := by
  have ht := takeWhile_run n [] (fun c r h => by cases h)
  have hd := dropWhile_run n [] (fun c r h => by cases h)
  rw [List.append_nil] at ht hd
  rw [quoted_rule]
  split
  · simp [ht]
  · rename_i c rest h
    rw [hd] at h
    cases h

theorem quoted_rule_run_cons (n : Nat) (c : Char) (rest : WString) (hc : c ≠ BS) :
    quoted_rule (List.replicate n BS ++ c :: rest)
      = if c = DQ then List.replicate (2 * n + 1) BS ++ DQ :: quoted_rule rest
        else List.replicate n BS ++ c :: quoted_rule rest := by
  have ht := takeWhile_run n (c :: rest) (fun c2 r h => by cases h; exact hc)
  have hd := dropWhile_run n (c :: rest) (fun c2 r h => by cases h; exact hc)
  rw [quoted_rule]
  split
  · rename_i h
    rw [hd] at h
    cases h
  · rename_i c2 rest2 h
    rw [hd] at h
    cases h
    simp [ht]

theorem escape_loop_eq_quoted_rule (arg : WString) : ∀ bs : Nat,
    escape_loop arg bs = quoted_rule (List.replicate bs BS ++ arg) := by
  induction arg with
  | nil =>
    intro bs
    rw [escape_loop, List.append_nil, quoted_rule_run_end, Nat.mul_comm]
  | cons c arg ih =>
    intro bs
    by_cases hb : c = BS
    · subst hb
      rw [escape_loop, if_pos rfl, ih]
      simp [List.replicate_succ', List.append_assoc]
    · rw [escape_loop, if_neg hb, quoted_rule_run_cons bs c arg hb, ih 0]
      simp only [List.replicate_zero, List.nil_append, Nat.mul_comm]
      split <;> simp_all

/-- C2 (the documented rule): for every argument, `escape_shell_arg` returns what
the documented rule `escape_rule` gives: the argument unchanged when it is not
empty and has no space, tab, newline, vertical tab or double quote; otherwise a
double quote, the argument with each run of `n` backslashes before a double
quote turned into `2n+1` backslashes and that quote, a final run of `n`
backslashes turned into `2n`, everything else copied, and a closing double
quote (the empty argument gives two double quotes). -/
theorem escape_shell_arg_eq_rule (arg : WString) : escape_shell_arg arg = escape_rule arg := by
  unfold escape_shell_arg escape_rule
  rw [escape_loop_eq_quoted_rule arg 0]
  simp only [List.replicate_zero, List.nil_append]
  have hcond : ((!arg.isEmpty && !arg.any needsQuoting) = true)
      ↔ (arg ≠ [] ∧ ∀ c ∈ arg, c ∉ [SP, TAB, NL, VT, DQ]) := by
    simp only [needsQuoting, Bool.and_eq_true, Bool.not_eq_true', List.isEmpty_eq_false,
      List.any_eq_false, Bool.or_eq_true, beq_iff_eq, List.mem_cons, List.mem_singleton,
      List.not_mem_nil, or_false, not_or, ne_eq]
    constructor
    · rintro ⟨h1, h2⟩
      exact ⟨h1, fun c hc => by have := h2 c hc; tauto⟩
    · rintro ⟨h1, h2⟩
      exact ⟨h1, fun c hc => by have := h2 c hc; tauto⟩
  by_cases h : (!arg.isEmpty && !arg.any needsQuoting) = true
  · rw [if_pos h, if_pos (hcond.1 h)]
  · rw [if_neg h, if_neg (fun h2 => h (hcond.2 h2))]

end CrashHandler

namespace Veh

theorem sentinel_not_whitelisted : is_whitelist_exception RESTART_SENTINEL = false := by decide

theorem whitelisted_ne_sentinel (code : Nat) (h : is_whitelist_exception code = true) :
    code ≠ RESTART_SENTINEL := by
  intro hc
  rw [hc, sentinel_not_whitelisted] at h
  exact Bool.noConfusion h

theorem exception_handler_sentinel (G : Globals) (h : Host) (f : Fault)
    (hs : f.ExceptionCode = RESTART_SENTINEL) :
    exception_handler G h f =
      { ret := EXCEPTION_CONTINUE_SEARCH,
        trace := [Step.restart_game_using_injector IdRadioRestartNormal,
          Step.TerminateProcess 0] } := by
  unfold exception_handler
  rw [if_pos hs]

theorem exception_handler_not_whitelisted (G : Globals) (h : Host) (f : Fault)
    (hs : f.ExceptionCode ≠ RESTART_SENTINEL)
    (hw : is_whitelist_exception f.ExceptionCode = false) :
    exception_handler G h f =
      { ret := EXCEPTION_CONTINUE_SEARCH, trace := [Step.allow_list_filter] } := by
  unfold exception_handler
  rw [if_neg hs, hw]
  rfl

theorem exception_handler_not_owned (G : Globals) (h : Host) (f : Fault)
    (hs : f.ExceptionCode ≠ RESTART_SENTINEL)
    (hw : is_whitelist_exception f.ExceptionCode = true)
    (h1 : is_ffxiv_address h FFXIV_DX11_EXE f.Rip = false)
    (h2 : is_ffxiv_address h CIMGUI_DLL f.Rip = false) :
    exception_handler G h f =
      { ret := EXCEPTION_CONTINUE_SEARCH,
        trace := [Step.allow_list_filter, Step.ownership_filter] } := by
  unfold exception_handler
  rw [if_neg hs, hw, h1, h2]
  rfl

theorem exception_handler_narrated (G : Globals) (h : Host) (f : Fault)
    (hp : passed_both_filters h f) (hstack : stack_fault h f = none) :
    exception_handler G h f =
      { ret := EXCEPTION_CONTINUE_SEARCH,
        trace :=
          [Step.allow_list_filter, Step.ownership_filter]
          ++ narration G h f
          ++ [Step.TaskDialogIndirect (message h) (window_log_str h)]
          ++ dialog_decision h f } := by
  obtain ⟨hw, ho⟩ := hp
  have hs := whitelisted_ne_sentinel _ hw
  have hown : (!is_ffxiv_address h FFXIV_DX11_EXE f.Rip
      && !is_ffxiv_address h CIMGUI_DLL f.Rip) = false := by
    rcases ho with ho | ho
    · rw [ho]; rfl
    · rw [ho]; simp
  unfold exception_handler
  rw [if_neg hs, hw, hown, hstack]
  rfl

theorem exception_handler_faulted (G : Globals) (h : Host) (f : Fault)
    (hp : passed_both_filters h f) (address : Nat) (hstack : stack_fault h f = some address) :
    exception_handler G h f =
      { ret := none,
        trace :=
          [Step.allow_list_filter, Step.ownership_filter, Step.lock,
            Step.access_violation address] } := by
  obtain ⟨hw, ho⟩ := hp
  have hs := whitelisted_ne_sentinel _ hw
  have hown : (!is_ffxiv_address h FFXIV_DX11_EXE f.Rip
      && !is_ffxiv_address h CIMGUI_DLL f.Rip) = false := by
    rcases ho with ho | ho
    · rw [ho]; rfl
    · rw [ho]; simp
  unfold exception_handler
  rw [if_neg hs, hw, hown, hstack]
  rfl

theorem not_owned_of_outside (h : Host) (address : Nat)
    (ho : outside_protected_modules h address) :
    is_ffxiv_address h FFXIV_DX11_EXE address = false ∧
    is_ffxiv_address h CIMGUI_DLL address = false := by
  unfold is_ffxiv_address
  rcases ho with hn | ⟨base, path, hm, h1, h2⟩
  · rw [hn]
    exact ⟨rfl, rfl⟩
  · rw [hm]
    exact ⟨by simpa using h1, by simpa using h2⟩

/-- C3, as stated, fails at the restart sentinel: the code `0x12345678` is
outside the allow-list, yet `exception_handler` relaunches the game and
terminates the host, so the fault does not go on to the next handler. -/
theorem allow_list_filter_fails_at_sentinel :
    is_whitelist_exception RESTART_SENTINEL = false ∧
    (exception_handler sample_globals sample_host
        { ex := 0x9000, ExceptionCode := RESTART_SENTINEL, Rip := 0x140001234 }).trace
      = [Step.restart_game_using_injector IdRadioRestartNormal, Step.TerminateProcess 0] ∧
    ¬ (∀ (G : Globals) (h : Host) (f : Fault),
        is_whitelist_exception f.ExceptionCode = false →
        (exception_handler G h f).trace.any Step.is_narrative_action = false ∧
        propagation_continues (exception_handler G h f) = true) := by
  refine ⟨by decide, by decide, ?_⟩
  intro hall
  have h := (hall sample_globals sample_host
    { ex := 0x9000, ExceptionCode := RESTART_SENTINEL, Rip := 0x140001234 } (by decide)).2
  revert h
  decide

/-- C3, amended: for every fault whose code is neither in the allow-list nor
the restart sentinel, `exception_handler` only reaches the allow-list filter:
it takes no narrative action (no write to the shared descriptor, no signal,
no narrative, no dialog), neither relaunches nor terminates the host, and
returns `EXCEPTION_CONTINUE_SEARCH`. -/
theorem allow_list_filter_declines (G : Globals) (h : Host) (f : Fault)
    (hw : is_whitelist_exception f.ExceptionCode = false)
    (hs : f.ExceptionCode ≠ RESTART_SENTINEL) :
    (exception_handler G h f).trace = [Step.allow_list_filter] ∧
    (exception_handler G h f).ret = EXCEPTION_CONTINUE_SEARCH ∧
    (exception_handler G h f).trace.any Step.is_narrative_action = false ∧
    propagation_continues (exception_handler G h f) = true := by
  rw [exception_handler_not_whitelisted G h f hs hw]
  exact ⟨rfl, rfl, by decide, by decide⟩

/-- The amended C3 at a breakpoint fault (`0x80000003`) inside the game. -/
theorem allow_list_filter_declines_witness :
    (exception_handler sample_globals sample_host
        { ex := 0x9000, ExceptionCode := 0x80000003, Rip := 0x140001234 }).trace
      = [Step.allow_list_filter] ∧
    (exception_handler sample_globals sample_host
        { ex := 0x9000, ExceptionCode := 0x80000003, Rip := 0x140001234 }).ret
      = EXCEPTION_CONTINUE_SEARCH ∧
    (exception_handler sample_globals sample_host
        { ex := 0x9000, ExceptionCode := 0x80000003, Rip := 0x140001234 }).trace.any
      Step.is_narrative_action = false ∧
    propagation_continues (exception_handler sample_globals sample_host
        { ex := 0x9000, ExceptionCode := 0x80000003, Rip := 0x140001234 }) = true :=
  allow_list_filter_declines sample_globals sample_host
    { ex := 0x9000, ExceptionCode := 0x80000003, Rip := 0x140001234 } (by decide) (by decide)

/-- C4, as stated, fails at the restart sentinel: a fault with the code
`0x12345678` at an address that belongs to no module is not declined, the trap
relaunches the game and terminates the host. -/
theorem ownership_filter_fails_at_sentinel :
    outside_protected_modules sample_host 0x7FFA00001000 ∧
    (exception_handler sample_globals sample_host
        { ex := 0x9100, ExceptionCode := RESTART_SENTINEL, Rip := 0x7FFA00001000 }).trace
      = [Step.restart_game_using_injector IdRadioRestartNormal, Step.TerminateProcess 0] ∧
    ¬ (∀ (G : Globals) (h : Host) (f : Fault),
        outside_protected_modules h f.Rip →
        (exception_handler G h f).trace.any Step.writes_descriptor = false ∧
        Step.SetEvent ∉ (exception_handler G h f).trace ∧
        (exception_handler G h f).trace.any Step.is_dialog = false ∧
        propagation_continues (exception_handler G h f) = true) := by
  have hout : outside_protected_modules sample_host 0x7FFA00001000 := Or.inl (by decide)
  refine ⟨hout, by decide, ?_⟩
  intro hall
  have h := (hall sample_globals sample_host
    { ex := 0x9100, ExceptionCode := RESTART_SENTINEL, Rip := 0x7FFA00001000 } hout).2.2.2
  revert h
  decide

/-- C4, amended: for every fault whose code is not the restart sentinel and
whose instruction address resolves to no module, or to a module whose file
name is neither `ffxiv_dx11.exe` nor `cimgui.dll`, `exception_handler`
declines: it reaches nothing but the filters, publishes no descriptor, signals
nothing, presents no dialog, neither relaunches nor terminates the host, and
returns `EXCEPTION_CONTINUE_SEARCH`. -/
theorem ownership_filter_declines (G : Globals) (h : Host) (f : Fault)
    (hs : f.ExceptionCode ≠ RESTART_SENTINEL)
    (ho : outside_protected_modules h f.Rip) :
    ((exception_handler G h f).trace = [Step.allow_list_filter] ∨
      (exception_handler G h f).trace = [Step.allow_list_filter, Step.ownership_filter]) ∧
    (exception_handler G h f).ret = EXCEPTION_CONTINUE_SEARCH ∧
    (exception_handler G h f).trace.any Step.writes_descriptor = false ∧
    Step.SetEvent ∉ (exception_handler G h f).trace ∧
    (exception_handler G h f).trace.any Step.is_dialog = false ∧
    propagation_continues (exception_handler G h f) = true := by
  obtain ⟨h1, h2⟩ := not_owned_of_outside h f.Rip ho
  cases hw : is_whitelist_exception f.ExceptionCode with
  | false =>
    rw [exception_handler_not_whitelisted G h f hs hw]
    exact ⟨Or.inl rfl, rfl, by decide, by decide, by decide, by decide⟩
  | true =>
    rw [exception_handler_not_owned G h f hs hw h1 h2]
    exact ⟨Or.inr rfl, rfl, by decide, by decide, by decide, by decide⟩

/-- The amended C4 at an access violation outside every module. -/
theorem ownership_filter_declines_witness :
    (exception_handler sample_globals sample_host
        { ex := 0x9100, ExceptionCode := 0xC0000005, Rip := 0x7FFA00001000 }).trace
      = [Step.allow_list_filter, Step.ownership_filter] ∧
    propagation_continues (exception_handler sample_globals sample_host
        { ex := 0x9100, ExceptionCode := 0xC0000005, Rip := 0x7FFA00001000 }) = true := by
  have h := ownership_filter_declines sample_globals sample_host
    { ex := 0x9100, ExceptionCode := 0xC0000005, Rip := 0x7FFA00001000 } (by decide)
    (Or.inl (by decide))
  exact ⟨by decide, h.2.2.2.2.2⟩

/-- C5 (restart sentinel in the trap): for every fault whose code is
`0x12345678`, whatever its address and whatever the state of the trap,
`exception_handler` does exactly two things, the relaunch in Normal mode and the
termination of the host with exit code 0; it reaches neither filter nor the
lock, writes nothing to the shared descriptor, does not signal the event, builds
no narrative and presents no dialog. -/
theorem restart_sentinel_short_circuits (G : Globals) (h : Host) (f : Fault)
    (hs : f.ExceptionCode = RESTART_SENTINEL) :
    (exception_handler G h f).trace
      = [Step.restart_game_using_injector IdRadioRestartNormal, Step.TerminateProcess 0] ∧
    (∀ s ∈ (exception_handler G h f).trace,
      s ≠ Step.allow_list_filter ∧ s ≠ Step.ownership_filter ∧ s ≠ Step.lock ∧
      s.writes_descriptor = false ∧ s ≠ Step.SetEvent ∧ s.is_narrative_action = false ∧
      s.is_dialog = false) := by
  rw [exception_handler_sentinel G h f hs]
  exact ⟨rfl, by decide⟩

/-- C5 at a sentinel fault raised inside the game with the shared channel open. -/
theorem restart_sentinel_short_circuits_witness :
    (exception_handler sample_globals sample_host
        { ex := 0x9200, ExceptionCode := 0x12345678, Rip := 0x140001234 }).trace
      = [Step.restart_game_using_injector IdRadioRestartNormal, Step.TerminateProcess 0] :=
  (restart_sentinel_short_circuits sample_globals sample_host
    { ex := 0x9200, ExceptionCode := 0x12345678, Rip := 0x140001234 } rfl).1

theorem publish_no_ends_host (G : Globals) (h : Host) (f : Fault) :
    (publish G h f).any Step.ends_host = false := by
  unfold publish
  split <;> rfl

theorem narration_no_ends_host (G : Globals) (h : Host) (f : Fault) :
    (narration G h f).any Step.ends_host = false := by
  unfold narration
  simp only [List.any_append, publish_no_ends_host, Bool.or_eq_false_iff]
  refine ⟨⟨⟨rfl, trivial⟩, ?_⟩, rfl⟩
  split <;> rfl

/-- C6 (outcome of the trap's dialog).  For every fault that passed both
filters and for which the handler reaches the dialog, no load of the stack
having faulted: when the dialog returns the Restart button with radio button
`radio`, the steps after the dialog are exactly the relaunch with `radio` and
then the termination of the host, and nothing before the dialog relaunched or
terminated; for every other outcome (another button, a cancelled or a failed
dialog) the dialog was presented, the trap neither relaunches nor terminates
the host and returns `EXCEPTION_CONTINUE_SEARCH`.  For every fault at all, a
value that the handler returns is `EXCEPTION_CONTINUE_SEARCH`; and when a load
of the stack faults, so that there is no dialog and no outcome of it, the trap
neither relaunches nor terminates the host. -/
theorem dialog_outcome :
    (∀ (G : Globals) (h : Host) (f : Fault), passed_both_filters h f →
      stack_fault h f = none →
      (∀ radio : Int, h.TaskDialogIndirect = some (IdButtonRestart, radio) →
        (exception_handler G h f).trace
          = [Step.allow_list_filter, Step.ownership_filter] ++ narration G h f
            ++ [Step.TaskDialogIndirect (message h) (window_log_str h),
                Step.restart_game_using_injector radio,
                Step.TerminateProcess f.ExceptionCode] ∧
        (narration G h f).any Step.ends_host = false) ∧
      ((∀ radio : Int, h.TaskDialogIndirect ≠ some (IdButtonRestart, radio)) →
        (exception_handler G h f).trace
          = [Step.allow_list_filter, Step.ownership_filter] ++ narration G h f
            ++ [Step.TaskDialogIndirect (message h) (window_log_str h)] ∧
        (exception_handler G h f).trace.any Step.ends_host = false ∧
        (exception_handler G h f).ret = EXCEPTION_CONTINUE_SEARCH)) ∧
    (∀ (G : Globals) (h : Host) (f : Fault) (value : Int),
      (exception_handler G h f).ret = some value → value = EXCEPTION_CONTINUE_SEARCH) ∧
    (∀ (G : Globals) (h : Host) (f : Fault) (address : Nat), passed_both_filters h f →
      stack_fault h f = some address →
      (exception_handler G h f).trace.any Step.is_dialog = false ∧
      (exception_handler G h f).trace.any Step.ends_host = false ∧
      (exception_handler G h f).ret = none) := by
  refine ⟨?_, ?_, ?_⟩
  · intro G h f hp hstack
    have hn := exception_handler_narrated G h f hp hstack
    constructor
    · intro radio hd
      have hdec : dialog_decision h f
          = [Step.restart_game_using_injector radio, Step.TerminateProcess f.ExceptionCode] := by
        unfold dialog_decision
        rw [hd]
        simp
      refine ⟨?_, narration_no_ends_host G h f⟩
      rw [hn, hdec]
      simp only [List.append_assoc, List.singleton_append, List.cons_append, List.nil_append]
    · intro hd
      have hdec : dialog_decision h f = [] := by
        unfold dialog_decision
        cases hres : h.TaskDialogIndirect with
        | none => rfl
        | some p =>
          obtain ⟨b, r⟩ := p
          by_cases hb : b = IdButtonRestart
          · exact absurd (hb ▸ hres) (hd r)
          · simp [hb]
      rw [hn, hdec, List.append_nil]
      refine ⟨rfl, ?_, rfl⟩
      simp only [List.any_append, narration_no_ends_host, Bool.or_eq_false_iff]
      exact ⟨⟨rfl, trivial⟩, rfl⟩
  · intro G h f value hv
    unfold exception_handler at hv
    split at hv
    · exact (Option.some.inj hv).symm
    · split at hv
      · exact (Option.some.inj hv).symm
      · split at hv
        · exact (Option.some.inj hv).symm
        · split at hv
          · exact Option.noConfusion hv
          · exact (Option.some.inj hv).symm
  · intro G h f address hp hstack
    rw [exception_handler_faulted G h f hp address hstack]
    exact ⟨rfl, rfl, rfl⟩

/-- C6 at the game's access violation: the user presses Restart with the radio
button for a restart without plugins. -/
theorem dialog_outcome_witness :
    (exception_handler sample_globals sample_host sample_fault).trace
      = [Step.allow_list_filter, Step.ownership_filter]
        ++ narration sample_globals sample_host sample_fault
        ++ [Step.TaskDialogIndirect (message sample_host) (window_log_str sample_host),
            Step.restart_game_using_injector IdRadioRestartWithoutPlugins,
            Step.TerminateProcess 0xC0000005] ∧
    (narration sample_globals sample_host sample_fault).any Step.ends_host = false :=
  (dialog_outcome.1 sample_globals sample_host sample_fault
    ⟨by decide, Or.inl (by decide)⟩ (by decide)).1 IdRadioRestartWithoutPlugins rfl

/-- C7 (a second install fails without side effects): in every state in which
the trap is installed, `veh::add_handler` returns `false`, leaves every global
as it was (handle, full-dump flag, start time, shared-descriptor pointer, event
handle) and takes no step: no handler is registered, no mapping or event is
created, no monitor process is launched. -/
theorem add_handler_idempotent (G : Globals) (o : InstallHost) (doFullDump : Bool)
    (workingDirectory : WString) (hinstalled : G.g_veh_handle ≠ 0) :
    add_handler G o doFullDump workingDirectory = { ret := false, globals := G, trace := [] } := by
  unfold add_handler
  rw [if_pos hinstalled]

/-- C7 at a first install that succeeds followed by a second install. -/
theorem add_handler_idempotent_witness :
    add_handler
        (add_handler { sample_globals with g_veh_handle := 0 } sample_install true
          "C:\\Dalamud".toList).globals
        sample_install false "C:\\Other".toList
      = { ret := false,
          globals := (add_handler { sample_globals with g_veh_handle := 0 } sample_install true
            "C:\\Dalamud".toList).globals,
          trace := [] } :=
  add_handler_idempotent _ sample_install false "C:\\Other".toList (by decide)

theorem dialog_decision_cases (h : Host) (f : Fault) :
    dialog_decision h f = [] ∨
    ∃ radio, dialog_decision h f
      = [Step.restart_game_using_injector radio, Step.TerminateProcess f.ExceptionCode] := by
  unfold dialog_decision
  cases h.TaskDialogIndirect with
  | none => exact Or.inl rfl
  | some p =>
    obtain ⟨b, r⟩ := p
    by_cases hb : b = IdButtonRestart
    · exact Or.inr ⟨r, by simp [hb]⟩
    · exact Or.inl (by simp [hb])

/-- The publication when the narrative is built to its end.  For every fault
that passed both filters and for which no load of the stack faults: if the shared descriptor and the event are both available, the event
is signalled exactly once, and at that signal, whatever the shared memory held
before, the descriptor holds the thread id, the process id, the pointer `ex`
of the fault, the full-dump flag, the fault code and the lifetime in seconds
(whole seconds now minus whole seconds at start), and it is the same when the
handler ends; if either is unavailable nothing is written and nothing is
signalled; in both cases the dialog is presented, after which nothing is
written or signalled. -/
theorem descriptor_publication (G : Globals) (h : Host) (f : Fault)
    (hp : passed_both_filters h f) (hstack : stack_fault h f = none) :
    (G.g_crashhandler_shared_info ≠ 0 ∧ G.g_crashhandler_event ≠ 0 →
      (exception_handler G h f).trace.count Step.SetEvent = 1 ∧
      ∀ m : exception_info, ∃ d : exception_info,
        signalled m (exception_handler G h f).trace = [d] ∧
        shared_info_after m (exception_handler G h f).trace = d ∧
        d.ThreadId = h.GetThreadId ∧
        d.ProcessId = h.GetCurrentProcessId ∧
        d.ExceptionPointers = f.ex ∧
        d.DoFullDump = G.g_veh_do_full_dump ∧
        d.Lifetime
          = seconds_since_epoch h.system_clock_now - seconds_since_epoch G.g_time_start ∧
        d.ExceptionCode = f.ExceptionCode) ∧
    (¬ (G.g_crashhandler_shared_info ≠ 0 ∧ G.g_crashhandler_event ≠ 0) →
      (exception_handler G h f).trace.any Step.writes_descriptor = false ∧
      (exception_handler G h f).trace.count Step.SetEvent = 0) ∧
    (∃ before after,
      (exception_handler G h f).trace
        = before ++ Step.TaskDialogIndirect (message h) (window_log_str h) :: after ∧
      before = [Step.allow_list_filter, Step.ownership_filter] ++ narration G h f ∧
      after.any Step.writes_descriptor = false ∧ after.count Step.SetEvent = 0) := by
  have hn := exception_handler_narrated G h f hp hstack
  refine ⟨?_, ?_, ?_⟩
  · intro hav
    rw [hn]
    simp only [narration, publish, if_pos hav]
    by_cases hfp : h.get_function_pointer ≠ 0
    · rw [if_pos hfp]
      rcases dialog_decision_cases h f with hd | ⟨radio, hd⟩ <;> rw [hd] <;>
        simp [signalled, shared_info_after, Step.apply]
    · rw [if_neg hfp]
      rcases dialog_decision_cases h f with hd | ⟨radio, hd⟩ <;> rw [hd] <;>
        simp [signalled, shared_info_after, Step.apply]
  · intro hav
    rw [hn]
    simp only [narration, publish, if_neg hav]
    by_cases hfp : h.get_function_pointer ≠ 0
    · rw [if_pos hfp]
      rcases dialog_decision_cases h f with hd | ⟨radio, hd⟩ <;> rw [hd] <;>
        simp [Step.writes_descriptor]
    · rw [if_neg hfp]
      rcases dialog_decision_cases h f with hd | ⟨radio, hd⟩ <;> rw [hd] <;>
        simp [Step.writes_descriptor]
  · refine ⟨_, dialog_decision h f, ?_, rfl, ?_⟩
    · rw [hn]
      simp only [List.append_assoc, List.singleton_append]
    · rcases dialog_decision_cases h f with hd | ⟨radio, hd⟩ <;> rw [hd] <;>
        simp [Step.writes_descriptor]

/-- The publication at the game's access violation, the stack being readable
and the shared channel open: there is one signal, and it finds the descriptor
filled. -/
theorem descriptor_publication_witness :
    (exception_handler sample_globals sample_host sample_fault).trace.count Step.SetEvent = 1 ∧
    signalled
        { DumpPath := [], ThreadId := 1, ProcessId := 1, ExceptionPointers := 1,
          DoFullDump := false, ExceptionCode := 1, Lifetime := 1 }
        (exception_handler sample_globals sample_host sample_fault).trace
      = [{ DumpPath := "C:\\logs\\dalamud_appcrash.dmp".toList,
           ThreadId := 4242, ProcessId := 777, ExceptionPointers := 0x9000,
           DoFullDump := true, ExceptionCode := 0xC0000005, Lifetime := 60 }] :=
  ⟨((descriptor_publication sample_globals sample_host sample_fault
      ⟨by decide, Or.inl (by decide)⟩ (by decide)).1 (by decide)).1, by decide⟩

/-- C8, at the failing input: an access violation inside the game's executable
that passes both filters, the shared descriptor and the event being available,
with the stack pointer 64 bytes below the end of the stack.  The load of the
ninth word of the section `Stack` raises an access violation inside the
handler, after the lock and before the block that publishes: nothing is
written to the descriptor, the event is not signalled, no dialog is presented
and the handler does not return. -/
theorem stack_load_faults_before_publication :
    passed_both_filters sample_stack_end_host sample_stack_end_fault ∧
    (sample_globals.g_crashhandler_shared_info ≠ 0 ∧ sample_globals.g_crashhandler_event ≠ 0) ∧
    stack_fault sample_stack_end_host sample_stack_end_fault = some 0x7FF000002000 ∧
    exception_handler sample_globals sample_stack_end_host sample_stack_end_fault =
      { ret := none,
        trace :=
          [Step.allow_list_filter, Step.ownership_filter, Step.lock,
            Step.access_violation 0x7FF000002000] } ∧
    (exception_handler sample_globals sample_stack_end_host sample_stack_end_fault).trace.any
      Step.writes_descriptor = false ∧
    (exception_handler sample_globals sample_stack_end_host sample_stack_end_fault).trace.count
      Step.SetEvent = 0 ∧
    (exception_handler sample_globals sample_stack_end_host sample_stack_end_fault).trace.any
      Step.is_dialog = false := by
  have hp : passed_both_filters sample_stack_end_host sample_stack_end_fault :=
    ⟨by decide, Or.inl (by decide)⟩
  have hs : stack_fault sample_stack_end_host sample_stack_end_fault = some 0x7FF000002000 := by
    decide
  have he := exception_handler_faulted sample_globals sample_stack_end_host
    sample_stack_end_fault hp 0x7FF000002000 hs
  refine ⟨hp, by decide, hs, he, ?_, ?_, ?_⟩ <;> rw [he] <;> rfl

theorem narration_no_dialog (G : Globals) (h : Host) (f : Fault) :
    (narration G h f).any Step.is_dialog = false := by
  unfold narration publish
  split_ifs <;> rfl

theorem dialog_step_carries (G : Globals) (h : Host) (f : Fault) :
    ∀ s ∈ (exception_handler G h f).trace, s.is_dialog = true →
      s = Step.TaskDialogIndirect (message h) (window_log_str h) := by
  have hnone : ∀ (l : List Step) (s : Step), l.any Step.is_dialog = false → s ∈ l →
      s.is_dialog = true → False := by
    intro l s hl hs hd
    have := List.any_eq_false.1 hl s hs
    rw [hd] at this
    exact this rfl
  intro s hs hd
  unfold exception_handler at hs
  split at hs
  · exact (hnone _ s (by rfl) hs hd).elim
  · split at hs
    · exact (hnone _ s (by rfl) hs hd).elim
    · split at hs
      · exact (hnone _ s (by rfl) hs hd).elim
      · split at hs
        · exact (hnone _ s (by rfl) hs hd).elim
        · simp only [List.mem_append, List.mem_singleton] at hs
          rcases hs with ((hs | hs) | hs) | hs
          · exact (hnone _ s (by rfl) hs hd).elim
          · exact (hnone _ s (narration_no_dialog G h f) hs hd).elim
          · exact hs
          · rcases dialog_decision_cases h f with hdd | ⟨radio, hdd⟩
            · rw [hdd] at hs
              exact absurd hs (List.not_mem_nil _)
            · rw [hdd] at hs
              exact (hnone _ s (by rfl) hs hd).elim

end Veh

namespace CrashHandler

theorem parse_args_after_separator (W : World) (post : List WString) :
    ∀ (st : Startup) (l : List WString), st.launcherArgs = some l →
      parse_args W post st = some { st with launcherArgs := some (l ++ post) } := by
  induction post with
  | nil =>
    intro st l h
    simp [parse_args, ← h]
  | cons a post ih =>
    intro st l h
    rw [parse_args]
    have h1 : parse_arg W st a = some { st with launcherArgs := some (l ++ [a]) } := by
      unfold parse_arg
      rw [h]
    rw [h1]
    simp only
    rw [ih _ (l ++ [a]) rfl]
    simp

theorem separator_no_option :
    OPT_PROCESS_HANDLE.isPrefixOf SEPARATOR = false ∧
    OPT_PIPE_READ_HANDLE.isPrefixOf SEPARATOR = false ∧
    OPT_ASSET_DIRECTORY.isPrefixOf SEPARATOR = false ∧
    OPT_LOG_DIRECTORY.isPrefixOf SEPARATOR = false := by decide

theorem parse_arg_separator (W : World) (st : Startup) (h : st.launcherArgs = none) :
    parse_arg W st SEPARATOR = some { st with launcherArgs := some [] } := by
  unfold parse_arg
  rw [h]
  simp [separator_no_option]

theorem parse_arg_launcherArgs (W : World) (st st2 : Startup) (a : WString)
    (h : st.launcherArgs = none) (ha : a ≠ SEPARATOR) (hp : parse_arg W st a = some st2) :
    st2.launcherArgs = none := by
  unfold parse_arg at hp
  rw [h] at hp
  simp only at hp
  split at hp
  · cases hp; rfl
  · split at hp
    · cases hp; rfl
    · split at hp
      · cases hp; rfl
      · split at hp
        · cases hp; rfl
        · cases hp

theorem parse_args_separator (W : World) (post : List WString) (pre : List WString) :
    SEPARATOR ∉ pre → ∀ st : Startup, st.launcherArgs = none →
      parse_args W (pre ++ SEPARATOR :: post) st
        = (parse_args W pre st).map (fun c => { c with launcherArgs := some post }) := by
  induction pre with
  | nil =>
    intro _ st h
    have e1 : parse_args W (SEPARATOR :: post) st
        = parse_args W post { st with launcherArgs := some [] } := by
      rw [parse_args, parse_arg_separator W st h]
    rw [List.nil_append, e1, parse_args_after_separator W post _ [] rfl]
    simp [parse_args]
  | cons a pre ih =>
    intro hsep st h
    have ha : a ≠ SEPARATOR := fun h2 => hsep (h2 ▸ List.mem_cons_self _ _)
    have hpre : SEPARATOR ∉ pre := fun h2 => hsep (List.mem_cons_of_mem _ h2)
    have e1 : ∀ l, parse_args W (a :: l) st
        = match parse_arg W st a with
          | none => none
          | some st2 => parse_args W l st2 := fun l => by rw [parse_args]
    rw [List.cons_append, e1, e1]
    cases hp : parse_arg W st a with
    | none => rfl
    | some st2 =>
      simp only
      exact ih hpre st2 (parse_arg_launcherArgs W st st2 a h ha hp)

theorem third_of_isPrefixOf (P a : WString) (hlen : 2 < P.length)
    (h : P.isPrefixOf a = true) : a[2]? = P[2]? := by
  obtain ⟨t, rfl⟩ := List.isPrefixOf_iff_prefix.1 h
  exact List.getElem?_append_left hlen

theorem option_exclusive (a : WString) :
    (OPT_PROCESS_HANDLE.isPrefixOf a = true →
      OPT_PIPE_READ_HANDLE.isPrefixOf a = false ∧ OPT_ASSET_DIRECTORY.isPrefixOf a = false ∧
      OPT_LOG_DIRECTORY.isPrefixOf a = false) ∧
    (OPT_PIPE_READ_HANDLE.isPrefixOf a = true →
      OPT_ASSET_DIRECTORY.isPrefixOf a = false ∧ OPT_LOG_DIRECTORY.isPrefixOf a = false) ∧
    (OPT_ASSET_DIRECTORY.isPrefixOf a = true → OPT_LOG_DIRECTORY.isPrefixOf a = false) := by
  have hP := third_of_isPrefixOf OPT_PROCESS_HANDLE a (by decide)
  have hE := third_of_isPrefixOf OPT_PIPE_READ_HANDLE a (by decide)
  have hA := third_of_isPrefixOf OPT_ASSET_DIRECTORY a (by decide)
  have hL := third_of_isPrefixOf OPT_LOG_DIRECTORY a (by decide)
  have eP : OPT_PROCESS_HANDLE[2]? = some (Char.ofNat 112) := by decide
  have eE : OPT_PIPE_READ_HANDLE[2]? = some (Char.ofNat 101) := by decide
  have eA : OPT_ASSET_DIRECTORY[2]? = some (Char.ofNat 97) := by decide
  have eL : OPT_LOG_DIRECTORY[2]? = some (Char.ofNat 108) := by decide
  rw [eP] at hP
  rw [eE] at hE
  rw [eA] at hA
  rw [eL] at hL
  refine ⟨fun h => ⟨?_, ?_, ?_⟩, fun h => ⟨?_, ?_⟩, fun h => ?_⟩
  · cases h2 : OPT_PIPE_READ_HANDLE.isPrefixOf a with
    | false => rfl
    | true => have := (hP h).symm.trans (hE h2); exact absurd this (by decide)
  · cases h2 : OPT_ASSET_DIRECTORY.isPrefixOf a with
    | false => rfl
    | true => have := (hP h).symm.trans (hA h2); exact absurd this (by decide)
  · cases h2 : OPT_LOG_DIRECTORY.isPrefixOf a with
    | false => rfl
    | true => have := (hP h).symm.trans (hL h2); exact absurd this (by decide)
  · cases h2 : OPT_ASSET_DIRECTORY.isPrefixOf a with
    | false => rfl
    | true => have := (hE h).symm.trans (hA h2); exact absurd this (by decide)
  · cases h2 : OPT_LOG_DIRECTORY.isPrefixOf a with
    | false => rfl
    | true => have := (hE h).symm.trans (hL h2); exact absurd this (by decide)
  · cases h2 : OPT_LOG_DIRECTORY.isPrefixOf a with
    | false => rfl
    | true => have := (hA h).symm.trans (hL h2); exact absurd this (by decide)

/-- The state that the argument loop reaches from `st` on the options `opts`. -/
theorem parse_args_options (W : World) (opts : List WString) :
    (∀ a ∈ opts, a ≠ SEPARATOR) → ∀ st : Startup, st.launcherArgs = none →
      parse_args W opts st =
        if opts.all recognised then
          some { g_hProcess :=
                   ((option_value OPT_PROCESS_HANDLE opts).map W.wcstoull).getD st.g_hProcess,
                 hPipeRead :=
                   ((option_value OPT_PIPE_READ_HANDLE opts).map W.wcstoull).getD st.hPipeRead,
                 g_assetsDirectory :=
                   (option_value OPT_ASSET_DIRECTORY opts).getD st.g_assetsDirectory,
                 logDir := (option_value OPT_LOG_DIRECTORY opts).getD st.logDir,
                 launcherArgs := none }
        else none := by
  induction opts with
  | nil =>
    intro _ st h
    cases st
    simp only at h
    subst h
    simp [parse_args, option_value]
  | cons a opts ih =>
    intro hsep st h
    have ha : a ≠ SEPARATOR := hsep a (List.mem_cons_self _ _)
    have hopts : ∀ b ∈ opts, b ≠ SEPARATOR := fun b hb => hsep b (List.mem_cons_of_mem _ hb)
    obtain ⟨x1, x2, x3⟩ := option_exclusive a
    have e1 : parse_args W (a :: opts) st
        = match parse_arg W st a with
          | none => none
          | some st2 => parse_args W opts st2 := by rw [parse_args]
    rw [e1]
    simp only [List.all_cons, option_value]
    by_cases h1 : OPT_PROCESS_HANDLE.isPrefixOf a = true
    · obtain ⟨y2, y3, y4⟩ := x1 h1
      have hstep : parse_arg W st a
          = some { st with g_hProcess := W.wcstoull (a.drop OPT_PROCESS_HANDLE.length) } := by
        unfold parse_arg
        rw [h]
        simp only
        rw [if_pos h1]
      rw [hstep]
      simp only
      rw [ih hopts { st with g_hProcess := W.wcstoull (a.drop OPT_PROCESS_HANDLE.length) } h]
      simp only [recognised, h1, y2, y3, y4, Bool.true_or, Bool.true_and, Bool.false_eq_true,
        if_false, if_true]
      split
      · congr 2 <;> (cases option_value _ opts <;> rfl)
      · rfl
    · have h1f : OPT_PROCESS_HANDLE.isPrefixOf a = false := Bool.eq_false_iff.2 h1
      by_cases h2 : OPT_PIPE_READ_HANDLE.isPrefixOf a = true
      · obtain ⟨y3, y4⟩ := x2 h2
        have hstep : parse_arg W st a
            = some { st with hPipeRead := W.wcstoull (a.drop OPT_PIPE_READ_HANDLE.length) } := by
          unfold parse_arg
          rw [h]
          simp only
          rw [if_neg h1, if_pos h2]
        rw [hstep]
        simp only
        rw [ih hopts { st with hPipeRead := W.wcstoull (a.drop OPT_PIPE_READ_HANDLE.length) } h]
        simp only [recognised, h1f, h2, y3, y4, Bool.true_or, Bool.or_true, Bool.true_and,
          Bool.false_eq_true, if_false, if_true]
        split
        · congr 2 <;> (cases option_value _ opts <;> rfl)
        · rfl
      · have h2f : OPT_PIPE_READ_HANDLE.isPrefixOf a = false := Bool.eq_false_iff.2 h2
        by_cases h3 : OPT_ASSET_DIRECTORY.isPrefixOf a = true
        · have y4 := x3 h3
          have hstep : parse_arg W st a
              = some { st with g_assetsDirectory := a.drop OPT_ASSET_DIRECTORY.length } := by
            unfold parse_arg
            rw [h]
            simp only
            rw [if_neg h1, if_neg h2, if_pos h3]
          rw [hstep]
          simp only
          rw [ih hopts { st with g_assetsDirectory := a.drop OPT_ASSET_DIRECTORY.length } h]
          simp only [recognised, h1f, h2f, h3, y4, Bool.true_or, Bool.or_true, Bool.true_and,
            Bool.false_eq_true, if_false, if_true]
          split
          · congr 2 <;> (cases option_value _ opts <;> rfl)
          · rfl
        · have h3f : OPT_ASSET_DIRECTORY.isPrefixOf a = false := Bool.eq_false_iff.2 h3
          by_cases h4 : OPT_LOG_DIRECTORY.isPrefixOf a = true
          · have hstep : parse_arg W st a
                = some { st with logDir := a.drop OPT_LOG_DIRECTORY.length } := by
              unfold parse_arg
              rw [h]
              simp only
              rw [if_neg h1, if_neg h2, if_neg h3, if_pos h4]
            rw [hstep]
            simp only
            rw [ih hopts { st with logDir := a.drop OPT_LOG_DIRECTORY.length } h]
            simp only [recognised, h1f, h2f, h3f, h4, Bool.true_or, Bool.or_true, Bool.true_and,
              Bool.false_eq_true, if_false, if_true]
            split
            · congr 2 <;> (cases option_value _ opts <;> rfl)
            · rfl
          · have hstep : parse_arg W st a = none := by
              unfold parse_arg
              rw [h]
              simp only
              rw [if_neg h1, if_neg h2, if_neg h3, if_neg h4, if_neg ha]
            have h4f : OPT_LOG_DIRECTORY.isPrefixOf a = false := Bool.eq_false_iff.2 h4
            have hne : (a == SEPARATOR) = false := by simpa using ha
            rw [hstep]
            simp [recognised, h1f, h2f, h3f, h4f, hne]

theorem options_of_ne_separator (rest : List WString) :
    ∀ a ∈ options_of rest, a ≠ SEPARATOR := by
  intro a ha
  have h := List.mem_takeWhile_imp ha
  simpa using h

theorem rest_split (rest : List WString) :
    rest = options_of rest ∨
    ∃ post, rest = options_of rest ++ SEPARATOR :: post := by
  have h := List.takeWhile_append_dropWhile (fun a => a != SEPARATOR) rest
  cases hd : rest.dropWhile (fun a => a != SEPARATOR) with
  | nil =>
    rw [hd, List.append_nil] at h
    exact Or.inl h.symm
  | cons x post =>
    have hx : x = SEPARATOR := by
      have h2 := List.head_dropWhile_not (fun a => a != SEPARATOR) rest
        (by rw [hd]; exact List.cons_ne_nil _ _)
      simp only [hd, List.head_cons] at h2
      simpa using h2
    rw [hd, hx] at h
    exact Or.inr ⟨post, h.symm⟩

/-- The outcome of the argument loop of `main`, in terms of the options before
the first `--`. -/
theorem parse_args_initial (W : World) (rest : List WString) :
    ∃ launcherArgs,
      parse_args W rest Startup.initial =
        if (options_of rest).all recognised then
          some { g_hProcess :=
                   ((option_value OPT_PROCESS_HANDLE (options_of rest)).map W.wcstoull).getD 0,
                 hPipeRead :=
                   ((option_value OPT_PIPE_READ_HANDLE (options_of rest)).map W.wcstoull).getD 0,
                 g_assetsDirectory :=
                   (option_value OPT_ASSET_DIRECTORY (options_of rest)).getD [],
                 logDir := (option_value OPT_LOG_DIRECTORY (options_of rest)).getD [],
                 launcherArgs := launcherArgs }
        else none := by
  have hopt := parse_args_options W (options_of rest) (options_of_ne_separator rest)
    Startup.initial rfl
  rcases rest_split rest with h | ⟨post, h⟩
  · refine ⟨none, ?_⟩
    rw [← h] at hopt ⊢
    exact hopt
  · refine ⟨some post, ?_⟩
    have hsep : SEPARATOR ∉ options_of rest := fun hm => options_of_ne_separator rest _ hm rfl
    have h2 := parse_args_separator W post (options_of rest) hsep Startup.initial rfl
    rw [← h, hopt] at h2
    rw [h2]
    split <;> rfl

theorem main_loop_head (W : World) (cfg : Startup) (attached : Bool) (events : List Event) :
    (main_loop W cfg attached events).trace.head? = some Step.ReadFile_exinfo := by
  cases events with
  | nil => rfl
  | cons e rest =>
    unfold main_loop
    split
    · split <;> rfl
    · split
      · split <;> rfl
      · split
        · rfl
        · simp only
          split
          · rfl
          · split
            · split <;> rfl
            · split <;> rfl

theorem returned_zero_ne : Exit.returned 0 ≠ Exit.returned InvalidParameter := by decide

theorem main_loop_exit (W : World) (cfg : Startup) (events : List Event) :
    ∀ attached : Bool,
      (main_loop W cfg attached events).exit ≠ Exit.returned InvalidParameter := by
  induction events with
  | nil =>
    intro attached h
    cases h
  | cons e rest ih =>
    intro attached
    unfold main_loop
    split
    · split <;> exact fun h => returned_zero_ne h
    · split
      · split
        · intro h; cases h
        · exact fun h => returned_zero_ne h
      · split
        · intro h; cases h
        · simp only
          split
          · exact ih _
          · split
            · split
              · intro h; cases h
              · exact ih _
            · split <;> exact ih _

/-- C9 (startup validation of the monitor).  `rest` are the arguments after the
program name and `options_of rest` those before the first `--`.  `main` returns
`InvalidParameter` (-101) without any step, so without reading the pipe, when
one of these is not a known option, when the process handle or the pipe handle
is missing or parses to zero, or when the asset directory is missing or empty.
When every one is known, the two handles are given and not zero, the process
handle is valid and the asset directory is given and not empty, `main` is not
rejected, whether a log directory is given or not: it enters the loop and reads
the pipe.  A monitor started with no argument returns `InvalidParameter`, and
that is how `veh::add_handler` starts it: with no command line. -/
theorem startup_validation (W : World) (argv0 : WString) (rest : List WString)
    (events : List Event) :
    (((∃ a ∈ options_of rest, recognised a = false) ∨
      (∀ v, option_value OPT_PROCESS_HANDLE (options_of rest) = some v → W.wcstoull v = 0) ∨
      (∀ v, option_value OPT_PIPE_READ_HANDLE (options_of rest) = some v → W.wcstoull v = 0) ∨
      (∀ v, option_value OPT_ASSET_DIRECTORY (options_of rest) = some v → v = [])) →
      main W (argv0 :: rest) events
        = { exit := Exit.returned InvalidParameter, trace := [] }) ∧
    ((∀ a ∈ options_of rest, recognised a = true) →
      ∀ hProcess hPipe assets : WString,
        option_value OPT_PROCESS_HANDLE (options_of rest) = some hProcess →
        W.wcstoull hProcess ≠ 0 → W.GetProcessId (W.wcstoull hProcess) ≠ 0 →
        option_value OPT_PIPE_READ_HANDLE (options_of rest) = some hPipe →
        W.wcstoull hPipe ≠ 0 →
        option_value OPT_ASSET_DIRECTORY (options_of rest) = some assets → assets ≠ [] →
        (main W (argv0 :: rest) events).exit ≠ Exit.returned InvalidParameter ∧
        (main W (argv0 :: rest) events).trace.head? = some Step.ReadFile_exinfo ∧
        ∃ cfg : Startup,
          cfg.logDir = (option_value OPT_LOG_DIRECTORY (options_of rest)).getD [] ∧
          main W (argv0 :: rest) events = main_loop W cfg false events) ∧
    main W [argv0] events = { exit := Exit.returned InvalidParameter, trace := [] } ∧
    main W [] events = { exit := Exit.returned InvalidParameter, trace := [] } ∧
    (∀ (G : Veh.Globals) (o : Veh.InstallHost) (doFullDump : Bool) (workingDirectory : WString),
      G.g_veh_handle = 0 →
      Veh.Step.CreateProcess
          (o.path_append workingDirectory "DalamudCrashHandler.exe".toList) none
        ∈ (Veh.add_handler G o doFullDump workingDirectory).trace ∧
      ∀ app cmd, Veh.Step.CreateProcess app cmd
          ∈ (Veh.add_handler G o doFullDump workingDirectory).trace →
        app = o.path_append workingDirectory "DalamudCrashHandler.exe".toList ∧ cmd = none) := by
  obtain ⟨la, hparse⟩ := parse_args_initial W rest
  refine ⟨?_, ?_, rfl, rfl, ?_⟩
  pick_goal 3
  · intro G o doFullDump workingDirectory hG
    refine ⟨?_, ?_⟩
    · unfold Veh.add_handler
      rw [if_neg (fun hne => hne hG)]
      simp
    intro app cmd hmem
    unfold Veh.add_handler at hmem
    rw [if_neg (fun hne => hne hG)] at hmem
    simp only [List.mem_append, List.mem_cons, List.mem_singleton, List.not_mem_nil,
      or_false] at hmem
    rcases hmem with ((h | h | h) | h) | h
    · cases h
    · cases h
    · cases h
    · split at h
      · cases h
      · rw [List.mem_singleton] at h
        cases h
    · rcases h with h | h | h | h
      · cases h
      · cases h
        exact ⟨rfl, rfl⟩
      · cases h
      · cases h
  · intro hbad
    unfold main
    rw [List.drop_one, List.tail_cons, hparse]
    by_cases hall : (options_of rest).all recognised = true
    · rw [if_pos hall]
      simp only
      rcases hbad with ⟨a, ha, hr⟩ | hp | hp | hp
      · rw [List.all_eq_true] at hall
        rw [hall a ha] at hr
        exact Bool.noConfusion hr
      · have h0 : ((option_value OPT_PROCESS_HANDLE (options_of rest)).map W.wcstoull).getD 0
            = 0 := by
          cases hv : option_value OPT_PROCESS_HANDLE (options_of rest) with
          | none => rfl
          | some v => simpa using hp v hv
        rw [if_pos h0]
      · have h0 : ((option_value OPT_PIPE_READ_HANDLE (options_of rest)).map W.wcstoull).getD 0
            = 0 := by
          cases hv : option_value OPT_PIPE_READ_HANDLE (options_of rest) with
          | none => rfl
          | some v => simpa using hp v hv
        rw [if_pos h0]
        split <;> rfl
      · have h0 : (option_value OPT_ASSET_DIRECTORY (options_of rest)).getD [] = [] := by
          cases hv : option_value OPT_ASSET_DIRECTORY (options_of rest) with
          | none => rfl
          | some v => simpa using hp v hv
        rw [if_pos h0]
        split
        · rfl
        · split <;> rfl
    · rw [if_neg hall]
  · intro hall hProcess hPipe assets h1 h1n h1v h2 h2n h3 h3n
    have hall2 : (options_of rest).all recognised = true := List.all_eq_true.2 hall
    have hm : main W (argv0 :: rest) events
        = main_loop W
            { g_hProcess := W.wcstoull hProcess, hPipeRead := W.wcstoull hPipe,
              g_assetsDirectory := assets,
              logDir := (option_value OPT_LOG_DIRECTORY (options_of rest)).getD [],
              launcherArgs := la } false events := by
      unfold main
      rw [List.drop_one, List.tail_cons, hparse, if_pos hall2, h1, h2, h3]
      simp only [Option.map_some', Option.getD_some]
      rw [if_neg h1n, if_neg h2n, if_neg h3n, if_neg h1v]
    rw [hm]
    exact ⟨main_loop_exit W _ events false, main_loop_head W _ false events, _, rfl, rfl⟩

theorem sample_wcstoull_zero (v : WString)
    (h : option_value OPT_PROCESS_HANDLE (options_of sample_options_without_process) = some v) :
    sample_world.wcstoull v = 0 := by
  have h0 : option_value OPT_PROCESS_HANDLE (options_of sample_options_without_process)
      = some [Char.ofNat 48] := by decide
  have hv : v = [Char.ofNat 48] := Option.some.inj (h.symm.trans h0)
  subst hv
  decide

/-- C9 at two command lines of the sample world: one whose process handle is
`0`, which is rejected, and one with valid handles and an asset directory but
no log directory, which is not. -/
theorem startup_validation_witness :
    main sample_world ("DalamudCrashHandler.exe".toList :: sample_options_without_process)
        [sample_restart_event]
      = { exit := Exit.returned InvalidParameter, trace := [] } ∧
    (main sample_world ("DalamudCrashHandler.exe".toList :: sample_options)
        [sample_restart_event]).exit ≠ Exit.returned InvalidParameter :=
  ⟨(startup_validation sample_world "DalamudCrashHandler.exe".toList
      sample_options_without_process [sample_restart_event]).1
      (Or.inr (Or.inl sample_wcstoull_zero)),
   ((startup_validation sample_world "DalamudCrashHandler.exe".toList
      sample_options [sample_restart_event]).2.1
      (by decide) "1234".toList "56".toList "C:\\assets".toList
      (by decide) (by decide) (by decide) (by decide) (by decide) (by decide) (by decide)).1⟩

theorem restarts_with_append (W : World) (l : List WString) (t1 t2 : List Step)
    (h1 : restarts_with W l t1) (h2 : restarts_with W l t2) :
    restarts_with W l (t1 ++ t2) := by
  intro s hs app cmd he
  rcases List.mem_append.1 hs with h | h
  · exact h1 s h app cmd he
  · exact h2 s h app cmd he

theorem restarts_with_after (W : World) (l : List WString) (t : List Step) (r : Run)
    (h1 : restarts_with W l t) (h2 : restarts_with W l r.trace) :
    restarts_with W l (r.after t).trace :=
  restarts_with_append W l t r.trace h1 h2

theorem restarts_with_of_none (W : World) (l : List WString) (t : List Step)
    (h : ∀ s ∈ t, ∀ app cmd, s ≠ Step.CreateProcessW app cmd) : restarts_with W l t :=
  fun s hs app cmd he => absurd he (h s hs app cmd)

theorem restarts_with_restart (W : World) (l : List WString) (succeeds : Bool)
    (nRadioButton : Int) :
    restarts_with W l (restart_game_using_injector W succeeds nRadioButton l) := by
  intro s hs app cmd he
  unfold restart_game_using_injector at hs
  rcases List.mem_cons.1 hs with h | h
  · rw [h] at he
    cases he
    exact ⟨rfl, nRadioButton, rfl⟩
  · split at h
    · cases h
    · rw [List.mem_singleton.1 h] at he
      cases he

theorem try_attach_xclr_quiet (attached : Bool) (e : Event) :
    ∀ s ∈ (try_attach_xclr attached e).1, ∀ app cmd, s ≠ Step.CreateProcessW app cmd := by
  intro s hs app cmd he
  unfold try_attach_xclr at hs
  subst he
  split at hs <;> simp at hs

theorem attach_debugger_quiet (failure : Option AttachCall) :
    ∀ s ∈ (attach_debugger failure).1, ∀ app cmd, s ≠ Step.CreateProcessW app cmd := by
  intro s hs app cmd he
  subst he
  unfold attach_debugger at hs
  split at hs <;> simp at hs

theorem submit_all_reporting (x : exception_info) (e : Event) :
    (submit x e).all Step.is_reporting = true := by
  unfold submit
  cases e.WinHttpOpen <;> cases e.WinHttpConnect <;> cases e.WinHttpOpenRequest <;>
    cases e.WinHttpSendRequest <;> rfl

theorem reporting_all_reporting (x : exception_info) (e : Event) :
    ∀ s ∈ reporting x e, s.is_reporting = true := by
  intro s hs
  unfold reporting at hs
  split at hs
  · exact absurd hs (List.not_mem_nil _)
  · simp only [List.mem_append, List.mem_singleton] at hs
    rcases hs with (h | h) | h
    · rw [h]; rfl
    · exact List.all_eq_true.1 (submit_all_reporting x e) s h
    · rw [h]; rfl

theorem reporting_any_false (x : exception_info) (e : Event) (p : Step → Bool)
    (hp : ∀ s : Step, s.is_reporting = true → p s = false) :
    (reporting x e).any p = false :=
  List.any_eq_false.2 (fun s hs => by
    rw [hp s (reporting_all_reporting x e s hs)]
    exact Bool.false_ne_true)

theorem report_quiet (W : World) (cfg : Startup) (x : exception_info) (e : Event) :
    ∀ s ∈ report W cfg x e, ∀ app cmd, s ≠ Step.CreateProcessW app cmd := by
  intro s hs app cmd he
  subst he
  unfold report at hs
  simp only [List.mem_append, List.mem_singleton] at hs
  rcases hs with (((h | h) | h) | h) | h
  · split at h <;> simp at h
  · split at h <;> simp at h
  · cases h
  · exact Bool.noConfusion (reporting_all_reporting x e _ h)
  · cases h

theorem turn_quiet (W : World) (cfg : Startup) (attached : Bool) (x : exception_info)
    (e : Event) (l : List WString) (last : Step)
    (hlast : ∀ app cmd, last ≠ Step.CreateProcessW app cmd) :
    restarts_with W l
      ([Step.ReadFile_exinfo] ++ (try_attach_xclr attached e).1
        ++ (attach_debugger e.attach_failure).1 ++ report W cfg x e ++ [last]) := by
  apply restarts_with_of_none
  intro s hs app cmd
  simp only [List.mem_append, List.mem_singleton] at hs
  rcases hs with (((h | h) | h) | h) | h
  · rw [h]; exact fun he => by cases he
  · exact try_attach_xclr_quiet attached e s h app cmd
  · exact attach_debugger_quiet _ s h app cmd
  · exact report_quiet W cfg x e s h app cmd
  · rw [h]; exact hlast app cmd

theorem main_loop_restarts_with (W : World) (cfg : Startup) (l : List WString)
    (hl : cfg.launcherArgs = some l) (events : List Event) :
    ∀ attached : Bool, restarts_with W l (main_loop W cfg attached events).trace := by
  induction events with
  | nil =>
    intro attached
    exact restarts_with_of_none W l _ (fun s hs app cmd he => by
      rw [List.mem_singleton.1 hs] at he
      cases he)
  | cons e rest ih =>
    intro attached
    unfold main_loop
    rw [hl]
    split
    · split
      · apply restarts_with_of_none
        intro s hs app cmd he
        subst he
        simp only [List.mem_cons, List.mem_singleton, List.not_mem_nil, or_false] at hs
        rcases hs with h | h | h | h
        · cases h
        · cases h
        · cases h
        · split at h <;> cases h
      · apply restarts_with_of_none
        intro s hs app cmd he
        subst he
        simp at hs
    · rename_i x hx
      split
      · simp only
        refine restarts_with_append W l _ _ ?_ (restarts_with_restart W l _ _)
        apply restarts_with_of_none
        intro s hs app cmd he
        subst he
        simp at hs
      · split
        · apply restarts_with_of_none
          intro s hs app cmd
          simp only [List.mem_append, List.mem_singleton] at hs
          rcases hs with (h | h) | h
          · rw [h]; exact fun he => by cases he
          · exact try_attach_xclr_quiet attached e s h app cmd
          · exact attach_debugger_quiet _ s h app cmd
        · simp only
          split
          · exact restarts_with_after W l _ _
              (turn_quiet W cfg attached x e l _ (fun _ _ he => by cases he)) (ih _)
          · split
            · refine restarts_with_after W l _ _ ?_ (ih _)
              exact restarts_with_append W l _ _
                (turn_quiet W cfg attached x e l _ (fun _ _ he => by cases he))
                (restarts_with_restart W l _ _)
            · split
              · exact restarts_with_after W l _ _
                  (turn_quiet W cfg attached x e l _ (fun _ _ he => by cases he)) (ih _)
              · exact restarts_with_after W l _ _
                  (turn_quiet W cfg attached x e l _ (fun _ _ he => by cases he)) (ih _)

theorem main_restarts_with (W : World) (args : List WString) (l : List WString)
    (events : List Event)
    (h : ∀ cfg, parse_args W (args.drop 1) Startup.initial = some cfg →
      cfg.launcherArgs = some l) :
    restarts_with W l (main W args events).trace := by
  unfold main
  cases hp : parse_args W (args.drop 1) Startup.initial with
  | none => exact fun s hs => by cases hs
  | some cfg =>
    simp only
    split
    · exact fun s hs => by cases hs
    · split
      · exact fun s hs => by cases hs
      · split
        · exact fun s hs => by cases hs
        · split
          · exact fun s hs => by cases hs
          · exact main_loop_restarts_with W cfg l (h cfg hp) events false

/-- C10 (host arguments are passed through verbatim).  For every command line
`argv0 :: pre ++ "--" :: post` whose first separator is the one shown: the
argument loop ends as it does on `pre` alone, but with `launcherArgs` equal to
`post`, so the arguments after the separator are stored unchanged and in order
and none of them is read as an option of the monitor; and in every run, every
start of the injector has the command line made of the injector, `launch`, a
mode flag, `--`, and then exactly `post`. -/
theorem host_arguments_verbatim (W : World) (argv0 : WString) (pre post : List WString)
    (hpre : SEPARATOR ∉ pre) :
    parse_args W (pre ++ SEPARATOR :: post) Startup.initial
      = (parse_args W pre Startup.initial).map
          (fun cfg => { cfg with launcherArgs := some post }) ∧
    ∀ events : List Event,
      restarts_with W post (main W (argv0 :: (pre ++ SEPARATOR :: post)) events).trace := by
  have hparse := parse_args_separator W post pre hpre Startup.initial rfl
  refine ⟨hparse, fun events => ?_⟩
  apply main_restarts_with
  intro cfg hcfg
  rw [List.drop_one, List.tail_cons, hparse] at hcfg
  cases hp : parse_args W pre Startup.initial with
  | none =>
    rw [hp] at hcfg
    cases hcfg
  | some c =>
    rw [hp] at hcfg
    cases hcfg
    rfl

/-- C10 at a command line whose host arguments look like options of the
monitor: they reach the injector as they are. -/
theorem host_arguments_verbatim_witness :
    parse_args sample_world
        (sample_options ++ SEPARATOR ::
          ["--process-handle=7".toList, "--".toList, "--log-directory=x".toList])
        Startup.initial
      = some { g_hProcess := 1234, hPipeRead := 56, g_assetsDirectory := "C:\\assets".toList,
               logDir := [],
               launcherArgs :=
                 some ["--process-handle=7".toList, "--".toList, "--log-directory=x".toList] } ∧
    (main sample_world
        ("DalamudCrashHandler.exe".toList :: (sample_options ++ SEPARATOR ::
          ["--process-handle=7".toList, "--".toList, "--log-directory=x".toList]))
        [sample_restart_event]).trace
      = [Step.ReadFile_exinfo, Step.TerminateProcess 0,
          Step.CreateProcessW "C:\\Dalamud\\Dalamud.Injector.exe".toList
            ("C:\\Dalamud\\Dalamud.Injector.exe launch -- " ++
              "--process-handle=7 -- --log-directory=x").toList] := by
  have h := host_arguments_verbatim sample_world "DalamudCrashHandler.exe".toList
    sample_options ["--process-handle=7".toList, "--".toList, "--log-directory=x".toList]
    (by decide)
  exact ⟨h.1.trans (by decide), by decide⟩


/-! ## The turns of the monitor loop -/

theorem attach_debugger_throws (failure : Option AttachCall) :
    (attach_debugger failure).2 = failure.isSome := by
  cases failure with
  | none => rfl
  | some c => cases c <;> rfl

theorem main_loop_target_exited (W : World) (cfg : Startup) (attached : Bool) (e : Event)
    (rest : List Event) (hread : e.ReadFile = none) (hexit : e.target_exited = true) :
    main_loop W cfg attached (e :: rest) =
      { exit := Exit.returned 0,
        trace := [Step.ReadFile_exinfo, Step.WaitForSingleObject, Step.GetExitCodeProcess,
          match e.GetExitCodeProcess with
          | none => Step.report_exit_code_unreadable
          | some excode => Step.report_exit_code excode] } := by
  rw [main_loop, hread]
  simp only
  rw [if_pos hexit]
  try rfl

theorem main_loop_restart_request (W : World) (cfg : Startup) (attached : Bool) (e : Event)
    (rest : List Event) (x : exception_info) (l : List WString)
    (hread : e.ReadFile = some x) (hcode : x.ExceptionCode = 0x12345678)
    (hl : cfg.launcherArgs = some l) :
    main_loop W cfg attached (e :: rest) =
      { exit := Exit.returned 0,
        trace := [Step.ReadFile_exinfo, Step.TerminateProcess 0]
          ++ restart_game_using_injector W e.CreateProcessW IdRadioRestartNormal l } := by
  rw [main_loop, hread]
  simp only
  rw [if_pos hcode, hl]

theorem main_loop_attach_failed (W : World) (cfg : Startup) (attached : Bool) (e : Event)
    (rest : List Event) (x : exception_info) (c : AttachCall)
    (hread : e.ReadFile = some x) (hcode : x.ExceptionCode ≠ 0x12345678)
    (hattach : e.attach_failure = some c) :
    main_loop W cfg attached (e :: rest) =
      { exit := Exit.uncaught_exception,
        trace := [Step.ReadFile_exinfo] ++ (try_attach_xclr attached e).1
          ++ (attach_debugger (some c)).1 } := by
  have hthrow : (attach_debugger e.attach_failure).2 = true := by
    rw [attach_debugger_throws, hattach]; rfl
  rw [main_loop, hread]
  simp only
  rw [if_neg hcode, if_pos hthrow, hattach]

theorem main_loop_dialog_failed (W : World) (cfg : Startup) (attached : Bool) (e : Event)
    (rest : List Event) (x : exception_info)
    (hread : e.ReadFile = some x) (hcode : x.ExceptionCode ≠ 0x12345678)
    (hattach : e.attach_failure = none) (hdialog : e.TaskDialogIndirect = none) :
    main_loop W cfg attached (e :: rest) =
      (main_loop W cfg (try_attach_xclr attached e).2 rest).after
        (before_decision W cfg attached x e ++ [Step.ResumeThread x.hThreadHandle]) := by
  have hthrow : ¬ (attach_debugger e.attach_failure).2 = true := by
    rw [attach_debugger_throws, hattach]; exact Bool.false_ne_true
  rw [main_loop, hread]
  simp only
  rw [if_neg hcode, if_neg hthrow, hdialog]
  rfl

theorem main_loop_restart_pressed (W : World) (cfg : Startup) (attached : Bool) (e : Event)
    (rest : List Event) (x : exception_info) (nRadioButton : Int) (l : List WString)
    (hread : e.ReadFile = some x) (hcode : x.ExceptionCode ≠ 0x12345678)
    (hattach : e.attach_failure = none)
    (hdialog : e.TaskDialogIndirect = some (IdButtonRestart, nRadioButton))
    (hl : cfg.launcherArgs = some l) :
    main_loop W cfg attached (e :: rest) =
      (main_loop W cfg (try_attach_xclr attached e).2 rest).after
        (before_decision W cfg attached x e ++ [Step.TerminateProcess x.ExceptionCode]
          ++ restart_game_using_injector W e.CreateProcessW nRadioButton l) := by
  have hthrow : ¬ (attach_debugger e.attach_failure).2 = true := by
    rw [attach_debugger_throws, hattach]; exact Bool.false_ne_true
  rw [main_loop, hread]
  simp only
  rw [if_neg hcode, if_neg hthrow, hdialog]
  simp only [if_true]
  rw [hl]
  rfl

theorem main_loop_other_button (W : World) (cfg : Startup) (attached : Bool) (e : Event)
    (rest : List Event) (x : exception_info) (nButtonPressed nRadioButton : Int)
    (hread : e.ReadFile = some x) (hcode : x.ExceptionCode ≠ 0x12345678)
    (hattach : e.attach_failure = none)
    (hdialog : e.TaskDialogIndirect = some (nButtonPressed, nRadioButton))
    (hbutton : nButtonPressed ≠ IdButtonRestart) :
    main_loop W cfg attached (e :: rest) =
      (main_loop W cfg (try_attach_xclr attached e).2 rest).after
        (before_decision W cfg attached x e ++
          [if e.attemptResume then Step.ResumeThread x.hThreadHandle
           else Step.TerminateProcess x.ExceptionCode]) := by
  have hthrow : ¬ (attach_debugger e.attach_failure).2 = true := by
    rw [attach_debugger_throws, hattach]; exact Bool.false_ne_true
  rw [main_loop, hread]
  simp only
  rw [if_neg hcode, if_neg hthrow, hdialog]
  simp only
  rw [if_neg hbutton]
  cases e.attemptResume <;> rfl

theorem before_decision_quiet (W : World) (cfg : Startup) (attached : Bool)
    (x : exception_info) (e : Event) :
    (before_decision W cfg attached x e).any
      (fun s => s.is_TerminateProcess || s.is_ResumeThread || s.is_CreateProcessW) = false := by
  unfold before_decision try_attach_xclr report
  simp only [List.any_append, Bool.or_eq_false_iff]
  refine ⟨⟨⟨rfl, ?_⟩, ?_⟩, ⟨⟨⟨?_, ?_⟩, rfl⟩, ?_⟩, rfl⟩
  · split <;> rfl
  · cases e.attach_failure with
    | none => rfl
    | some c => cases c <;> rfl
  · split <;> rfl
  · split <;> rfl
  · exact reporting_any_false x e _ (fun s hs => by cases s <;> first | rfl | cases hs)

/-- C11, at the failing input: the read of the pipe fails and the target has
exited.  `main` returns 0, both when the exit code of the target (here 3) can
be read and when it cannot; nothing but the report of the exit code is done
in that turn, so no dump or log is written. -/
theorem exit_status_after_target_exit :
    main sample_world ("DalamudCrashHandler.exe".toList :: sample_options)
        [sample_exit_event (some 3)]
      = { exit := Exit.returned 0,
          trace := [Step.ReadFile_exinfo, Step.WaitForSingleObject, Step.GetExitCodeProcess,
            Step.report_exit_code 3] } ∧
    main sample_world ("DalamudCrashHandler.exe".toList :: sample_options)
        [sample_exit_event none]
      = { exit := Exit.returned 0,
          trace := [Step.ReadFile_exinfo, Step.WaitForSingleObject, Step.GetExitCodeProcess,
            Step.report_exit_code_unreadable] } := by
  constructor <;> decide

/-- C12, at the failing input: a command line that passes the validation but
has no `--`, and a descriptor with the code `0x12345678`.  The monitor
terminates the target and then dereferences the empty `launcherArgs`: the
behaviour is undefined from there, and the run is followed no further. -/
theorem restart_request_without_separator :
    main sample_world ("DalamudCrashHandler.exe".toList :: sample_options)
        [sample_restart_event]
      = { exit := Exit.empty_optional_dereferenced,
          trace := [Step.ReadFile_exinfo, Step.TerminateProcess 0] } := by
  decide

/-- C13, as stated, fails: after the Restart button the monitor does not stop
the loop.  In a run made of one fault answered by Restart, the pipe is read a
second time and the monitor is left waiting in that read. -/
theorem restart_decision_reads_again :
    (main_loop sample_world sample_startup false [sample_restart_pressed_event]).trace.count
        Step.ReadFile_exinfo = 2 ∧
    (main_loop sample_world sample_startup false [sample_restart_pressed_event]).exit
      = Exit.waiting ∧
    ¬ (∀ (W : World) (cfg : Startup) (attached : Bool) (e : Event) (x : exception_info)
        (nRadioButton : Int) (l : List WString),
        e.ReadFile = some x → x.ExceptionCode ≠ 0x12345678 → e.attach_failure = none →
        e.TaskDialogIndirect = some (IdButtonRestart, nRadioButton) →
        cfg.launcherArgs = some l →
        (main_loop W cfg attached [e]).trace.count Step.ReadFile_exinfo = 1) := by
  refine ⟨by decide, by decide, ?_⟩
  intro hall
  have h := hall sample_world sample_startup false sample_restart_pressed_event
    sample_fault_info IdRadioRestartWithoutPlugins ["DEV.TestSID=0".toList]
    rfl (by decide) rfl rfl rfl
  revert h
  decide

/-- C13, amended: whenever the dialog returns the Restart button, on a fault
whose attach succeeded and with host arguments `l` given after `--`, the
monitor terminates the target with the fault code, starts the injector with
the selected radio mode and `l`, and then goes on with the loop: what follows
is the next turn, which starts with a read of the pipe.  Nothing before the
termination terminated, resumed or relaunched. -/
theorem restart_decision (W : World) (cfg : Startup) (attached : Bool) (e : Event)
    (rest : List Event) (x : exception_info) (nRadioButton : Int) (l : List WString)
    (hread : e.ReadFile = some x) (hcode : x.ExceptionCode ≠ 0x12345678)
    (hattach : e.attach_failure = none)
    (hdialog : e.TaskDialogIndirect = some (IdButtonRestart, nRadioButton))
    (hl : cfg.launcherArgs = some l) :
    main_loop W cfg attached (e :: rest) =
      (main_loop W cfg (try_attach_xclr attached e).2 rest).after
        (before_decision W cfg attached x e
          ++ [Step.TerminateProcess x.ExceptionCode,
              Step.CreateProcessW W.injector
                (c_str (build_argstr
                  ([W.injector, "launch".toList] ++ mode_flag nRadioButton
                    ++ [SEPARATOR] ++ l)))]
          ++ (if e.CreateProcessW then [] else [Step.MessageBoxW_failed_to_restart])) ∧
    (before_decision W cfg attached x e).any
      (fun s => s.is_TerminateProcess || s.is_ResumeThread || s.is_CreateProcessW) = false ∧
    (main_loop W cfg (try_attach_xclr attached e).2 rest).trace.head?
      = some Step.ReadFile_exinfo := by
  refine ⟨?_, before_decision_quiet W cfg attached x e, main_loop_head W cfg _ rest⟩
  rw [main_loop_restart_pressed W cfg attached e rest x nRadioButton l hread hcode hattach
    hdialog hl]
  unfold restart_game_using_injector injector_args
  simp only [List.append_assoc, List.cons_append, List.nil_append, List.singleton_append]
  rfl

/-- The amended C13 at a run of two turns: Restart is pressed on the first
fault, the read of the second turn fails because the target has exited. -/
theorem restart_decision_witness :
    main_loop sample_world sample_startup false
        [sample_restart_pressed_event, sample_exit_event (some 3221225477)]
      = (main_loop sample_world sample_startup false [sample_exit_event (some 3221225477)]).after
          (before_decision sample_world sample_startup false sample_fault_info
              sample_restart_pressed_event
            ++ [Step.TerminateProcess 0xC0000005,
                Step.CreateProcessW sample_world.injector
                  (c_str (build_argstr
                    ([sample_world.injector, "launch".toList]
                      ++ mode_flag IdRadioRestartWithoutPlugins
                      ++ [SEPARATOR] ++ ["DEV.TestSID=0".toList])))]
            ++ []) :=
  (restart_decision sample_world sample_startup false sample_restart_pressed_event
    [sample_exit_event (some 3221225477)] sample_fault_info IdRadioRestartWithoutPlugins
    ["DEV.TestSID=0".toList] rfl (by decide) rfl rfl rfl).1

/-- C14, as stated, fails when the dialog cannot be shown: the monitor then
resumes the faulted thread, does not terminate the target, and reads the pipe
again. -/
theorem failed_dialog_resumes :
    (main_loop sample_world sample_startup false [sample_dialog_failed_event]).trace.any
        Step.is_ResumeThread = true ∧
    (main_loop sample_world sample_startup false [sample_dialog_failed_event]).trace.any
        Step.is_TerminateProcess = false ∧
    (main_loop sample_world sample_startup false [sample_dialog_failed_event]).trace.count
        Step.ReadFile_exinfo = 2 ∧
    ¬ (∀ (W : World) (cfg : Startup) (attached : Bool) (e : Event) (x : exception_info),
        e.ReadFile = some x → x.ExceptionCode ≠ 0x12345678 → e.attach_failure = none →
        (e.TaskDialogIndirect = none ∨
          ∃ nButtonPressed nRadioButton,
            e.TaskDialogIndirect = some (nButtonPressed, nRadioButton) ∧
            nButtonPressed ≠ IdButtonRestart ∧ e.attemptResume = false) →
        (main_loop W cfg attached [e]).trace.any Step.is_TerminateProcess = true ∧
        (main_loop W cfg attached [e]).trace.count Step.ReadFile_exinfo = 1 ∧
        (main_loop W cfg attached [e]).trace.any Step.is_ResumeThread = false) := by
  refine ⟨by decide, by decide, by decide, ?_⟩
  intro hall
  have h := (hall sample_world sample_startup false sample_dialog_failed_event
    sample_fault_info rfl (by decide) rfl (Or.inl rfl)).1
  revert h
  decide

/-- C14, amended.  On a fault whose attach succeeded: when `TaskDialogIndirect`
fails, the monitor resumes the faulted thread and does not terminate the
target; when the dialog returns a button other than Restart and the user did
not ask to resume, the monitor terminates the target with the fault code and
does not resume the faulted thread.  In both cases that is the only step after
the dialog, and the loop goes on: what follows is the next turn, which starts
with a read of the pipe. -/
theorem exit_and_failed_dialog (W : World) (cfg : Startup) (attached : Bool) (e : Event)
    (rest : List Event) (x : exception_info)
    (hread : e.ReadFile = some x) (hcode : x.ExceptionCode ≠ 0x12345678)
    (hattach : e.attach_failure = none) :
    (e.TaskDialogIndirect = none →
      main_loop W cfg attached (e :: rest) =
        (main_loop W cfg (try_attach_xclr attached e).2 rest).after
          (before_decision W cfg attached x e ++ [Step.ResumeThread x.hThreadHandle])) ∧
    (∀ nButtonPressed nRadioButton : Int,
      e.TaskDialogIndirect = some (nButtonPressed, nRadioButton) →
      nButtonPressed ≠ IdButtonRestart → e.attemptResume = false →
      main_loop W cfg attached (e :: rest) =
        (main_loop W cfg (try_attach_xclr attached e).2 rest).after
          (before_decision W cfg attached x e ++ [Step.TerminateProcess x.ExceptionCode])) ∧
    (before_decision W cfg attached x e).any
      (fun s => s.is_TerminateProcess || s.is_ResumeThread || s.is_CreateProcessW) = false ∧
    (main_loop W cfg (try_attach_xclr attached e).2 rest).trace.head?
      = some Step.ReadFile_exinfo := by
  refine ⟨fun hd => main_loop_dialog_failed W cfg attached e rest x hread hcode hattach hd,
    ?_, before_decision_quiet W cfg attached x e, main_loop_head W cfg _ rest⟩
  intro b r hd hb hresume
  rw [main_loop_other_button W cfg attached e rest x b r hread hcode hattach hd hb, hresume]
  rfl

/-- The amended C14 at a run of two turns: the user presses Exit on the first
fault, the read of the second turn fails because the target has exited. -/
theorem exit_and_failed_dialog_witness :
    main_loop sample_world sample_startup false
        [sample_crash_event, sample_exit_event (some 3221225477)]
      = (main_loop sample_world sample_startup false [sample_exit_event (some 3221225477)]).after
          (before_decision sample_world sample_startup false sample_fault_info sample_crash_event
            ++ [Step.TerminateProcess 0xC0000005]) :=
  (exit_and_failed_dialog sample_world sample_startup false sample_crash_event
    [sample_exit_event (some 3221225477)] sample_fault_info rfl (by decide) rfl).2.1
    IdButtonExit IdRadioRestartNormal rfl (by decide) rfl

/-- C15 (the resume decision of the monitor).  On a fault whose attach
succeeded, whenever the user asked to resume and the dialog did not return the
Restart button (whether it returned another button or failed), the only step
after the dialog is `ResumeThread` on the faulted thread: the target is not
terminated and the injector is not started, and the loop goes on with the next
turn, which starts with a read of the pipe. -/
theorem resume_decision (W : World) (cfg : Startup) (attached : Bool) (e : Event)
    (rest : List Event) (x : exception_info)
    (hread : e.ReadFile = some x) (hcode : x.ExceptionCode ≠ 0x12345678)
    (hattach : e.attach_failure = none) (hresume : e.attemptResume = true)
    (hbutton : ∀ nRadioButton : Int,
      e.TaskDialogIndirect ≠ some (IdButtonRestart, nRadioButton)) :
    main_loop W cfg attached (e :: rest) =
      (main_loop W cfg (try_attach_xclr attached e).2 rest).after
        (before_decision W cfg attached x e ++ [Step.ResumeThread x.hThreadHandle]) ∧
    (before_decision W cfg attached x e ++ [Step.ResumeThread x.hThreadHandle]).any
      (fun s => s.is_TerminateProcess || s.is_CreateProcessW) = false ∧
    (main_loop W cfg (try_attach_xclr attached e).2 rest).trace.head?
      = some Step.ReadFile_exinfo := by
  refine ⟨?_, ?_, main_loop_head W cfg _ rest⟩
  · cases hd : e.TaskDialogIndirect with
    | none => exact main_loop_dialog_failed W cfg attached e rest x hread hcode hattach hd
    | some p =>
      obtain ⟨b, r⟩ := p
      have hb : b ≠ IdButtonRestart := fun hb => hbutton r (hb ▸ hd)
      rw [main_loop_other_button W cfg attached e rest x b r hread hcode hattach hd hb,
        hresume]
      rfl
  · have hq := before_decision_quiet W cfg attached x e
    rw [List.any_eq_false] at hq
    rw [List.any_append, Bool.or_eq_false_iff]
    refine ⟨List.any_eq_false.2 (fun s hs => ?_), rfl⟩
    have h := hq s hs
    simp only [Bool.or_eq_true, not_or, Bool.not_eq_true] at h ⊢
    exact ⟨h.1.1, h.2⟩

/-- C15 at a run of one turn in which the user clicks the resume link. -/
theorem resume_decision_witness :
    main_loop sample_world sample_startup false [sample_resume_event]
      = (main_loop sample_world sample_startup false []).after
          (before_decision sample_world sample_startup false sample_fault_info sample_resume_event
            ++ [Step.ResumeThread 0x88]) :=
  (resume_decision sample_world sample_startup false sample_resume_event [] sample_fault_info
    rfl (by decide) rfl rfl
    (fun _ h => absurd (Prod.mk.inj (Option.some.inj h)).1 (by decide))).1

theorem attach_debugger_reports (c : AttachCall) :
    (attach_debugger (some c)).1.getLast? = some Step.wcerr_failed_to_read_call_stack ∧
    (attach_debugger (some c)).2 = true ∧
    (attach_debugger (some c)).1.any
      (fun s => s.is_file_write || s.is_TaskDialogIndirect) = false := by
  cases c <;> exact ⟨rfl, rfl, rfl⟩

/-- C16, as stated, fails: when `AttachProcess` fails, the exception thrown by
`attach_debugger` leaves `main`; the log is not written and the dialog is not
shown. -/
theorem attach_failure_ends_monitor :
    main_loop sample_world sample_startup false [sample_attach_failed_event]
      = { exit := Exit.uncaught_exception,
          trace := [Step.ReadFile_exinfo, Step.LoadLibraryW_mscordaccore, Step.DebugCreate,
            Step.AttachProcess, Step.wcerr_failed_to_read_call_stack] } ∧
    ¬ (∀ (W : World) (cfg : Startup) (attached : Bool) (e : Event) (rest : List Event)
        (x : exception_info) (c : AttachCall),
        e.ReadFile = some x → x.ExceptionCode ≠ 0x12345678 → e.attach_failure = some c →
        (main_loop W cfg attached (e :: rest)).exit ≠ Exit.uncaught_exception ∧
        (main_loop W cfg attached (e :: rest)).trace.any Step.is_file_write = true ∧
        (main_loop W cfg attached (e :: rest)).trace.any Step.is_TaskDialogIndirect = true) := by
  refine ⟨by decide, ?_⟩
  intro hall
  exact (hall sample_world sample_startup false sample_attach_failed_event []
    sample_fault_info AttachCall.AttachProcess rfl (by decide) rfl).1 (by decide)

/-- C16, amended: for every failure of one of the six calls of
`attach_debugger` whose result is tested (`DebugCreate`, `AttachProcess`, the
three `QueryInterface` and `WaitForEvent`; the results of `SetExecutionStatus`
and `AppendSymbolPathWide` are not tested, so these two are no failure of
`attach_debugger`), the failure is caught there and reported on `std::wcerr` as
`Failed to read call stack`, and a `std::exception` is then thrown that `main`
does not catch: the run ends at that report, with no log written and no dialog
shown. -/
theorem attach_failure_is_fatal (W : World) (cfg : Startup) (attached : Bool) (e : Event)
    (rest : List Event) (x : exception_info) (c : AttachCall)
    (hread : e.ReadFile = some x) (hcode : x.ExceptionCode ≠ 0x12345678)
    (hattach : e.attach_failure = some c) :
    main_loop W cfg attached (e :: rest) =
      { exit := Exit.uncaught_exception,
        trace := [Step.ReadFile_exinfo] ++ (try_attach_xclr attached e).1
          ++ (attach_debugger (some c)).1 } ∧
    (main_loop W cfg attached (e :: rest)).trace.getLast?
      = some Step.wcerr_failed_to_read_call_stack ∧
    (main_loop W cfg attached (e :: rest)).trace.any
      (fun s => s.is_file_write || s.is_TaskDialogIndirect) = false := by
  have hm := main_loop_attach_failed W cfg attached e rest x c hread hcode hattach
  obtain ⟨h1, _, h3⟩ := attach_debugger_reports c
  refine ⟨hm, ?_, ?_⟩
  · rw [hm]
    simp only
    rw [List.getLast?_append, h1]
    rfl
  · rw [hm]
    simp only [List.any_append, h3, Bool.or_false]
    unfold try_attach_xclr
    split <;> rfl

/-- The amended C16 at a run in which `AttachProcess` fails on the first fault. -/
theorem attach_failure_is_fatal_witness :
    (main_loop sample_world sample_startup false
        [sample_attach_failed_event, sample_crash_event]).exit = Exit.uncaught_exception ∧
    (main_loop sample_world sample_startup false
        [sample_attach_failed_event, sample_crash_event]).trace.getLast?
      = some Step.wcerr_failed_to_read_call_stack := by
  have h := attach_failure_is_fatal sample_world sample_startup false
    sample_attach_failed_event [sample_crash_event] sample_fault_info AttachCall.AttachProcess
    rfl (by decide) rfl
  exact ⟨by rw [h.1], h.2.1⟩

theorem digitChar_ne_NUL : ∀ d : Nat, d < 16 → Nat.digitChar d ≠ NUL := by
  decide

theorem toDigitsCore_no_NUL (base : Nat) (h0 : 0 < base) (h16 : base ≤ 16) :
    ∀ (fuel n : Nat) (acc : List Char), (∀ c ∈ acc, c ≠ NUL) →
      ∀ c ∈ Nat.toDigitsCore base fuel n acc, c ≠ NUL := by
  intro fuel
  induction fuel with
  | zero => intro n acc hacc c hc; exact hacc c hc
  | succ fuel ih =>
    intro n acc hacc c hc
    unfold Nat.toDigitsCore at hc
    have hcons : ∀ c ∈ Nat.digitChar (n % base) :: acc, c ≠ NUL := by
      intro c hc
      cases List.mem_cons.1 hc with
      | inl h =>
        rw [h]
        exact digitChar_ne_NUL _ (Nat.lt_of_lt_of_le (Nat.mod_lt _ h0) h16)
      | inr h => exact hacc c h
    simp only at hc
    split at hc
    · exact hcons c hc
    · exact ih _ _ hcons c hc

theorem toDigits_no_NUL (base n : Nat) (h0 : 0 < base) (h16 : base ≤ 16) :
    ∀ c ∈ Nat.toDigits base n, c ≠ NUL :=
  toDigitsCore_no_NUL base h0 h16 _ _ [] (fun _ hc => absurd hc (List.not_mem_nil _))

theorem toString_no_NUL (n : Int) : ∀ c ∈ (toString n).toList, c ≠ NUL := by
  intro c hc
  cases n with
  | ofNat m =>
    have e : (toString (Int.ofNat m)).toList = Nat.toDigits 10 m := rfl
    rw [e] at hc
    exact toDigits_no_NUL 10 m (by decide) (by decide) c hc
  | negSucc m =>
    have e : (toString (Int.negSucc m)).toList
        = Char.ofNat 45 :: Nat.toDigits 10 (m + 1) := rfl
    rw [e] at hc
    cases List.mem_cons.1 hc with
    | inl h => rw [h]; decide
    | inr h => exact toDigits_no_NUL 10 _ (by decide) (by decide) c h

theorem c_str_url (x : exception_info) : c_str (url x) = url x := by
  unfold c_str
  rw [List.takeWhile_eq_self_iff]
  intro c hc
  have hne : c ≠ NUL := by
    unfold url at hc
    simp only [List.mem_append] at hc
    rcases hc with ((h | h) | h) | h
    · intro e
      rw [e] at h
      revert h
      decide
    · exact toString_no_NUL _ c h
    · intro e
      rw [e] at h
      revert h
      decide
    · exact toDigits_no_NUL 16 _ (by decide) (by decide) c h
  simpa using hne

theorem restart_no_reporting (W : World) (succeeds : Bool) (nRadioButton : Int)
    (l : List WString) :
    (restart_game_using_injector W succeeds nRadioButton l).any Step.is_reporting = false := by
  unfold restart_game_using_injector
  cases succeeds <;> rfl

/-- In a run of one captured fault, what follows the call of `TaskDialogIndirect`
holds no step of the reporting thread. -/
theorem single_turn_tail (W : World) (cfg : Startup) (attached : Bool) (e : Event)
    (x : exception_info) (hread : e.ReadFile = some x) (hcode : x.ExceptionCode ≠ 0x12345678)
    (hattach : e.attach_failure = none) :
    ∃ tail, (main_loop W cfg attached [e]).trace = before_decision W cfg attached x e ++ tail ∧
      tail.any Step.is_reporting = false := by
  cases hd : e.TaskDialogIndirect with
  | none =>
    refine ⟨[Step.ResumeThread x.hThreadHandle, Step.ReadFile_exinfo], ?_, rfl⟩
    rw [main_loop_dialog_failed W cfg attached e [] x hread hcode hattach hd]
    simp [Run.after, main_loop]
  | some p =>
    obtain ⟨b, r⟩ := p
    by_cases hb : b = IdButtonRestart
    · subst hb
      cases hl : cfg.launcherArgs with
      | none =>
        refine ⟨[Step.TerminateProcess x.ExceptionCode], ?_, rfl⟩
        have hthrow : ¬ (attach_debugger e.attach_failure).2 = true := by
          rw [attach_debugger_throws, hattach]; exact Bool.false_ne_true
        rw [main_loop, hread]
        simp only
        rw [if_neg hcode, if_neg hthrow, hd]
        simp only [if_true]
        rw [hl]
        rfl
      | some l =>
        refine ⟨[Step.TerminateProcess x.ExceptionCode]
          ++ restart_game_using_injector W e.CreateProcessW r l ++ [Step.ReadFile_exinfo], ?_, ?_⟩
        · rw [main_loop_restart_pressed W cfg attached e [] x r l hread hcode hattach hd hl]
          simp [Run.after, main_loop]
        · simp only [List.any_append, restart_no_reporting, Bool.or_false]
          rfl
    · refine ⟨[if e.attemptResume then Step.ResumeThread x.hThreadHandle
          else Step.TerminateProcess x.ExceptionCode, Step.ReadFile_exinfo], ?_, ?_⟩
      · rw [main_loop_other_button W cfg attached e [] x b r hread hcode hattach hd hb]
        simp [Run.after, main_loop]
      · cases e.attemptResume <;> rfl

theorem before_reporting_quiet (W : World) (cfg : Startup) (attached : Bool) (e : Event)
    (x : exception_info) (hattach : e.attach_failure = none) :
    ([Step.ReadFile_exinfo] ++ (try_attach_xclr attached e).1
      ++ (attach_debugger e.attach_failure).1
      ++ (if x.dwStackTraceLength = 0 then []
          else [Step.ReadFile_stackTrace (2 * x.dwStackTraceLength)])
      ++ (if dumpPath W cfg e = [] then [] else [Step.CreateFileW (dumpPath W cfg e)])
      ++ [Step.wofstream (logPath W cfg e) (log W cfg x e)]).any Step.is_reporting = false := by
  rw [hattach]
  unfold try_attach_xclr
  simp only [List.any_append, Bool.or_eq_false_iff]
  refine ⟨⟨⟨⟨⟨rfl, ?_⟩, rfl⟩, ?_⟩, ?_⟩, rfl⟩
  · split <;> rfl
  · split <;> rfl
  · split <;> rfl

theorem before_decision_split (W : World) (cfg : Startup) (attached : Bool) (e : Event)
    (x : exception_info) :
    before_decision W cfg attached x e =
      ([Step.ReadFile_exinfo] ++ (try_attach_xclr attached e).1
        ++ (attach_debugger e.attach_failure).1
        ++ (if x.dwStackTraceLength = 0 then []
            else [Step.ReadFile_stackTrace (2 * x.dwStackTraceLength)])
        ++ (if dumpPath W cfg e = [] then [] else [Step.CreateFileW (dumpPath W cfg e)])
        ++ [Step.wofstream (logPath W cfg e) (log W cfg x e)])
      ++ reporting x e ++ [Step.TaskDialogIndirect (window_log_str W cfg x e)] := by
  unfold before_decision report
  simp only [List.append_assoc]

theorem filter_of_any_false (p : Step → Bool) (l : List Step) (h : l.any p = false) :
    l.filter p = [] := by
  rw [List.filter_eq_nil_iff]
  intro s hs
  have := List.any_eq_false.1 h s hs
  exact this

theorem filter_reporting (x : exception_info) (e : Event) :
    (reporting x e).filter Step.is_reporting = reporting x e :=
  List.filter_eq_self.2 (reporting_all_reporting x e)

theorem submit_requests (x : exception_info) (e : Event) :
    (submit x e).count Step.WinHttpSendRequest =
        (if e.WinHttpOpen && e.WinHttpConnect && e.WinHttpOpenRequest then 1 else 0) ∧
      (∀ verb path, Step.WinHttpOpenRequest verb path ∈ submit x e →
        verb = GET ∧ path = url x) := by
  unfold submit
  rw [c_str_url]
  cases e.WinHttpOpen <;> cases e.WinHttpConnect <;> cases e.WinHttpOpenRequest <;>
    cases e.WinHttpSendRequest <;> simp

theorem submit_no_thread (x : exception_info) (e : Event) :
    (submit x e).count Step.std_thread = 0 ∧ (submit x e).count Step.join_submitThread = 0 := by
  unfold submit
  cases e.WinHttpOpen <;> cases e.WinHttpConnect <;> cases e.WinHttpOpenRequest <;>
    cases e.WinHttpSendRequest <;> simp

/-- C17, as stated, fails: with `DALAMUD_NO_METRIC` not set, a captured fault
for which `WinHttpOpen` gives no session starts the reporting thread, which
sends no request; and a fault at which `AttachProcess` fails ends the monitor
before any reporting. -/
theorem request_not_always_sent :
    sample_offline_event.DALAMUD_NO_METRIC = false ∧
    (main_loop sample_world sample_startup false [sample_offline_event]).trace.count
      Step.std_thread = 1 ∧
    (main_loop sample_world sample_startup false [sample_offline_event]).trace.count
      Step.WinHttpSendRequest = 0 ∧
    sample_attach_failed_event.DALAMUD_NO_METRIC = false ∧
    (main_loop sample_world sample_startup false [sample_attach_failed_event]).trace.countP
      Step.is_reporting = 0 ∧
    ¬ (∀ (W : World) (cfg : Startup) (attached : Bool) (e : Event) (x : exception_info),
        e.ReadFile = some x → x.ExceptionCode ≠ 0x12345678 → e.DALAMUD_NO_METRIC = false →
        (main_loop W cfg attached [e]).trace.count Step.WinHttpSendRequest = 1) := by
  have h0 : (main_loop sample_world sample_startup false [sample_offline_event]).trace.count
      Step.WinHttpSendRequest = 0 := by decide
  refine ⟨rfl, by decide, h0, rfl, by decide, ?_⟩
  intro hall
  have h1 := hall sample_world sample_startup false sample_offline_event sample_fault_info rfl
    (by decide) rfl
  rw [h0] at h1
  exact absurd h1 (by decide)

/-- C17, amended.  On every captured fault whose attach succeeded, the turn goes
through `before_decision`, which ends with the steps of the reporting, if any,
and then the dialog; the steps of the reporting thread in a run of that one
fault are those and no others.  If `DALAMUD_NO_METRIC` is set there is none: no
thread is started and no network call is made.  If it is not set, one reporting
thread is started and it is joined before the dialog; it calls
`WinHttpSendRequest` once when `WinHttpOpen`, `WinHttpConnect` and
`WinHttpOpenRequest` give their handles, and not at all otherwise; every request
it opens is a `GET` of `/Dalamud/Metric/ReportCrash/?lt=<lifetime in
decimal>&code=<fault code in lower-case hexadecimal>`, a path that depends on
nothing of the descriptor but the lifetime and the fault code. -/
theorem telemetry_toggle (W : World) (cfg : Startup) (attached : Bool) (e : Event)
    (x : exception_info) (hread : e.ReadFile = some x) (hcode : x.ExceptionCode ≠ 0x12345678)
    (hattach : e.attach_failure = none) :
    (∃ before,
      before_decision W cfg attached x e =
        before ++ reporting x e ++ [Step.TaskDialogIndirect (window_log_str W cfg x e)] ∧
      before.any Step.is_reporting = false) ∧
    (∀ rest, ∃ tail,
      (main_loop W cfg attached (e :: rest)).trace = before_decision W cfg attached x e ++ tail) ∧
    (main_loop W cfg attached [e]).trace.filter Step.is_reporting = reporting x e ∧
    (e.DALAMUD_NO_METRIC = true →
      reporting x e = [] ∧
      (main_loop W cfg attached [e]).trace.countP Step.is_reporting = 0) ∧
    (e.DALAMUD_NO_METRIC = false →
      reporting x e = [Step.std_thread] ++ submit x e ++ [Step.join_submitThread] ∧
      (main_loop W cfg attached [e]).trace.count Step.std_thread = 1 ∧
      (main_loop W cfg attached [e]).trace.count Step.join_submitThread = 1 ∧
      (main_loop W cfg attached [e]).trace.count Step.WinHttpSendRequest =
        (if e.WinHttpOpen && e.WinHttpConnect && e.WinHttpOpenRequest then 1 else 0) ∧
      (∀ verb path,
        Step.WinHttpOpenRequest verb path ∈ (main_loop W cfg attached [e]).trace →
          verb = GET ∧ path = url x)) ∧
    url x = "/Dalamud/Metric/ReportCrash/?lt=".toList ++ (toString x.nLifetime).toList
      ++ "&code=".toList ++ Nat.toDigits 16 x.ExceptionCode ∧
    (∀ y : exception_info, y.nLifetime = x.nLifetime → y.ExceptionCode = x.ExceptionCode →
      url y = url x) := by
  obtain ⟨tail, htail, hquiet⟩ := single_turn_tail W cfg attached e x hread hcode hattach
  have hpre := before_reporting_quiet W cfg attached e x hattach
  have hsplit := before_decision_split W cfg attached e x
  have hfilter : (main_loop W cfg attached [e]).trace.filter Step.is_reporting
      = reporting x e := by
    rw [htail, hsplit]
    have hdialog : [Step.TaskDialogIndirect (window_log_str W cfg x e)].filter Step.is_reporting
        = [] := rfl
    simp only [List.filter_append, filter_of_any_false _ _ hpre, filter_of_any_false _ _ hquiet,
      filter_reporting, hdialog, List.nil_append, List.append_nil]
  have hcount : ∀ a : Step, a.is_reporting = true →
      (main_loop W cfg attached [e]).trace.count a = (reporting x e).count a := by
    intro a ha
    rw [← hfilter]
    exact (List.count_filter ha).symm
  refine ⟨⟨_, hsplit, hpre⟩, ?_, hfilter, ?_, ?_, rfl, ?_⟩
  · intro rest
    cases hd : e.TaskDialogIndirect with
    | none =>
      rw [main_loop_dialog_failed W cfg attached e rest x hread hcode hattach hd]
      exact ⟨_, by simp [Run.after]; rfl⟩
    | some p =>
      obtain ⟨b, r⟩ := p
      by_cases hb : b = IdButtonRestart
      · subst hb
        cases hl : cfg.launcherArgs with
        | none =>
          have hthrow : ¬ (attach_debugger e.attach_failure).2 = true := by
            rw [attach_debugger_throws, hattach]; exact Bool.false_ne_true
          refine ⟨[Step.TerminateProcess x.ExceptionCode], ?_⟩
          rw [main_loop, hread]
          simp only
          rw [if_neg hcode, if_neg hthrow, hd]
          simp only [if_true]
          rw [hl]
          rfl
        | some l =>
          rw [main_loop_restart_pressed W cfg attached e rest x r l hread hcode hattach hd hl]
          exact ⟨_, by simp [Run.after]; rfl⟩
      · rw [main_loop_other_button W cfg attached e rest x b r hread hcode hattach hd hb]
        exact ⟨_, by simp [Run.after]; rfl⟩
  · intro hoff
    have hnil : reporting x e = [] := by
      unfold reporting
      rw [if_pos hoff]
    refine ⟨hnil, ?_⟩
    rw [List.countP_eq_length_filter, hfilter, hnil]
    rfl
  · intro hon
    have hrep : reporting x e = [Step.std_thread] ++ submit x e ++ [Step.join_submitThread] := by
      unfold reporting
      rw [if_neg (by rw [hon]; exact Bool.false_ne_true)]
    have hs := submit_no_thread x e
    have hr := submit_requests x e
    refine ⟨hrep, ?_, ?_, ?_, ?_⟩
    · rw [hcount Step.std_thread rfl, hrep]
      simp only [List.count_append, hs.1]
      rfl
    · rw [hcount Step.join_submitThread rfl, hrep]
      simp only [List.count_append, hs.2]
      rfl
    · rw [hcount Step.WinHttpSendRequest rfl, hrep]
      simp only [List.count_append, hr.1]
      simp
    · intro verb path hm
      have hm2 : Step.WinHttpOpenRequest verb path ∈ reporting x e := by
        rw [← hfilter]
        exact List.mem_filter.2 ⟨hm, rfl⟩
      rw [hrep] at hm2
      simp only [List.mem_append, List.mem_singleton] at hm2
      rcases hm2 with (h | h) | h
      · cases h
      · exact hr.2 verb path h
      · cases h
  · intro y h1 h2
    unfold url
    rw [h1, h2]

/-- The amended C17 at three runs of one fault each: with the metric on, with
the metric on and no session, and with the metric switched off. -/
theorem telemetry_toggle_witness :
    (main_loop sample_world sample_startup false [sample_crash_event]).trace.count
        Step.WinHttpSendRequest = 1 ∧
    (main_loop sample_world sample_startup false [sample_offline_event]).trace.filter
        Step.is_reporting
      = [Step.std_thread, Step.WinHttpOpen, Step.cerr_failed_to_send_metric,
          Step.join_submitThread] ∧
    (main_loop sample_world sample_startup false [sample_no_metric_event]).trace.countP
        Step.is_reporting = 0 ∧
    (main_loop sample_world sample_startup false [sample_crash_event]).trace.filter
        Step.is_reporting
      = [Step.std_thread, Step.WinHttpOpen, Step.WinHttpConnect "kamori.goats.dev".toList,
          Step.WinHttpOpenRequest "GET".toList
            "/Dalamud/Metric/ReportCrash/?lt=60&code=c0000005".toList,
          Step.WinHttpSendRequest, Step.join_submitThread] :=
  ⟨((telemetry_toggle sample_world sample_startup false sample_crash_event sample_fault_info
      rfl (by decide) rfl).2.2.2.2.1 rfl).2.2.2.1,
   ((telemetry_toggle sample_world sample_startup false sample_offline_event sample_fault_info
      rfl (by decide) rfl).2.2.1).trans (by decide),
   ((telemetry_toggle sample_world sample_startup false sample_no_metric_event sample_fault_info
      rfl (by decide) rfl).2.2.2.1 rfl).2,
   ((telemetry_toggle sample_world sample_startup false sample_crash_event sample_fault_info
      rfl (by decide) rfl).2.2.1).trans (by decide)⟩

/-! ## The command line of the injector -/

theorem build_argstr_eq_intercalate (args : List WString) :
    build_argstr args = List.intercalate [SP] (args.map escape_shell_arg) := by
  induction args with
  | nil => rfl
  | cons a l ih =>
    cases l with
    | nil => simp [build_argstr_singleton, List.intercalate]
    | cons b l =>
      rw [build_argstr_cons_cons, ih]
      simp [List.intercalate, List.intersperse]

/-- C18 (the launcher argument vector).  For every radio button and every list
of host arguments, `restart_game_using_injector` makes the vector of the
injector's path, `launch`, the flag of the mode, `--`, and the host arguments
unchanged and in order; the flag is nothing for Normal (and for any value that
is not one of the three other modes), `--no-3rd-plugin`, `--no-plugin` or
`--without-dalamud`.  Its one start of a process has the injector as program,
and as command line the `escape_shell_arg` of each element of the vector
joined by single spaces, nothing after the last one (as the started process
receives it when no element contains a NUL). -/
theorem launcher_argument_vector (W : World) (succeeds : Bool) (nRadioButton : Int)
    (launcherArgs : List WString) :
    injector_args W.injector nRadioButton launcherArgs
      = [W.injector, "launch".toList] ++ mode_flag nRadioButton ++ ["--".toList]
        ++ launcherArgs ∧
    mode_flag IdRadioRestartNormal = [] ∧
    mode_flag IdRadioRestartWithout3pPlugins = ["--no-3rd-plugin".toList] ∧
    mode_flag IdRadioRestartWithoutPlugins = ["--no-plugin".toList] ∧
    mode_flag IdRadioRestartWithoutDalamud = ["--without-dalamud".toList] ∧
    (nRadioButton ≠ IdRadioRestartWithout3pPlugins →
      nRadioButton ≠ IdRadioRestartWithoutPlugins →
      nRadioButton ≠ IdRadioRestartWithoutDalamud → mode_flag nRadioButton = []) ∧
    build_argstr (injector_args W.injector nRadioButton launcherArgs)
      = List.intercalate [SP]
          ((injector_args W.injector nRadioButton launcherArgs).map escape_shell_arg) ∧
    (restart_game_using_injector W succeeds nRadioButton launcherArgs).filter
        Step.is_CreateProcessW
      = [Step.CreateProcessW W.injector
          (c_str (build_argstr (injector_args W.injector nRadioButton launcherArgs)))] ∧
    ((∀ a ∈ injector_args W.injector nRadioButton launcherArgs, NUL ∉ a) →
      c_str (build_argstr (injector_args W.injector nRadioButton launcherArgs))
        = List.intercalate [SP]
            ((injector_args W.injector nRadioButton launcherArgs).map escape_shell_arg)) := by
  refine ⟨rfl, by decide, by decide, by decide, by decide, ?_, build_argstr_eq_intercalate _,
    ?_, ?_⟩
  · intro h1 h2 h3
    unfold mode_flag
    rw [if_neg h1, if_neg h2, if_neg h3]
  · unfold restart_game_using_injector
    cases succeeds <;> rfl
  · intro hnul
    rw [c_str_build_argstr _ hnul, build_argstr_eq_intercalate]

/-- C18 at a restart without Dalamud of a game started with two arguments, one
of them with a space. -/
theorem launcher_argument_vector_witness :
    c_str (build_argstr (injector_args sample_world.injector IdRadioRestartWithoutDalamud
        ["DEV.TestSID=0".toList, "SYS.Region=North America".toList]))
      = ("C:\\Dalamud\\Dalamud.Injector.exe launch --without-dalamud -- DEV.TestSID=0 "
          ++ "\"SYS.Region=North America\"").toList :=
  ((launcher_argument_vector sample_world true IdRadioRestartWithoutDalamud
    ["DEV.TestSID=0".toList, "SYS.Region=North America".toList]).2.2.2.2.2.2.2.2
      (by decide)).trans (by decide)

end CrashHandler

/-! ## Address resolution -/

namespace CrashHandler

theorem to_address_string_eq (T : Target) (address : Nat) (try_ptrderef : Bool) :
    to_address_string T address try_ptrderef =
      match runtime_name T address with
      | some (name, displacement) => AddressString.clr address name displacement
      | none =>
        match T.GetNameByOffsetWide address with
        | some (name, displacement) =>
          AddressString.symbol (addr_str T address)
            (name ++ [Char.ofNat 43] ++ HEX displacement)
        | none =>
          if deref_value T.ReadProcessMemory_value address try_ptrderef ≠ 0 then
            AddressString.deref (addr_str T address)
              (to_address_string T (deref_value T.ReadProcessMemory_value address try_ptrderef)
                false)
          else AddressString.plain (addr_str T address) := by
  rw [to_address_string]
  cases runtime_name T address with
  | some r => rfl
  | none =>
    cases T.GetNameByOffsetWide address with
    | some r => rfl
    | none =>
      simp only
      by_cases hv : deref_value T.ReadProcessMemory_value address try_ptrderef ≠ 0
      · rw [dif_pos hv, if_pos hv]
      · rw [dif_neg hv, if_neg hv]

theorem enumerated_handles_stable (T : Target) (modules : List Nat)
    (hcall : T.EnumProcessModules 0 = some modules) (hlen : modules.length ≤ 8192) :
    enumerated_handles T = modules := by
  have h32 : (8 * modules.length) % 2 ^ 32 = 8 * modules.length :=
    Nat.mod_eq_of_lt (by omega)
  have hbuf : (List.replicate 8192 (0 : Nat)).length = 8192 := List.length_replicate _ _
  rw [enumerated_handles, enumerate, hcall]
  simp only [h32, hbuf]
  rw [if_neg (by omega), resize, List.take_of_length_le hlen]
  have h8 : 8 * modules.length / 8 = modules.length := by omega
  rw [h8, List.take_left, List.length_append, List.length_drop, hbuf]
  have h0 : modules.length - (modules.length + (8192 - modules.length)) = 0 := by omega
  rw [h0]
  simp

theorem sample_modules :
    get_remote_modules sample_target =
      [(0x7FF600000000, 0x4000000), (0x7FFA00000000, 0x200000)] := by
  rw [get_remote_modules,
    enumerated_handles_stable sample_target [0x7FFA00000000, 0x7FF600000000] rfl (by decide)]
  decide

theorem sample_module_paths :
    get_remote_module_paths sample_target =
      [(0x7FF600000000, "C:\\Games\\FFXIV\\game\\ffxiv_dx11.exe".toList),
        (0x7FFA00000000, "C:\\Windows\\System32\\ntdll.dll".toList)] := by
  rw [get_remote_module_paths, sample_modules]
  decide

theorem sample_lookup (address : Nat) (h1 : 0x7FF600000000 ≤ address)
    (h2 : address < 0x7FF604000000) :
    get_module_file_and_base sample_target address =
      some (0x7FF600000000, "C:\\Games\\FFXIV\\game\\ffxiv_dx11.exe".toList) := by
  rw [get_module_file_and_base, sample_module_paths, find_module, if_neg (by omega),
    module_size, sample_modules]
  rw [if_neg]
  have : (List.lookup 0x7FF600000000 [(0x7FF600000000, 0x4000000),
      (0x7FFA00000000, 0x200000)]).getD 0 = 0x4000000 := by decide
  rw [this]
  omega

theorem sample_lookup_library (address : Nat) (h1 : 0x7FFA00000000 ≤ address)
    (h2 : address < 0x7FFA00200000) :
    get_module_file_and_base sample_target address =
      some (0x7FFA00000000, "C:\\Windows\\System32\\ntdll.dll".toList) := by
  have hsize1 : module_size sample_target 0x7FF600000000 = 0x4000000 := by
    rw [module_size, sample_modules]; decide
  have hsize2 : module_size sample_target 0x7FFA00000000 = 0x200000 := by
    rw [module_size, sample_modules]; decide
  rw [get_module_file_and_base, sample_module_paths, find_module, if_neg (by omega), hsize1,
    if_pos (by omega), find_module, if_neg (by omega), hsize2, if_neg (by omega)]

theorem to_address_string_has_hint (T : Target) (address : Nat) (try_ptrderef : Bool) :
    (to_address_string T address try_ptrderef).has_hint = true ↔
      runtime_name T address = none ∧ T.GetNameByOffsetWide address = none ∧
        deref_value T.ReadProcessMemory_value address try_ptrderef ≠ 0 := by
  rw [to_address_string_eq]
  cases hr : runtime_name T address with
  | some r => simp [AddressString.has_hint]
  | none =>
    cases hs : T.GetNameByOffsetWide address with
    | some r => simp [AddressString.has_hint]
    | none =>
      by_cases hv : deref_value T.ReadProcessMemory_value address try_ptrderef ≠ 0
      · simp only [if_pos hv, AddressString.has_hint]
        exact ⟨fun _ => ⟨trivial, trivial, hv⟩, fun _ => trivial⟩
      · simp only [if_neg hv, AddressString.has_hint]
        exact ⟨fun c => Bool.noConfusion c, fun c => absurd c.2.2 hv⟩

theorem sample_hint_resolution :
    to_address_string sample_target 0x7FF600002000 true =
      AddressString.deref (module_offset "ffxiv_dx11.exe".toList 0x2000)
        (AddressString.plain (module_offset "ntdll.dll".toList 0x40)) := by
  have hv : deref_value sample_target.ReadProcessMemory_value 0x7FF600002000 true
      = 0x7FFA00000040 := by decide
  have hv0 : deref_value sample_target.ReadProcessMemory_value 0x7FFA00000040 false = 0 := by
    decide
  have hr : runtime_name sample_target 0x7FF600002000 = none := by decide
  have hr2 : runtime_name sample_target 0x7FFA00000040 = none := by decide
  have hs : sample_target.GetNameByOffsetWide 0x7FF600002000 = none := by decide
  have hs2 : sample_target.GetNameByOffsetWide 0x7FFA00000040 = none := by decide
  have ha : addr_str sample_target 0x7FF600002000
      = module_offset "ffxiv_dx11.exe".toList 0x2000 := by
    rw [addr_str, sample_lookup _ (by decide) (by decide)]
    decide
  have ha2 : addr_str sample_target 0x7FFA00000040
      = module_offset "ntdll.dll".toList 0x40 := by
    rw [addr_str, sample_lookup_library _ (by decide) (by decide)]
    decide
  rw [to_address_string_eq, hr, hs]
  simp only [hv]
  rw [if_pos (by decide), to_address_string_eq, hr2, hs2]
  simp only [hv0]
  rw [if_neg (by decide), ha, ha2]

theorem find_module_le (T : Target) (address : Nat) (paths : List (Nat × WString))
    (module_base : Nat) (module_path : WString)
    (h : find_module T address paths = some (module_base, module_path)) :
    module_base ≤ address ∧ (module_base, module_path) ∈ paths := by
  induction paths with
  | nil => exact Option.noConfusion h
  | cons entry rest ih =>
    obtain ⟨hModule, path⟩ := entry
    rw [find_module] at h
    by_cases h1 : address < hModule
    · rw [if_pos h1] at h
      exact ⟨(ih h).1, List.mem_cons_of_mem _ (ih h).2⟩
    · rw [if_neg h1] at h
      by_cases h2 : (hModule + module_size T hModule) % 2 ^ 64 ≤ address
      · rw [if_pos h2] at h
        exact ⟨(ih h).1, List.mem_cons_of_mem _ (ih h).2⟩
      · rw [if_neg h2] at h
        obtain ⟨rfl, rfl⟩ := Prod.mk.inj (Option.some.inj h)
        exact ⟨Nat.le_of_not_lt h1, List.mem_cons_self _ _⟩

theorem sample_runtime_resolution :
    to_address_string sample_target 0x7FF600001234 true =
      AddressString.clr 0x7FF600001234 "Dalamud.EntryPoint.Initialize".toList 0x1C := by
  have hr : runtime_name sample_target 0x7FF600001234 =
      some ("Dalamud.EntryPoint.Initialize".toList, 0x1C) := by decide
  rw [to_address_string_eq, hr]

theorem sample_symbol_resolution :
    to_address_string sample_target 0x7FF600003000 true =
      AddressString.symbol (module_offset "ffxiv_dx11.exe".toList 0x3000)
        ("ffxiv_dx11!WinMain".toList ++ [Char.ofNat 43] ++ HEX 0x10) := by
  have hr : runtime_name sample_target 0x7FF600003000 = none := by decide
  have hs : sample_target.GetNameByOffsetWide 0x7FF600003000 =
      some ("ffxiv_dx11!WinMain".toList, 0x10) := by decide
  have ha : addr_str sample_target 0x7FF600003000
      = module_offset "ffxiv_dx11.exe".toList 0x3000 := by
    rw [addr_str, sample_lookup _ (by decide) (by decide)]
    decide
  rw [to_address_string_eq, hr, hs, ha]

end CrashHandler

theorem deref_value_ne_zero (read : Nat → Nat) (address : Nat) (try_ptrderef : Bool) :
    deref_value read address try_ptrderef ≠ 0 ↔
      try_ptrderef = true ∧ 0x10000 < address ∧ address < 0x7FFFFFFE0000 ∧ read address ≠ 0 := by
  unfold deref_value
  by_cases hc : try_ptrderef = true ∧ address > 0x10000 ∧ address < 0x7FFFFFFE0000
  · rw [if_pos hc]
    exact ⟨fun h => ⟨hc.1, hc.2.1, hc.2.2, h⟩, fun h => h.2.2.2⟩
  · rw [if_neg hc]
    exact ⟨fun h => absurd rfl h, fun h => absurd ⟨h.1, h.2.1, h.2.2.1⟩ hc⟩

theorem deref_value_eq (read : Nat → Nat) (address : Nat) (try_ptrderef : Bool)
    (h : deref_value read address try_ptrderef ≠ 0) :
    deref_value read address try_ptrderef = read address := by
  have hc := (deref_value_ne_zero read address try_ptrderef).1 h
  unfold deref_value
  rw [if_pos ⟨hc.1, hc.2.1, hc.2.2.1⟩]

namespace Veh

theorem trap_to_address_string_eq (h : Host) (i : Introspection) (address : Nat)
    (try_ptrderef : Bool) :
    to_address_string h i address try_ptrderef =
      match get_sym_from_addr i address with
      | some (displacement, symbol) =>
        AddressString.symbol (addr_str h address)
          (if displacement ≠ 0 then symbol ++ "+0x".toList ++ CrashHandler.HEX displacement
           else symbol)
      | none =>
        if deref_value i.ReadProcessMemory_value address try_ptrderef ≠ 0 then
          AddressString.deref (addr_str h address)
            (to_address_string h i (deref_value i.ReadProcessMemory_value address try_ptrderef)
              false)
        else AddressString.plain (addr_str h address) := by
  rw [to_address_string]
  cases get_sym_from_addr i address with
  | some r => rfl
  | none =>
    simp only
    by_cases hv : deref_value i.ReadProcessMemory_value address try_ptrderef ≠ 0
    · rw [dif_pos hv, if_pos hv]
    · rw [dif_neg hv, if_neg hv]

theorem trap_to_address_string_has_hint (h : Host) (i : Introspection) (address : Nat)
    (try_ptrderef : Bool) :
    (to_address_string h i address try_ptrderef).has_hint = true ↔
      get_sym_from_addr i address = none ∧
        deref_value i.ReadProcessMemory_value address try_ptrderef ≠ 0 := by
  rw [trap_to_address_string_eq]
  cases hs : get_sym_from_addr i address with
  | some r => simp [AddressString.has_hint]
  | none =>
    by_cases hv : deref_value i.ReadProcessMemory_value address try_ptrderef ≠ 0
    · simp only [if_pos hv, AddressString.has_hint]
      exact ⟨fun _ => ⟨trivial, hv⟩, fun _ => trivial⟩
    · simp only [if_neg hv, AddressString.has_hint]
      exact ⟨fun c => Bool.noConfusion c, fun c => absurd c.2 hv⟩

theorem trap_sample_hint_resolution :
    to_address_string sample_host sample_introspection 0x140002000 true =
      AddressString.deref (module_offset "FFXIV_DX11.EXE".toList 0x2000)
        (AddressString.plain "150000000".toList) := by
  have hv : deref_value sample_introspection.ReadProcessMemory_value 0x140002000 true
      = 0x150000000 := by decide
  have hv0 : deref_value sample_introspection.ReadProcessMemory_value 0x150000000 false = 0 := by
    decide
  have hs : get_sym_from_addr sample_introspection 0x140002000 = none := by decide
  have hs2 : get_sym_from_addr sample_introspection 0x150000000 = none := by decide
  have ha : addr_str sample_host 0x140002000
      = module_offset "FFXIV_DX11.EXE".toList 0x2000 := by decide
  have ha2 : addr_str sample_host 0x150000000 = "150000000".toList := by decide
  rw [trap_to_address_string_eq, hs]
  simp only [hv]
  rw [if_pos (by decide), trap_to_address_string_eq, hs2]
  simp only [hv0]
  rw [if_neg (by decide), ha, ha2]

end Veh

/-- C19 (counterexample): in both files an address inside a module, with no
symbol and a non-zero value stored at it, is resolved to its module and offset
followed by the bracketed hint, so the hint does not require that no owning
module was found. -/
theorem hint_inside_module :
    CrashHandler.get_module_file_and_base CrashHandler.sample_target 0x7FF600002000 =
        some (0x7FF600000000, "C:\\Games\\FFXIV\\game\\ffxiv_dx11.exe".toList) ∧
      (CrashHandler.to_address_string CrashHandler.sample_target 0x7FF600002000 true).has_hint
        = true ∧
      (CrashHandler.to_address_string CrashHandler.sample_target 0x7FF600002000 true).text =
        "ffxiv_dx11.exe+2000 [ntdll.dll+40]".toList ∧
      Veh.get_module_file_and_base Veh.sample_host 0x140002000 =
        some (0x140000000, "C:\\Games\\FFXIV\\game\\FFXIV_DX11.EXE".toList) ∧
      (Veh.to_address_string Veh.sample_host Veh.sample_introspection 0x140002000 true).has_hint
        = true ∧
      (Veh.to_address_string Veh.sample_host Veh.sample_introspection 0x140002000 true).text =
        "FFXIV_DX11.EXE+2000 [150000000]".toList ∧
      ¬ (∀ (T : CrashHandler.Target) (address : Nat) (try_ptrderef : Bool),
          (CrashHandler.to_address_string T address try_ptrderef).has_hint = true →
            CrashHandler.get_module_file_and_base T address = none ∧
              T.GetNameByOffsetWide address = none ∧ try_ptrderef = true ∧
              0x10000 < address ∧ address < 0x7FFFFFFE0000 ∧
              T.ReadProcessMemory_value address ≠ 0) ∧
      ¬ (∀ (h : Veh.Host) (i : Veh.Introspection) (address : Nat) (try_ptrderef : Bool),
          (Veh.to_address_string h i address try_ptrderef).has_hint = true →
            Veh.get_module_file_and_base h address = none ∧
              Veh.get_sym_from_addr i address = none ∧ try_ptrderef = true ∧
              0x10000 < address ∧ address < 0x7FFFFFFE0000 ∧
              i.ReadProcessMemory_value address ≠ 0) := by
  have hm := CrashHandler.sample_lookup 0x7FF600002000 (by decide) (by decide)
  have hv : Veh.get_module_file_and_base Veh.sample_host 0x140002000 =
      some (0x140000000, "C:\\Games\\FFXIV\\game\\FFXIV_DX11.EXE".toList) := by decide
  have h1 : (CrashHandler.to_address_string CrashHandler.sample_target 0x7FF600002000
      true).has_hint = true := by
    rw [CrashHandler.sample_hint_resolution]; rfl
  have h2 : (Veh.to_address_string Veh.sample_host Veh.sample_introspection 0x140002000
      true).has_hint = true := by
    rw [Veh.trap_sample_hint_resolution]; rfl
  refine ⟨hm, h1, ?_, hv, h2, ?_, ?_, ?_⟩
  · rw [CrashHandler.sample_hint_resolution]; decide
  · rw [Veh.trap_sample_hint_resolution]; decide
  · intro hall
    have c := (hall CrashHandler.sample_target 0x7FF600002000 true h1).1
    rw [hm] at c
    exact Option.noConfusion c
  · intro hall
    have c := (hall Veh.sample_host Veh.sample_introspection 0x140002000 true h2).1
    rw [hv] at c
    exact Option.noConfusion c

/-- C19 (amended): in both files `to_address_string` emits the bracketed hint
exactly when no symbol (and, in the monitor, no managed-runtime name) was found
for the address, pointer dereference is enabled, the address lies strictly
between 0x10000 and 0x7FFFFFFE0000 and the value read at that address is
non-zero, whether or not an owning module was found; the hint then follows
`addr_str`, which is the module and offset when a module was found, and holds
the resolution of the value read, made with pointer dereference disabled. -/
theorem hint_condition (T : CrashHandler.Target) (h : Veh.Host) (i : Veh.Introspection)
    (address : Nat) (try_ptrderef : Bool) :
    ((CrashHandler.to_address_string T address try_ptrderef).has_hint = true ↔
      CrashHandler.runtime_name T address = none ∧ T.GetNameByOffsetWide address = none ∧
        try_ptrderef = true ∧ 0x10000 < address ∧ address < 0x7FFFFFFE0000 ∧
        T.ReadProcessMemory_value address ≠ 0) ∧
    ((Veh.to_address_string h i address try_ptrderef).has_hint = true ↔
      Veh.get_sym_from_addr i address = none ∧
        try_ptrderef = true ∧ 0x10000 < address ∧ address < 0x7FFFFFFE0000 ∧
        i.ReadProcessMemory_value address ≠ 0) ∧
    ((CrashHandler.to_address_string T address try_ptrderef).has_hint = true →
      CrashHandler.to_address_string T address try_ptrderef =
        AddressString.deref (CrashHandler.addr_str T address)
          (CrashHandler.to_address_string T (T.ReadProcessMemory_value address) false)) ∧
    ((Veh.to_address_string h i address try_ptrderef).has_hint = true →
      Veh.to_address_string h i address try_ptrderef =
        AddressString.deref (Veh.addr_str h address)
          (Veh.to_address_string h i (i.ReadProcessMemory_value address) false)) ∧
    (∀ module_base module_path,
      CrashHandler.get_module_file_and_base T address = some (module_base, module_path) →
        CrashHandler.addr_str T address =
          module_offset (c_str (T.filename module_path)) (address - module_base)) ∧
    (∀ module_base module_path,
      Veh.get_module_file_and_base h address = some (module_base, module_path) →
        Veh.addr_str h address =
          module_offset (c_str (h.filename module_path)) (sub64 address module_base)) := by
  refine ⟨?_, ?_, ?_, ?_, ?_, ?_⟩
  · rw [CrashHandler.to_address_string_has_hint, deref_value_ne_zero]
  · rw [Veh.trap_to_address_string_has_hint, deref_value_ne_zero]
  · intro hh
    have hc := (CrashHandler.to_address_string_has_hint T address try_ptrderef).1 hh
    rw [CrashHandler.to_address_string_eq, hc.1, hc.2.1]
    simp only
    rw [if_pos hc.2.2, deref_value_eq _ _ _ hc.2.2]
  · intro hh
    have hc := (Veh.trap_to_address_string_has_hint h i address try_ptrderef).1 hh
    rw [Veh.trap_to_address_string_eq, hc.1]
    simp only
    rw [if_pos hc.2, deref_value_eq _ _ _ hc.2]
  · intro module_base module_path hm
    rw [CrashHandler.addr_str, hm]
  · intro module_base module_path hm
    rw [Veh.addr_str, hm]

/-- C19 (witness): the amended condition at an address of the sample target
and of the sample host. -/
theorem hint_condition_witness :
    CrashHandler.to_address_string CrashHandler.sample_target 0x7FF600002000 true =
        AddressString.deref (CrashHandler.addr_str CrashHandler.sample_target 0x7FF600002000)
          (CrashHandler.to_address_string CrashHandler.sample_target
            (CrashHandler.sample_target.ReadProcessMemory_value 0x7FF600002000) false) ∧
      Veh.to_address_string Veh.sample_host Veh.sample_introspection 0x140002000 true =
        AddressString.deref (Veh.addr_str Veh.sample_host 0x140002000)
          (Veh.to_address_string Veh.sample_host Veh.sample_introspection
            (Veh.sample_introspection.ReadProcessMemory_value 0x140002000) false) ∧
      (CrashHandler.to_address_string CrashHandler.sample_target 0x7FF600002000 false).has_hint
        = false ∧
      CrashHandler.addr_str CrashHandler.sample_target 0x7FF600002000 =
        module_offset
          (c_str (CrashHandler.sample_target.filename
            "C:\\Games\\FFXIV\\game\\ffxiv_dx11.exe".toList))
          (0x7FF600002000 - 0x7FF600000000) :=
  have H := hint_condition CrashHandler.sample_target Veh.sample_host Veh.sample_introspection
    0x7FF600002000 true
  have V := hint_condition CrashHandler.sample_target Veh.sample_host Veh.sample_introspection
    0x140002000 true
  have F := hint_condition CrashHandler.sample_target Veh.sample_host Veh.sample_introspection
    0x7FF600002000 false
  ⟨H.2.2.1 (H.1.2 ⟨by decide, by decide, rfl, by decide, by decide, by decide⟩),
    V.2.2.2.1 (V.2.1.2 ⟨by decide, rfl, by decide, by decide, by decide⟩),
    Bool.eq_false_iff.2 (fun c => Bool.noConfusion (F.1.1 c).2.2.1),
    H.2.2.2.2.1 _ _ (CrashHandler.sample_lookup 0x7FF600002000 (by decide) (by decide))⟩

/-- C20 (counterexample): in the monitor an address inside an enumerated module
that the managed runtime names is rendered as `CLR:`, the address, the name and
the displacement, and the module and offset are not in the text. -/
theorem runtime_name_hides_module :
    CrashHandler.get_module_file_and_base CrashHandler.sample_target 0x7FF600001234 =
        some (0x7FF600000000, "C:\\Games\\FFXIV\\game\\ffxiv_dx11.exe".toList) ∧
      (CrashHandler.to_address_string CrashHandler.sample_target 0x7FF600001234 true).text =
        "CLR:7FF600001234\t(Dalamud.EntryPoint.Initialize+1C)".toList ∧
      ¬ (module_offset "ffxiv_dx11.exe".toList 0x1234 <:+:
          (CrashHandler.to_address_string CrashHandler.sample_target 0x7FF600001234 true).text) ∧
      ¬ (∀ (T : CrashHandler.Target) (address : Nat) (try_ptrderef : Bool)
          (module_base : Nat) (module_path : WString),
          CrashHandler.get_module_file_and_base T address = some (module_base, module_path) →
            module_offset (c_str (T.filename module_path)) (address - module_base) <:+:
              (CrashHandler.to_address_string T address try_ptrderef).text) := by
  have hm := CrashHandler.sample_lookup 0x7FF600001234 (by decide) (by decide)
  have ht : (CrashHandler.to_address_string CrashHandler.sample_target 0x7FF600001234
      true).text = "CLR:7FF600001234\t(Dalamud.EntryPoint.Initialize+1C)".toList := by
    rw [CrashHandler.sample_runtime_resolution]; decide
  have hn : ¬ (module_offset "ffxiv_dx11.exe".toList 0x1234 <:+:
      (CrashHandler.to_address_string CrashHandler.sample_target 0x7FF600001234 true).text) := by
    rw [ht]
    intro hin
    have hmem : Char.ofNat 95 ∈ "CLR:7FF600001234\t(Dalamud.EntryPoint.Initialize+1C)".toList :=
      hin.subset (by decide)
    exact absurd hmem (by decide)
  refine ⟨hm, ht, hn, ?_⟩
  intro hall
  have c := hall CrashHandler.sample_target 0x7FF600001234 true _ _ hm
  have e : module_offset
      (c_str (CrashHandler.sample_target.filename
        "C:\\Games\\FFXIV\\game\\ffxiv_dx11.exe".toList))
      (0x7FF600001234 - 0x7FF600000000) = module_offset "ffxiv_dx11.exe".toList 0x1234 := by
    decide
  rw [e] at c
  exact hn c

/-- C20 (amended): for every address inside an enumerated module that the
managed-runtime provider does not name, the text returned by
`to_address_string` starts with the module file name, `+` and the offset in
hexadecimal, the offset being the address minus the module base, whether or not
a symbol name was also found; when a symbol is found it is appended after the
module and offset, in parentheses after a tab.  When the monitor's
managed-runtime provider names the address the text is `CLR:`, the address, the
name and the displacement, without module and offset.  The trap has no
managed-runtime provider. -/
theorem module_offset_shown (T : CrashHandler.Target) (h : Veh.Host) (i : Veh.Introspection)
    (address : Nat) (try_ptrderef : Bool) :
    (∀ module_base module_path,
      CrashHandler.get_module_file_and_base T address = some (module_base, module_path) →
      CrashHandler.runtime_name T address = none →
        module_base ≤ address ∧
        (∃ rest, (CrashHandler.to_address_string T address try_ptrderef).text =
          module_offset (c_str (T.filename module_path)) (address - module_base) ++ rest) ∧
        (∀ name displacement, T.GetNameByOffsetWide address = some (name, displacement) →
          (CrashHandler.to_address_string T address try_ptrderef).text =
            module_offset (c_str (T.filename module_path)) (address - module_base) ++
              ([TAB, Char.ofNat 40] ++ (name ++ [Char.ofNat 43] ++ CrashHandler.HEX displacement)
                ++ [Char.ofNat 41]))) ∧
    (∀ name displacement, CrashHandler.runtime_name T address = some (name, displacement) →
      (CrashHandler.to_address_string T address try_ptrderef).text =
        "CLR:".toList ++ CrashHandler.HEX address ++ [TAB, Char.ofNat 40] ++ name
          ++ [Char.ofNat 43] ++ CrashHandler.HEX displacement ++ [Char.ofNat 41]) ∧
    (∀ module_base module_path,
      Veh.get_module_file_and_base h address = some (module_base, module_path) →
        (∃ rest, (Veh.to_address_string h i address try_ptrderef).text =
          module_offset (c_str (h.filename module_path)) (sub64 address module_base) ++ rest) ∧
        (∀ displacement symbol, Veh.get_sym_from_addr i address = some (displacement, symbol) →
          (Veh.to_address_string h i address try_ptrderef).text =
            module_offset (c_str (h.filename module_path)) (sub64 address module_base) ++
              ([TAB, Char.ofNat 40]
                ++ (if displacement ≠ 0 then
                      symbol ++ "+0x".toList ++ CrashHandler.HEX displacement
                    else symbol)
                ++ [Char.ofNat 41])) ∧
        (module_base ≤ address → address < 2 ^ 64 →
          sub64 address module_base = address - module_base)) := by
  refine ⟨?_, ?_, ?_⟩
  · intro module_base module_path hm hr
    have ha : CrashHandler.addr_str T address =
        module_offset (c_str (T.filename module_path)) (address - module_base) := by
      rw [CrashHandler.addr_str, hm]
    refine ⟨(CrashHandler.find_module_le T address _ _ _ hm).1, ?_, ?_⟩
    · rw [CrashHandler.to_address_string_eq, hr, ha]
      cases T.GetNameByOffsetWide address with
      | some r =>
        simp only [AddressString.text, List.append_assoc]
        exact ⟨_, rfl⟩
      | none =>
        by_cases hv : deref_value T.ReadProcessMemory_value address try_ptrderef ≠ 0
        · simp only [if_pos hv, AddressString.text, List.append_assoc]
          exact ⟨_, rfl⟩
        · simp only [if_neg hv, AddressString.text]
          exact ⟨[], (List.append_nil _).symm⟩
    · intro name displacement hs
      rw [CrashHandler.to_address_string_eq, hr, hs, ha]
      simp only [AddressString.text, List.append_assoc]
  · intro name displacement hr
    rw [CrashHandler.to_address_string_eq, hr]
    rfl
  · intro module_base module_path hm
    have ha : Veh.addr_str h address =
        module_offset (c_str (h.filename module_path)) (sub64 address module_base) := by
      rw [Veh.addr_str, hm]
    refine ⟨?_, ?_, ?_⟩
    · rw [Veh.trap_to_address_string_eq, ha]
      cases Veh.get_sym_from_addr i address with
      | some r =>
        simp only [AddressString.text, List.append_assoc]
        exact ⟨_, rfl⟩
      | none =>
        by_cases hv : deref_value i.ReadProcessMemory_value address try_ptrderef ≠ 0
        · simp only [if_pos hv, AddressString.text, List.append_assoc]
          exact ⟨_, rfl⟩
        · simp only [if_neg hv, AddressString.text]
          exact ⟨[], (List.append_nil _).symm⟩
    · intro displacement symbol hs
      rw [Veh.trap_to_address_string_eq, hs, ha]
      simp only [AddressString.text, List.append_assoc]
    · intro hle hlt
      unfold sub64
      have hb : module_base % 2 ^ 64 = module_base := Nat.mod_eq_of_lt (by omega)
      rw [hb]
      have e : address + (2 ^ 64 - module_base) = (address - module_base) + 2 ^ 64 := by omega
      rw [e, Nat.add_mod_right]
      exact Nat.mod_eq_of_lt (by omega)

/-- C20 (witness): the amended claim at a native symbol inside the executable
of the sample target and of the sample host. -/
theorem module_offset_shown_witness :
    (CrashHandler.to_address_string CrashHandler.sample_target 0x7FF600003000 true).text =
        module_offset
          (c_str (CrashHandler.sample_target.filename
            "C:\\Games\\FFXIV\\game\\ffxiv_dx11.exe".toList))
          (0x7FF600003000 - 0x7FF600000000) ++
          ([TAB, Char.ofNat 40]
            ++ ("ffxiv_dx11!WinMain".toList ++ [Char.ofNat 43] ++ CrashHandler.HEX 0x10)
            ++ [Char.ofNat 41]) ∧
      module_offset
          (c_str (CrashHandler.sample_target.filename
            "C:\\Games\\FFXIV\\game\\ffxiv_dx11.exe".toList))
          (0x7FF600003000 - 0x7FF600000000) ++
          ([TAB, Char.ofNat 40]
            ++ ("ffxiv_dx11!WinMain".toList ++ [Char.ofNat 43] ++ CrashHandler.HEX 0x10)
            ++ [Char.ofNat 41]) =
        "ffxiv_dx11.exe+3000\t(ffxiv_dx11!WinMain+10)".toList ∧
      (Veh.to_address_string Veh.sample_host Veh.sample_introspection 0x140001234 true).text =
        module_offset
          (c_str (Veh.sample_host.filename "C:\\Games\\FFXIV\\game\\FFXIV_DX11.EXE".toList))
          (sub64 0x140001234 0x140000000) ++
          ([TAB, Char.ofNat 40]
            ++ (if 0x34 ≠ 0 then "WinMain".toList ++ "+0x".toList ++ CrashHandler.HEX 0x34
                else "WinMain".toList)
            ++ [Char.ofNat 41]) ∧
      module_offset
          (c_str (Veh.sample_host.filename "C:\\Games\\FFXIV\\game\\FFXIV_DX11.EXE".toList))
          (sub64 0x140001234 0x140000000) ++
          ([TAB, Char.ofNat 40]
            ++ (if 0x34 ≠ 0 then "WinMain".toList ++ "+0x".toList ++ CrashHandler.HEX 0x34
                else "WinMain".toList)
            ++ [Char.ofNat 41]) =
        "FFXIV_DX11.EXE+1234\t(WinMain+0x34)".toList :=
  ⟨((module_offset_shown CrashHandler.sample_target Veh.sample_host Veh.sample_introspection
      0x7FF600003000 true).1 0x7FF600000000 "C:\\Games\\FFXIV\\game\\ffxiv_dx11.exe".toList
      (CrashHandler.sample_lookup 0x7FF600003000 (by decide) (by decide)) (by decide)).2.2
      "ffxiv_dx11!WinMain".toList 0x10 (by decide),
    by decide,
    ((module_offset_shown CrashHandler.sample_target Veh.sample_host Veh.sample_introspection
      0x140001234 true).2.2 0x140000000 "C:\\Games\\FFXIV\\game\\FFXIV_DX11.EXE".toList
      (by decide)).2.1 0x34 "WinMain".toList (by decide),
    by decide⟩


/-! ## One level of recursion in the address resolution -/

theorem deref_value_false (read : Nat → Nat) (address : Nat) :
    deref_value read address false = 0 := by
  unfold deref_value
  exact if_neg (fun c => Bool.noConfusion c.1)

namespace CrashHandler

theorem to_address_string_false (T : Target) (address : Nat) :
    to_address_string T address false =
      match runtime_name T address with
      | some (name, displacement) => AddressString.clr address name displacement
      | none =>
        match T.GetNameByOffsetWide address with
        | some (name, displacement) =>
          AddressString.symbol (addr_str T address)
            (name ++ [Char.ofNat 43] ++ HEX displacement)
        | none => AddressString.plain (addr_str T address) := by
  rw [to_address_string_eq, deref_value_false]
  rfl

theorem to_address_string_false_hints (T : Target) (address : Nat) :
    (to_address_string T address false).hints = 0 := by
  rw [to_address_string_false]
  cases runtime_name T address with
  | some r => rfl
  | none =>
    cases T.GetNameByOffsetWide address with
    | some r => rfl
    | none => rfl

theorem to_address_string_hints (T : Target) (address : Nat) (try_ptrderef : Bool) :
    (to_address_string T address try_ptrderef).hints ≤ 1 := by
  rw [to_address_string_eq]
  cases runtime_name T address with
  | some r => exact Nat.zero_le _
  | none =>
    cases T.GetNameByOffsetWide address with
    | some r => exact Nat.zero_le _
    | none =>
      by_cases hv : deref_value T.ReadProcessMemory_value address try_ptrderef ≠ 0
      · simp only [if_pos hv, AddressString.hints, to_address_string_false_hints]
        exact Nat.le_refl _
      · simp only [if_neg hv, AddressString.hints]
        exact Nat.zero_le _

theorem enumerate_congr (T U : Target) (hE : U.EnumProcessModules = T.EnumProcessModules) :
    ∀ (remaining i : Nat) (buf : List Nat),
      enumerate U remaining i buf = enumerate T remaining i buf := by
  intro remaining
  induction remaining with
  | zero => intro i buf; rfl
  | succ n ih =>
    intro i buf
    rw [enumerate, enumerate, hE]
    cases T.EnumProcessModules i with
    | none => rfl
    | some modules => simp only [ih]

theorem read_module_sizes_congr (T U : Target)
    (hD : U.read_IMAGE_DOS_HEADER = T.read_IMAGE_DOS_HEADER)
    (hN : U.read_IMAGE_NT_HEADERS64 = T.read_IMAGE_NT_HEADERS64) :
    ∀ (handles : List Nat) (data : List (Nat × Nat)),
      read_module_sizes U handles data = read_module_sizes T handles data := by
  intro handles
  induction handles with
  | nil => intro data; rfl
  | cons hModule rest ih =>
    intro data
    rw [read_module_sizes, read_module_sizes, hD, hN]
    simp only [ih]

theorem get_remote_modules_congr (T U : Target)
    (hE : U.EnumProcessModules = T.EnumProcessModules)
    (hD : U.read_IMAGE_DOS_HEADER = T.read_IMAGE_DOS_HEADER)
    (hN : U.read_IMAGE_NT_HEADERS64 = T.read_IMAGE_NT_HEADERS64) :
    get_remote_modules U = get_remote_modules T := by
  rw [get_remote_modules, get_remote_modules, enumerated_handles, enumerated_handles,
    enumerate_congr T U hE, read_module_sizes_congr T U hD hN]

theorem find_module_congr (T U : Target) (address : Nat)
    (hM : get_remote_modules U = get_remote_modules T) :
    ∀ paths : List (Nat × WString), find_module U address paths = find_module T address paths := by
  intro paths
  induction paths with
  | nil => rfl
  | cons entry rest ih =>
    obtain ⟨hModule, path⟩ := entry
    rw [find_module, find_module, ih, module_size, module_size, hM]

theorem addr_str_congr (T U : Target)
    (hE : U.EnumProcessModules = T.EnumProcessModules)
    (hD : U.read_IMAGE_DOS_HEADER = T.read_IMAGE_DOS_HEADER)
    (hN : U.read_IMAGE_NT_HEADERS64 = T.read_IMAGE_NT_HEADERS64)
    (hP : U.GetModuleFileNameExW = T.GetModuleFileNameExW)
    (hF : U.filename = T.filename) (address : Nat) :
    addr_str U address = addr_str T address := by
  have hM := get_remote_modules_congr T U hE hD hN
  rw [addr_str, addr_str, get_module_file_and_base, get_module_file_and_base,
    find_module_congr T U address hM, get_remote_module_paths, get_remote_module_paths, hM, hP,
    hF]

theorem to_address_string_false_memory (T : Target) (read : Nat → Nat) (address : Nat) :
    to_address_string { T with ReadProcessMemory_value := read } address false =
      to_address_string T address false := by
  rw [to_address_string_false, to_address_string_false,
    addr_str_congr T { T with ReadProcessMemory_value := read } rfl rfl rfl rfl rfl address]
  rfl

end CrashHandler

namespace Veh

theorem trap_to_address_string_false (h : Host) (i : Introspection) (address : Nat) :
    to_address_string h i address false =
      match get_sym_from_addr i address with
      | some (displacement, symbol) =>
        AddressString.symbol (addr_str h address)
          (if displacement ≠ 0 then symbol ++ "+0x".toList ++ CrashHandler.HEX displacement
           else symbol)
      | none => AddressString.plain (addr_str h address) := by
  rw [trap_to_address_string_eq, deref_value_false]
  rfl

theorem trap_to_address_string_false_hints (h : Host) (i : Introspection) (address : Nat) :
    (to_address_string h i address false).hints = 0 := by
  rw [trap_to_address_string_false]
  cases get_sym_from_addr i address with
  | some r => rfl
  | none => rfl

theorem trap_to_address_string_hints (h : Host) (i : Introspection) (address : Nat)
    (try_ptrderef : Bool) :
    (to_address_string h i address try_ptrderef).hints ≤ 1 := by
  rw [trap_to_address_string_eq]
  cases get_sym_from_addr i address with
  | some r => exact Nat.zero_le _
  | none =>
    by_cases hv : deref_value i.ReadProcessMemory_value address try_ptrderef ≠ 0
    · simp only [if_pos hv, AddressString.hints, trap_to_address_string_false_hints]
      exact Nat.le_refl _
    · simp only [if_neg hv, AddressString.hints]
      exact Nat.zero_le _

theorem trap_to_address_string_false_memory (h : Host) (i : Introspection)
    (read : Nat → Nat) (address : Nat) :
    to_address_string h { i with ReadProcessMemory_value := read } address false =
      to_address_string h i address false := by
  rw [trap_to_address_string_false, trap_to_address_string_false]
  rfl

end Veh

/-- C21 (resolution recursion is one level deep).  In both files, for every
process state, address and flag: the result of `to_address_string` holds at
most one bracketed hint; a call with pointer dereference disabled leaves
`value` at 0 and gives the same result whatever the memory holds, so it reads
no memory, and its result is one of the formats without a hint, made without a
further call; and the call made for a hint is a call with pointer dereference
disabled.  The functions of
the model are total, so every resolution terminates, also when the value read
at an address is that same address. -/
theorem resolution_one_level (T : CrashHandler.Target) (h : Veh.Host) (i : Veh.Introspection)
    (address : Nat) (try_ptrderef : Bool) :
    (CrashHandler.to_address_string T address try_ptrderef).hints ≤ 1 ∧
    (Veh.to_address_string h i address try_ptrderef).hints ≤ 1 ∧
    (∀ (read : Nat → Nat) (value : Nat), deref_value read value false = 0) ∧
    (∀ value : Nat,
      CrashHandler.to_address_string T value false =
        match CrashHandler.runtime_name T value with
        | some (name, displacement) => AddressString.clr value name displacement
        | none =>
          match T.GetNameByOffsetWide value with
          | some (name, displacement) =>
            AddressString.symbol (CrashHandler.addr_str T value)
              (name ++ [Char.ofNat 43] ++ CrashHandler.HEX displacement)
          | none => AddressString.plain (CrashHandler.addr_str T value)) ∧
    (∀ value : Nat,
      Veh.to_address_string h i value false =
        match Veh.get_sym_from_addr i value with
        | some (displacement, symbol) =>
          AddressString.symbol (Veh.addr_str h value)
            (if displacement ≠ 0 then
               symbol ++ "+0x".toList ++ CrashHandler.HEX displacement
             else symbol)
        | none => AddressString.plain (Veh.addr_str h value)) ∧
    (∀ (read : Nat → Nat) (value : Nat),
      CrashHandler.to_address_string { T with ReadProcessMemory_value := read } value false =
        CrashHandler.to_address_string T value false) ∧
    (∀ (read : Nat → Nat) (value : Nat),
      Veh.to_address_string h { i with ReadProcessMemory_value := read } value false =
        Veh.to_address_string h i value false) ∧
    (∀ value : Nat, (CrashHandler.to_address_string T value false).hints = 0) ∧
    (∀ value : Nat, (Veh.to_address_string h i value false).hints = 0) ∧
    ((CrashHandler.to_address_string T address try_ptrderef).hints = 0 ∨
      CrashHandler.to_address_string T address try_ptrderef =
        AddressString.deref (CrashHandler.addr_str T address)
          (CrashHandler.to_address_string T (T.ReadProcessMemory_value address) false)) ∧
    ((Veh.to_address_string h i address try_ptrderef).hints = 0 ∨
      Veh.to_address_string h i address try_ptrderef =
        AddressString.deref (Veh.addr_str h address)
          (Veh.to_address_string h i (i.ReadProcessMemory_value address) false)) := by
  refine ⟨CrashHandler.to_address_string_hints T address try_ptrderef,
    Veh.trap_to_address_string_hints h i address try_ptrderef,
    fun read value => deref_value_false read value,
    fun value => CrashHandler.to_address_string_false T value,
    fun value => Veh.trap_to_address_string_false h i value,
    fun read value => CrashHandler.to_address_string_false_memory T read value,
    fun read value => Veh.trap_to_address_string_false_memory h i read value,
    fun value => CrashHandler.to_address_string_false_hints T value,
    fun value => Veh.trap_to_address_string_false_hints h i value, ?_, ?_⟩
  · rw [CrashHandler.to_address_string_eq]
    cases CrashHandler.runtime_name T address with
    | some r => exact Or.inl rfl
    | none =>
      cases T.GetNameByOffsetWide address with
      | some r => exact Or.inl rfl
      | none =>
        by_cases hv : deref_value T.ReadProcessMemory_value address try_ptrderef ≠ 0
        · simp only [if_pos hv]
          rw [deref_value_eq _ _ _ hv]
          exact Or.inr rfl
        · simp only [if_neg hv]
          exact Or.inl rfl
  · rw [Veh.trap_to_address_string_eq]
    cases Veh.get_sym_from_addr i address with
    | some r => exact Or.inl rfl
    | none =>
      by_cases hv : deref_value i.ReadProcessMemory_value address try_ptrderef ≠ 0
      · simp only [if_pos hv]
        rw [deref_value_eq _ _ _ hv]
        exact Or.inr rfl
      · simp only [if_neg hv]
        exact Or.inl rfl

/-! ## The walk of the remote exception records -/

namespace CrashHandler

theorem walk_records_eq (memory : Nat → Option (Nat × EXCEPTION_RECORD))
    (rec_index pRemoteExRec : Nat) :
    walk_records memory rec_index pRemoteExRec =
      if pRemoteExRec = 0 then { reads := 0, rendered := [] }
      else if rec_index < 64 then
        match memory pRemoteExRec with
        | none => { reads := 1, rendered := [] }
        | some (read, exRec) =>
          if record_complete (min read SIZEOF_EXCEPTION_RECORD) exRec then
            { reads :=
                (walk_records memory (rec_index + 1)
                  (if exRec.NumberParameters = 0 then pRemoteExRec
                   else exRec.ExceptionRecord)).reads + 1,
              rendered :=
                (rec_index, exRec) ::
                  (walk_records memory (rec_index + 1)
                    (if exRec.NumberParameters = 0 then pRemoteExRec
                     else exRec.ExceptionRecord)).rendered }
          else { reads := 1, rendered := [] }
      else { reads := 0, rendered := [] } := by
  rw [walk_records]
  by_cases h0 : pRemoteExRec = 0
  · rw [if_pos h0, if_pos h0]
  · rw [if_neg h0, if_neg h0]
    by_cases h : rec_index < 64
    · rw [dif_pos h, if_pos h]
    · rw [dif_neg h, if_neg h]

theorem walk_records_null (memory : Nat → Option (Nat × EXCEPTION_RECORD)) (rec_index : Nat) :
    walk_records memory rec_index 0 = { reads := 0, rendered := [] } := by
  rw [walk_records_eq, if_pos rfl]

theorem walk_records_limit (memory : Nat → Option (Nat × EXCEPTION_RECORD))
    (rec_index pRemoteExRec : Nat) (h : 64 ≤ rec_index) :
    walk_records memory rec_index pRemoteExRec = { reads := 0, rendered := [] } := by
  rw [walk_records_eq, if_neg (Nat.not_lt.2 h)]
  split <;> rfl

theorem walk_records_failed (memory : Nat → Option (Nat × EXCEPTION_RECORD))
    (rec_index pRemoteExRec : Nat) (h0 : pRemoteExRec ≠ 0) (h : rec_index < 64)
    (hread : memory pRemoteExRec = none) :
    walk_records memory rec_index pRemoteExRec = { reads := 1, rendered := [] } := by
  rw [walk_records_eq, if_neg h0, if_pos h, hread]

theorem walk_records_short (memory : Nat → Option (Nat × EXCEPTION_RECORD))
    (rec_index pRemoteExRec read : Nat) (exRec : EXCEPTION_RECORD)
    (h0 : pRemoteExRec ≠ 0) (h : rec_index < 64)
    (hread : memory pRemoteExRec = some (read, exRec))
    (hshort : record_complete (min read SIZEOF_EXCEPTION_RECORD) exRec = false) :
    walk_records memory rec_index pRemoteExRec = { reads := 1, rendered := [] } := by
  rw [walk_records_eq, if_neg h0, if_pos h, hread]
  simp only [hshort]
  rfl

theorem walk_records_step (memory : Nat → Option (Nat × EXCEPTION_RECORD))
    (rec_index pRemoteExRec read : Nat) (exRec : EXCEPTION_RECORD)
    (h0 : pRemoteExRec ≠ 0) (h : rec_index < 64)
    (hread : memory pRemoteExRec = some (read, exRec))
    (hfull : record_complete (min read SIZEOF_EXCEPTION_RECORD) exRec = true) :
    walk_records memory rec_index pRemoteExRec =
      { reads :=
          (walk_records memory (rec_index + 1)
            (if exRec.NumberParameters = 0 then pRemoteExRec
             else exRec.ExceptionRecord)).reads + 1,
        rendered :=
          (rec_index, exRec) ::
            (walk_records memory (rec_index + 1)
              (if exRec.NumberParameters = 0 then pRemoteExRec
               else exRec.ExceptionRecord)).rendered } := by
  rw [walk_records_eq, if_neg h0, if_pos h, hread]
  simp only [hfull]
  rfl

theorem record_complete_iff (read : Nat) (exRec : EXCEPTION_RECORD) :
    record_complete (min read SIZEOF_EXCEPTION_RECORD) exRec = true ↔
      32 + 8 * exRec.NumberParameters ≤ read ∧ exRec.NumberParameters ≤ 15 := by
  unfold record_complete SIZEOF_EXCEPTION_RECORD OFFSETOF_ExceptionInformation
  simp only [Bool.and_eq_true, decide_eq_true_eq, ge_iff_le]
  omega

theorem walk_records_bounds (memory : Nat → Option (Nat × EXCEPTION_RECORD)) :
    ∀ (n rec_index pRemoteExRec : Nat), 64 - rec_index = n →
      (walk_records memory rec_index pRemoteExRec).reads ≤ 64 - rec_index ∧
      (walk_records memory rec_index pRemoteExRec).rendered.length ≤
        (walk_records memory rec_index pRemoteExRec).reads ∧
      (walk_records memory rec_index pRemoteExRec).reads ≤
        (walk_records memory rec_index pRemoteExRec).rendered.length + 1 ∧
      ∀ block ∈ (walk_records memory rec_index pRemoteExRec).rendered,
        rec_index ≤ block.1 ∧ block.1 < 64 ∧
        ∃ address read, address ≠ 0 ∧ memory address = some (read, block.2) ∧
          32 + 8 * block.2.NumberParameters ≤ read ∧ block.2.NumberParameters ≤ 15 := by
  intro n
  induction n with
  | zero =>
    intro rec_index pRemoteExRec hn
    rw [walk_records_limit memory rec_index pRemoteExRec (by omega)]
    exact ⟨Nat.zero_le _, Nat.le_refl _, Nat.zero_le _, fun b hb => absurd hb (List.not_mem_nil _)⟩
  | succ n ih =>
    intro rec_index pRemoteExRec hn
    have hlt : rec_index < 64 := by omega
    by_cases h0 : pRemoteExRec = 0
    · rw [h0, walk_records_null]
      exact ⟨Nat.zero_le _, Nat.le_refl _, Nat.zero_le _,
        fun b hb => absurd hb (List.not_mem_nil _)⟩
    · cases hread : memory pRemoteExRec with
      | none =>
        rw [walk_records_failed memory rec_index pRemoteExRec h0 hlt hread]
        exact ⟨by simp only; omega, Nat.zero_le _, Nat.le_refl _,
          fun b hb => absurd hb (List.not_mem_nil _)⟩
      | some p =>
        obtain ⟨read, exRec⟩ := p
        cases hc : record_complete (min read SIZEOF_EXCEPTION_RECORD) exRec with
        | false =>
          rw [walk_records_short memory rec_index pRemoteExRec read exRec h0 hlt hread hc]
          exact ⟨by simp only; omega, Nat.zero_le _, Nat.le_refl _,
            fun b hb => absurd hb (List.not_mem_nil _)⟩
        | true =>
          rw [walk_records_step memory rec_index pRemoteExRec read exRec h0 hlt hread hc]
          have hnext := ih (rec_index + 1)
            (if exRec.NumberParameters = 0 then pRemoteExRec else exRec.ExceptionRecord)
            (by omega)
          obtain ⟨h1, h2, h3, h4⟩ := hnext
          refine ⟨by simp only; omega, by simp only [List.length_cons]; omega,
            by simp only [List.length_cons]; omega, ?_⟩
          intro block hb
          simp only [List.mem_cons] at hb
          cases hb with
          | inl hb =>
            rw [hb]
            exact ⟨Nat.le_refl _, hlt, pRemoteExRec, read, h0, hread,
              (record_complete_iff read exRec).1 hc⟩
          | inr hb =>
            obtain ⟨g1, g2, g3⟩ := h4 block hb
            exact ⟨by omega, g2, g3⟩

theorem walk_records_repeats (memory : Nat → Option (Nat × EXCEPTION_RECORD))
    (pRemoteExRec read : Nat) (exRec : EXCEPTION_RECORD) (h0 : pRemoteExRec ≠ 0)
    (hread : memory pRemoteExRec = some (read, exRec))
    (hfull : record_complete (min read SIZEOF_EXCEPTION_RECORD) exRec = true)
    (hnext : (if exRec.NumberParameters = 0 then pRemoteExRec else exRec.ExceptionRecord)
      = pRemoteExRec) :
    ∀ (n rec_index : Nat), 64 - rec_index = n →
      walk_records memory rec_index pRemoteExRec =
        { reads := 64 - rec_index,
          rendered := (List.range' rec_index (64 - rec_index)).map (fun k => (k, exRec)) } := by
  intro n
  induction n with
  | zero =>
    intro rec_index hn
    rw [walk_records_limit memory rec_index pRemoteExRec (by omega), hn]
    rfl
  | succ n ih =>
    intro rec_index hn
    have hlt : rec_index < 64 := by omega
    rw [walk_records_step memory rec_index pRemoteExRec read exRec h0 hlt hread hfull, hnext,
      ih (rec_index + 1) (by omega)]
    have e : 64 - rec_index = (64 - (rec_index + 1)) + 1 := by omega
    simp only
    rw [e, List.range'_succ, List.map_cons]

/-- C22 (the walk of the remote records is bounded).  For every content of the
target's memory and every first link, the loop of `print_exception_info` calls
`ReadProcessMemory` at most 64 times and renders at most 64 blocks, never more
blocks than reads; it is a total function, so it terminates, also on a chain
that links back to itself.  A record whose read fails, or gives fewer bytes
than the header and the declared parameters, ends the walk there and is not
rendered; every rendered record was read with its header and parameters. -/
theorem record_walk_bounded (memory : Nat → Option (Nat × EXCEPTION_RECORD))
    (ExceptionRecord : Nat) (call_stack : WString) :
    (walk_records memory 0 ExceptionRecord).reads ≤ 64 ∧
    (walk_records memory 0 ExceptionRecord).rendered.length ≤ 64 ∧
    (walk_records memory 0 ExceptionRecord).rendered.length ≤
      (walk_records memory 0 ExceptionRecord).reads ∧
    print_exception_info memory ExceptionRecord call_stack =
      ((walk_records memory 0 ExceptionRecord).rendered.map
        (fun block => record_text block.1 block.2)).flatten ++ call_stack ∧
    (∀ rec_index pRemoteExRec : Nat, pRemoteExRec ≠ 0 → rec_index < 64 →
      memory pRemoteExRec = none →
        walk_records memory rec_index pRemoteExRec = { reads := 1, rendered := [] }) ∧
    (∀ (rec_index pRemoteExRec read : Nat) (exRec : EXCEPTION_RECORD),
      pRemoteExRec ≠ 0 → rec_index < 64 → memory pRemoteExRec = some (read, exRec) →
      (read < 32 + 8 * exRec.NumberParameters ∨ 15 < exRec.NumberParameters) →
        walk_records memory rec_index pRemoteExRec = { reads := 1, rendered := [] }) ∧
    (∀ block ∈ (walk_records memory 0 ExceptionRecord).rendered,
      block.1 < 64 ∧
      ∃ address read, address ≠ 0 ∧ memory address = some (read, block.2) ∧
        32 + 8 * block.2.NumberParameters ≤ read ∧ block.2.NumberParameters ≤ 15) := by
  have hb := walk_records_bounds memory 64 0 ExceptionRecord rfl
  refine ⟨hb.1, Nat.le_trans hb.2.1 hb.1, hb.2.1, rfl, ?_, ?_, ?_⟩
  · intro rec_index pRemoteExRec h0 h hread
    exact walk_records_failed memory rec_index pRemoteExRec h0 h hread
  · intro rec_index pRemoteExRec read exRec h0 h hread hshort
    refine walk_records_short memory rec_index pRemoteExRec read exRec h0 h hread ?_
    rw [Bool.eq_false_iff]
    intro hc
    have := (record_complete_iff read exRec).1 hc
    omega
  · intro block hblock
    exact ⟨(hb.2.2.2 block hblock).2.1, (hb.2.2.2 block hblock).2.2⟩

/-- C22 at a record linked to itself, at an address that cannot be read and at
a record of which only 16 bytes are read. -/
theorem record_walk_bounded_witness :
    (walk_records sample_records 0 0xB000).reads ≤ 64 ∧
    (walk_records sample_records 0 0xB000).rendered.length ≤ 64 ∧
    walk_records sample_records 3 0xD000 = { reads := 1, rendered := [] } ∧
    walk_records sample_records 0 0xC000 = { reads := 1, rendered := [] } :=
  ⟨(record_walk_bounded sample_records 0xB000 []).1,
    (record_walk_bounded sample_records 0xB000 []).2.1,
    (record_walk_bounded sample_records 0xB000 []).2.2.2.2.1 3 0xD000 (by decide) (by decide)
      (by decide),
    (record_walk_bounded sample_records 0xB000 []).2.2.2.2.2.1 0 0xC000 16
      sample_access_violation (by decide) (by decide) (by decide) (Or.inl (by decide))⟩

theorem sample_looping_walk :
    walk_records sample_records 0 0xB000 =
      { reads := 64,
        rendered := (List.range' 0 64).map (fun k => (k, sample_looping_record)) } :=
  walk_records_repeats sample_records 0xB000 152 sample_looping_record (by decide)
    (by decide) (by decide) (by decide) 64 0 rfl

/-- C23, at the failing input: a chain of one readable record that has no
parameter and a null link.  The statement `continue` skips the step to the
next link, so the same record is read and rendered 64 times, with the indices
0 to 63; a chain of two records that have parameters is rendered record by
record. -/
theorem record_without_parameters_repeated :
    sample_records 0xA000 = some (152, sample_illegal_instruction) ∧
    sample_illegal_instruction.NumberParameters = 0 ∧
    sample_illegal_instruction.ExceptionRecord = 0 ∧
    walk_records sample_records 0 0xA000 =
      { reads := 64,
        rendered := (List.range' 0 64).map (fun k => (k, sample_illegal_instruction)) } ∧
    (walk_records sample_records 0 0xA000).rendered.length = 64 ∧
    walk_records sample_records 0 0x9000 =
      { reads := 2,
        rendered := [(0, sample_access_violation), (1, sample_nested_record)] } := by
  have h := walk_records_repeats sample_records 0xA000 152 sample_illegal_instruction
    (by decide) (by decide) (by decide) (by decide) 64 0 rfl
  refine ⟨by decide, rfl, rfl, h, ?_, ?_⟩
  · rw [h]
    simp
  · rw [walk_records_step sample_records 0 0x9000 152 sample_access_violation (by decide)
        (by decide) (by decide) (by decide)]
    have e : (if sample_access_violation.NumberParameters = 0 then 0x9000
        else sample_access_violation.ExceptionRecord) = 0x9100 := by decide
    rw [e, walk_records_step sample_records 1 0x9100 152 sample_nested_record (by decide)
        (by decide) (by decide) (by decide)]
    have e2 : (if sample_nested_record.NumberParameters = 0 then 0x9100
        else sample_nested_record.ExceptionRecord) = 0 := by decide
    rw [e2, walk_records_null]

end CrashHandler

/-! ## The module table of the monitor -/

namespace CrashHandler

theorem map_assign_mem {β : Type} (key : Nat) (value : β) :
    ∀ (data : List (Nat × β)) (x : Nat × β),
      x ∈ map_assign key value data → x = (key, value) ∨ x ∈ data := by
  intro data
  induction data with
  | nil =>
    intro x hx
    rw [map_assign] at hx
    exact Or.inl (List.mem_singleton.1 hx)
  | cons entry rest ih =>
    intro x hx
    obtain ⟨k, v⟩ := entry
    rw [map_assign] at hx
    by_cases h1 : key < k
    · rw [if_pos h1] at hx
      cases List.mem_cons.1 hx with
      | inl h => exact Or.inl h
      | inr h => exact Or.inr h
    · rw [if_neg h1] at hx
      by_cases h2 : key = k
      · rw [if_pos h2] at hx
        cases List.mem_cons.1 hx with
        | inl h => exact Or.inl h
        | inr h => exact Or.inr (List.mem_cons_of_mem _ h)
      · rw [if_neg h2] at hx
        cases List.mem_cons.1 hx with
        | inl h => exact Or.inr (h ▸ List.mem_cons_self _ _)
        | inr h =>
          cases ih x h with
          | inl h3 => exact Or.inl h3
          | inr h3 => exact Or.inr (List.mem_cons_of_mem _ h3)

theorem map_assign_self {β : Type} (key : Nat) (value : β) :
    ∀ data : List (Nat × β), (key, value) ∈ map_assign key value data := by
  intro data
  induction data with
  | nil => rw [map_assign]; exact List.mem_singleton.2 rfl
  | cons entry rest ih =>
    obtain ⟨k, v⟩ := entry
    rw [map_assign]
    by_cases h1 : key < k
    · rw [if_pos h1]; exact List.mem_cons_self _ _
    · rw [if_neg h1]
      by_cases h2 : key = k
      · rw [if_pos h2]; exact List.mem_cons_self _ _
      · rw [if_neg h2]; exact List.mem_cons_of_mem _ ih

theorem map_assign_other {β : Type} (key : Nat) (value : β) :
    ∀ (data : List (Nat × β)) (x : Nat × β),
      x ∈ data → x.1 ≠ key → x ∈ map_assign key value data := by
  intro data
  induction data with
  | nil => intro x hx; exact absurd hx (List.not_mem_nil _)
  | cons entry rest ih =>
    intro x hx hne
    obtain ⟨k, v⟩ := entry
    rw [map_assign]
    by_cases h1 : key < k
    · rw [if_pos h1]; exact List.mem_cons_of_mem _ hx
    · rw [if_neg h1]
      by_cases h2 : key = k
      · rw [if_pos h2]
        cases List.mem_cons.1 hx with
        | inl h => rw [h] at hne; exact absurd h2.symm hne
        | inr h => exact List.mem_cons_of_mem _ h
      · rw [if_neg h2]
        cases List.mem_cons.1 hx with
        | inl h => rw [h]; exact List.mem_cons_self _ _
        | inr h => exact List.mem_cons_of_mem _ (ih x h hne)

theorem read_module_sizes_cons (T : Target) (hModule : Nat) (rest : List Nat)
    (data : List (Nat × Nat)) :
    read_module_sizes T (hModule :: rest) data =
      match image_size T hModule with
      | none => read_module_sizes T rest data
      | some SizeOfImage => read_module_sizes T rest (map_assign hModule SizeOfImage data) := by
  rw [read_module_sizes, image_size]
  cases T.read_IMAGE_DOS_HEADER hModule with
  | none => rfl
  | some e_lfanew =>
    cases T.read_IMAGE_NT_HEADERS64 (nt_headers_address hModule e_lfanew) <;> rfl

theorem read_module_sizes_mem (T : Target) :
    ∀ (handles : List Nat) (data : List (Nat × Nat)) (x : Nat × Nat),
      x ∈ read_module_sizes T handles data →
        (x.1 ∈ handles ∧ image_size T x.1 = some x.2) ∨ x ∈ data := by
  intro handles
  induction handles with
  | nil => intro data x hx; exact Or.inr hx
  | cons hModule rest ih =>
    intro data x hx
    rw [read_module_sizes_cons] at hx
    cases hs : image_size T hModule with
    | none =>
      rw [hs] at hx
      cases ih data x hx with
      | inl h => exact Or.inl ⟨List.mem_cons_of_mem _ h.1, h.2⟩
      | inr h => exact Or.inr h
    | some SizeOfImage =>
      rw [hs] at hx
      cases ih _ x hx with
      | inl h => exact Or.inl ⟨List.mem_cons_of_mem _ h.1, h.2⟩
      | inr h =>
        cases map_assign_mem hModule SizeOfImage data x h with
        | inl h2 => rw [h2]; exact Or.inl ⟨List.mem_cons_self _ _, hs⟩
        | inr h2 => exact Or.inr h2

theorem read_module_sizes_complete (T : Target) :
    ∀ (handles : List Nat) (data : List (Nat × Nat)) (x : Nat × Nat),
      image_size T x.1 = some x.2 → (x.1 ∈ handles ∨ x ∈ data) →
        x ∈ read_module_sizes T handles data := by
  intro handles
  induction handles with
  | nil =>
    intro data x _ hx
    cases hx with
    | inl h => exact absurd h (List.not_mem_nil _)
    | inr h => exact h
  | cons hModule rest ih =>
    intro data x hgood hx
    rw [read_module_sizes_cons]
    by_cases he : x.1 = hModule
    · rw [← he, hgood]
      refine ih _ x hgood (Or.inr ?_)
      have hself := map_assign_self x.1 x.2 data
      exact hself
    · have hx2 : x.1 ∈ rest ∨ x ∈ data := by
        cases hx with
        | inl h =>
          cases List.mem_cons.1 h with
          | inl h2 => exact absurd h2 he
          | inr h2 => exact Or.inl h2
        | inr h => exact Or.inr h
      cases hs : image_size T hModule with
      | none => exact ih data x hgood hx2
      | some SizeOfImage =>
        refine ih _ x hgood ?_
        cases hx2 with
        | inl h => exact Or.inl h
        | inr h => exact Or.inr (map_assign_other hModule SizeOfImage data x h he)

theorem mem_get_remote_modules (T : Target) (hModule size : Nat) :
    (hModule, size) ∈ get_remote_modules T ↔
      hModule ∈ enumerated_handles T ∧ image_size T hModule = some size := by
  unfold get_remote_modules
  constructor
  · intro h
    cases read_module_sizes_mem T _ _ _ h with
    | inl h2 => exact h2
    | inr h2 => exact absurd h2 (List.not_mem_nil _)
  · intro h
    exact read_module_sizes_complete T _ [] (hModule, size) h.2 (Or.inl h.1)

theorem lookup_of_mem (key : Nat) :
    ∀ (data : List (Nat × Nat)) (value : Nat), (key, value) ∈ data →
      ∃ found, data.lookup key = some found ∧ (key, found) ∈ data := by
  intro data
  induction data with
  | nil => intro value h; exact absurd h (List.not_mem_nil _)
  | cons entry rest ih =>
    intro value h
    obtain ⟨k, v⟩ := entry
    by_cases hk : key = k
    · refine ⟨v, ?_, hk ▸ List.mem_cons_self _ _⟩
      rw [hk]
      simp [List.lookup]
    · have hrest : (key, value) ∈ rest := by
        cases List.mem_cons.1 h with
        | inl h2 => exact absurd (Prod.mk.inj h2).1 hk
        | inr h2 => exact h2
      obtain ⟨found, hf, hm⟩ := ih value hrest
      refine ⟨found, ?_, List.mem_cons_of_mem _ hm⟩
      have hb : (key == k) = false := by simpa using hk
      rw [List.lookup, hb]
      exact hf

theorem module_size_eq (T : Target) (hModule size : Nat)
    (h : (hModule, size) ∈ get_remote_modules T) : module_size T hModule = size := by
  obtain ⟨found, hf, hm⟩ := lookup_of_mem hModule (get_remote_modules T) size h
  have h1 := ((mem_get_remote_modules T hModule found).1 hm).2
  have h2 := ((mem_get_remote_modules T hModule size).1 h).2
  rw [h1] at h2
  rw [module_size, hf, Option.getD_some]
  exact Option.some.inj h2

theorem mem_get_remote_module_paths (T : Target) (hModule : Nat) (path : WString) :
    (hModule, path) ∈ get_remote_module_paths T ↔
      (∃ size, hModule ∈ enumerated_handles T ∧ image_size T hModule = some size) ∧
        path = T.GetModuleFileNameExW hModule ∧ path ≠ [] := by
  unfold get_remote_module_paths
  rw [List.mem_filterMap]
  constructor
  · rintro ⟨⟨h, size⟩, hm, hf⟩
    by_cases hp : T.GetModuleFileNameExW h = []
    · rw [if_pos hp] at hf
      exact Option.noConfusion hf
    · rw [if_neg hp] at hf
      obtain ⟨e1, e2⟩ := Prod.mk.inj (Option.some.inj hf)
      simp only at e1 e2
      rw [← e1, ← e2]
      exact ⟨⟨size, (mem_get_remote_modules T h size).1 hm⟩, rfl, hp⟩
  · rintro ⟨⟨size, hs⟩, hp, hne⟩
    refine ⟨(hModule, size), (mem_get_remote_modules T hModule size).2 hs, ?_⟩
    simp only
    rw [if_neg (hp ▸ hne), hp]

theorem find_module_some (T : Target) (address : Nat) :
    ∀ (paths : List (Nat × WString)) (module_base : Nat) (module_path : WString),
      find_module T address paths = some (module_base, module_path) →
        (module_base, module_path) ∈ paths ∧ module_base ≤ address ∧
          address < (module_base + module_size T module_base) % 2 ^ 64 := by
  intro paths
  induction paths with
  | nil => intro b p h; exact Option.noConfusion h
  | cons entry rest ih =>
    intro b p h
    obtain ⟨hModule, path⟩ := entry
    rw [find_module] at h
    by_cases h1 : address < hModule
    · rw [if_pos h1] at h
      exact ⟨List.mem_cons_of_mem _ (ih b p h).1, (ih b p h).2⟩
    · rw [if_neg h1] at h
      by_cases h2 : (hModule + module_size T hModule) % 2 ^ 64 ≤ address
      · rw [if_pos h2] at h
        exact ⟨List.mem_cons_of_mem _ (ih b p h).1, (ih b p h).2⟩
      · rw [if_neg h2] at h
        obtain ⟨rfl, rfl⟩ := Prod.mk.inj (Option.some.inj h)
        exact ⟨List.mem_cons_self _ _, Nat.le_of_not_lt h1, Nat.lt_of_not_le h2⟩

theorem find_module_none (T : Target) (address : Nat) :
    ∀ paths : List (Nat × WString), find_module T address paths = none →
      ∀ entry ∈ paths, ¬ (entry.1 ≤ address ∧
        address < (entry.1 + module_size T entry.1) % 2 ^ 64) := by
  intro paths
  induction paths with
  | nil => intro _ entry he; exact absurd he (List.not_mem_nil _)
  | cons first rest ih =>
    intro h entry he
    obtain ⟨hModule, path⟩ := first
    rw [find_module] at h
    by_cases h1 : address < hModule
    · rw [if_pos h1] at h
      cases List.mem_cons.1 he with
      | inl e => rw [e]; intro c; exact absurd c.1 (Nat.not_le.2 h1)
      | inr e => exact ih h entry e
    · rw [if_neg h1] at h
      by_cases h2 : (hModule + module_size T hModule) % 2 ^ 64 ≤ address
      · rw [if_pos h2] at h
        cases List.mem_cons.1 he with
        | inl e => rw [e]; intro c; exact absurd c.2 (Nat.not_lt.2 h2)
        | inr e => exact ih h entry e
      · rw [if_neg h2] at h
        exact Option.noConfusion h

theorem lookup_found (T : Target) (address module_base : Nat) (module_path : WString)
    (h : get_module_file_and_base T address = some (module_base, module_path)) :
    module_base ∈ enumerated_handles T ∧
    module_path = T.GetModuleFileNameExW module_base ∧ module_path ≠ [] ∧
    ∃ size, image_size T module_base = some size ∧ module_base ≤ address ∧
      address < (module_base + size) % 2 ^ 64 := by
  obtain ⟨hm, hle, hlt⟩ := find_module_some T address _ _ _ h
  obtain ⟨⟨size, hh, hs⟩, hp, hne⟩ := (mem_get_remote_module_paths T _ _).1 hm
  have hsize := module_size_eq T module_base size ((mem_get_remote_modules T _ _).2 ⟨hh, hs⟩)
  rw [hsize] at hlt
  exact ⟨hh, hp, hne, size, hs, hle, hlt⟩

theorem lookup_finds (T : Target) (address hModule size : Nat)
    (hh : hModule ∈ enumerated_handles T) (hs : image_size T hModule = some size)
    (hp : T.GetModuleFileNameExW hModule ≠ []) (hle : hModule ≤ address)
    (hlt : address < (hModule + size) % 2 ^ 64) :
    ∃ found, get_module_file_and_base T address = some found := by
  cases hf : get_module_file_and_base T address with
  | some found => exact ⟨found, rfl⟩
  | none =>
    have hm : (hModule, T.GetModuleFileNameExW hModule) ∈ get_remote_module_paths T :=
      (mem_get_remote_module_paths T _ _).2 ⟨⟨size, hh, hs⟩, rfl, hp⟩
    have hsize := module_size_eq T hModule size ((mem_get_remote_modules T _ _).2 ⟨hh, hs⟩)
    have hno := find_module_none T address _ hf _ hm
    simp only [hsize] at hno
    exact absurd ⟨hle, hlt⟩ hno

/-- C24 (the module lookup is range containment).  A module with a known path
is a handle given by the enumeration whose two header reads succeed, with the
image size read, and whose path is not empty.  `get_module_file_and_base`
succeeds exactly when the range of such a module, from its base to its base
plus its image size in 64-bit arithmetic, holds the address, and what it returns
is the base and the path of such a module, the offset being smaller than the
image size.  When no range passes the end of the address space the sum is the
plain one, and when moreover the ranges of distinct modules do not overlap the
module returned is the only one that holds the address.  A handle whose header
reads or path lookup failed is never returned. -/
theorem module_lookup_containment (T : Target) (address : Nat) :
    ((∃ found, get_module_file_and_base T address = some found) ↔
      ∃ hModule size, hModule ∈ enumerated_handles T ∧ image_size T hModule = some size ∧
        T.GetModuleFileNameExW hModule ≠ [] ∧
        hModule ≤ address ∧ address < (hModule + size) % 2 ^ 64) ∧
    (∀ module_base module_path,
      get_module_file_and_base T address = some (module_base, module_path) →
        module_base ∈ enumerated_handles T ∧
        module_path = T.GetModuleFileNameExW module_base ∧ module_path ≠ [] ∧
        ∃ size, image_size T module_base = some size ∧ module_base ≤ address ∧
          address < (module_base + size) % 2 ^ 64 ∧ address - module_base < size) ∧
    ((∀ hModule size, hModule ∈ enumerated_handles T → image_size T hModule = some size →
        hModule + size < 2 ^ 64) →
      ((∃ found, get_module_file_and_base T address = some found) ↔
        ∃ hModule size, hModule ∈ enumerated_handles T ∧ image_size T hModule = some size ∧
          T.GetModuleFileNameExW hModule ≠ [] ∧
          hModule ≤ address ∧ address < hModule + size) ∧
      ((∀ h1 s1 h2 s2, h1 ∈ enumerated_handles T → image_size T h1 = some s1 →
          h2 ∈ enumerated_handles T → image_size T h2 = some s2 → h1 ≠ h2 →
          h1 + s1 ≤ h2 ∨ h2 + s2 ≤ h1) →
        ∀ hModule size, hModule ∈ enumerated_handles T → image_size T hModule = some size →
          T.GetModuleFileNameExW hModule ≠ [] → hModule ≤ address → address < hModule + size →
            get_module_file_and_base T address =
              some (hModule, T.GetModuleFileNameExW hModule))) ∧
    (∀ hModule : Nat, image_size T hModule = none ∨ T.GetModuleFileNameExW hModule = [] →
      ∀ module_path, get_module_file_and_base T address ≠ some (hModule, module_path)) := by
  have hmain : (∃ found, get_module_file_and_base T address = some found) ↔
      ∃ hModule size, hModule ∈ enumerated_handles T ∧ image_size T hModule = some size ∧
        T.GetModuleFileNameExW hModule ≠ [] ∧
        hModule ≤ address ∧ address < (hModule + size) % 2 ^ 64 := by
    constructor
    · rintro ⟨⟨b, p⟩, hf⟩
      obtain ⟨hh, hp, hne, size, hs, hle, hlt⟩ := lookup_found T address b p hf
      exact ⟨b, size, hh, hs, hp ▸ hne, hle, hlt⟩
    · rintro ⟨h, size, hh, hs, hp, hle, hlt⟩
      exact lookup_finds T address h size hh hs hp hle hlt
  refine ⟨hmain, ?_, ?_, ?_⟩
  · intro b p hf
    obtain ⟨hh, hp, hne, size, hs, hle, hlt⟩ := lookup_found T address b p hf
    have hmod : (b + size) % 2 ^ 64 ≤ b + size := Nat.mod_le _ _
    exact ⟨hh, hp, hne, size, hs, hle, hlt, by omega⟩
  · intro hfit
    constructor
    · rw [hmain]
      constructor
      · rintro ⟨h, size, hh, hs, hp, hle, hlt⟩
        rw [Nat.mod_eq_of_lt (hfit h size hh hs)] at hlt
        exact ⟨h, size, hh, hs, hp, hle, hlt⟩
      · rintro ⟨h, size, hh, hs, hp, hle, hlt⟩
        refine ⟨h, size, hh, hs, hp, hle, ?_⟩
        rw [Nat.mod_eq_of_lt (hfit h size hh hs)]
        exact hlt
    · intro hdisjoint h size hh hs hp hle hlt
      have hlt2 : address < (h + size) % 2 ^ 64 := by
        rw [Nat.mod_eq_of_lt (hfit h size hh hs)]
        exact hlt
      obtain ⟨⟨b, p⟩, hf⟩ := lookup_finds T address h size hh hs hp hle hlt2
      obtain ⟨bh, bp, _, bsize, bs, ble, blt⟩ := lookup_found T address b p hf
      rw [Nat.mod_eq_of_lt (hfit b bsize bh bs)] at blt
      have hb : b = h := by
        by_contra hne
        cases hdisjoint b bsize h size bh bs hh hs hne with
        | inl c => omega
        | inr c => omega
      rw [hf, bp, hb]
  · intro h hfail p hf
    obtain ⟨_, hp, hne, size, hs, _, _⟩ := lookup_found T address h p hf
    cases hfail with
    | inl c => rw [c] at hs; exact Option.noConfusion hs
    | inr c => rw [c] at hp; exact hne hp

theorem sample_handles : enumerated_handles sample_target = [0x7FFA00000000, 0x7FF600000000] :=
  enumerated_handles_stable sample_target [0x7FFA00000000, 0x7FF600000000] rfl (by decide)

/-- C24 at the sample target: an address inside the executable is found with
its base and path, with an offset below the image size, and the handle
`0x1000`, whose headers cannot be read, is not returned. -/
theorem module_lookup_containment_witness :
    (∃ size, image_size sample_target 0x7FF600000000 = some size ∧
      0x7FF600000000 ≤ 0x7FF600001234 ∧
      0x7FF600001234 < (0x7FF600000000 + size) % 2 ^ 64 ∧
      0x7FF600001234 - 0x7FF600000000 < size) ∧
    get_module_file_and_base sample_target 0x7FFA00000040 =
      some (0x7FFA00000000, sample_target.GetModuleFileNameExW 0x7FFA00000000) ∧
    get_module_file_and_base sample_target 0x7FF600001234 ≠
      some (0x1000, "C:\\Windows\\explorer.exe".toList) :=
  have hhandles : ∀ h : Nat, h ∈ enumerated_handles sample_target →
      h = 0x7FFA00000000 ∨ h = 0x7FF600000000 := fun h hh => by
    rw [sample_handles] at hh
    simpa using hh
  have hsize : ∀ h size : Nat, h ∈ enumerated_handles sample_target →
      image_size sample_target h = some size →
      (h = 0x7FFA00000000 ∧ size = 0x200000) ∨ (h = 0x7FF600000000 ∧ size = 0x4000000) :=
    fun h size hh hs => by
      cases hhandles h hh with
      | inl e =>
        rw [e] at hs
        have e2 : image_size sample_target 0x7FFA00000000 = some 0x200000 := by decide
        rw [e2] at hs
        exact Or.inl ⟨e, (Option.some.inj hs).symm⟩
      | inr e =>
        rw [e] at hs
        have e2 : image_size sample_target 0x7FF600000000 = some 0x4000000 := by decide
        rw [e2] at hs
        exact Or.inr ⟨e, (Option.some.inj hs).symm⟩
  ⟨((module_lookup_containment sample_target 0x7FF600001234).2.1 0x7FF600000000
      "C:\\Games\\FFXIV\\game\\ffxiv_dx11.exe".toList
      (sample_lookup 0x7FF600001234 (by decide) (by decide))).2.2.2,
    ((module_lookup_containment sample_target 0x7FFA00000040).2.2.1
      (fun h size hh hs => by
        cases hsize h size hh hs with
        | inl c => rw [c.1, c.2]; decide
        | inr c => rw [c.1, c.2]; decide)).2
      (fun h1 s1 h2 s2 hh1 hs1 hh2 hs2 hne => by
        cases hsize h1 s1 hh1 hs1 with
        | inl c1 =>
          cases hsize h2 s2 hh2 hs2 with
          | inl c2 => exact absurd (c1.1.trans c2.1.symm) hne
          | inr c2 => rw [c1.1, c1.2, c2.1, c2.2]; decide
        | inr c1 =>
          cases hsize h2 s2 hh2 hs2 with
          | inl c2 => rw [c1.1, c1.2, c2.1, c2.2]; decide
          | inr c2 => exact absurd (c1.1.trans c2.1.symm) hne)
      0x7FFA00000000 0x200000 (by rw [sample_handles]; decide) (by decide) (by decide)
      (by decide) (by decide),
    (module_lookup_containment sample_target 0x7FF600001234).2.2.2 0x1000
      (Or.inl (by decide)) "C:\\Windows\\explorer.exe".toList⟩

end CrashHandler

/-! ## The window of the stack -/

namespace CrashHandler

theorem mem_takeWhile_range (read : Nat) :
    ∀ (n s i : Nat),
      i ∈ (List.range' s n).takeWhile (fun i => decide (i * 8 < read)) ↔
        s ≤ i ∧ i < s + n ∧ i * 8 < read := by
  intro n
  induction n with
  | zero =>
    intro s i
    simp only [List.range'_zero, List.takeWhile_nil, List.not_mem_nil, false_iff]
    omega
  | succ n ih =>
    intro s i
    rw [List.range'_succ, List.takeWhile_cons]
    by_cases hp : s * 8 < read
    · rw [if_pos (decide_eq_true hp)]
      simp only [List.mem_cons, ih]
      constructor
      · rintro (h | h)
        · rw [h]; exact ⟨Nat.le_refl _, by omega, hp⟩
        · exact ⟨by omega, by omega, h.2.2⟩
      · intro h
        by_cases he : i = s
        · exact Or.inl he
        · exact Or.inr ⟨by omega, by omega, h.2.2⟩
    · rw [if_neg (fun h => hp (of_decide_eq_true h))]
      constructor
      · intro h
        exact absurd h (List.not_mem_nil _)
      · intro h
        exact absurd (by omega) hp

theorem mem_stack_indices (read i : Nat) :
    i ∈ stack_indices read ↔ i < 64 ∧ i * 8 < read := by
  rw [stack_indices, List.range_eq_range', mem_takeWhile_range]
  omega

theorem mem_stack_entries (S : StackRead) (offset word : Nat) :
    (offset, word) ∈ stack_entries S ↔
      ∃ i, i < 64 ∧ i * 8 < S.read ∧ S.stackData.getD i 0 ≠ 0 ∧
        offset = i * 8 ∧ word = S.stackData.getD i 0 := by
  rw [stack_entries, List.mem_filterMap]
  constructor
  · rintro ⟨i, hi, h⟩
    have hi2 := (mem_stack_indices S.read i).1 hi
    by_cases hz : S.stackData.getD i 0 ≠ 0
    · rw [if_pos hz] at h
      have e := Prod.mk.inj (Option.some.inj h)
      exact ⟨i, hi2.1, hi2.2, hz, e.1.symm, e.2.symm⟩
    · rw [if_neg hz] at h
      exact Option.noConfusion h
  · rintro ⟨i, h1, h2, hz, ho, hw⟩
    refine ⟨i, (mem_stack_indices S.read i).2 ⟨h1, h2⟩, ?_⟩
    rw [if_pos hz, ho, hw]

theorem stack_entries_increasing (S : StackRead) :
    (stack_entries S).Pairwise (fun a b => a.1 < b.1) := by
  have hrange : (List.range 64).Pairwise (fun a b => a < b) := List.pairwise_lt_range 64
  have hidx : (stack_indices S.read).Pairwise (fun a b => a < b) :=
    hrange.sublist (List.takeWhile_sublist _)
  unfold stack_entries
  refine List.Pairwise.filterMap _ ?_ hidx
  intro a a2 hlt b hb b2 hb2
  by_cases hz : S.stackData.getD a 0 ≠ 0
  · by_cases hz2 : S.stackData.getD a2 0 ≠ 0
    · rw [if_pos hz] at hb
      rw [if_pos hz2] at hb2
      rw [← Option.some.inj hb, ← Option.some.inj hb2]
      simp only
      omega
    · rw [if_neg hz2] at hb2
      exact Option.noConfusion hb2
  · rw [if_neg hz] at hb
    exact Option.noConfusion hb

theorem stack_entries_length (S : StackRead) : (stack_entries S).length ≤ 64 := by
  have h1 : (stack_entries S).length ≤ (stack_indices S.read).length :=
    List.length_filterMap_le _ _
  have h2 : (stack_indices S.read).length ≤ (List.range 64).length :=
    (List.takeWhile_sublist _).length_le
  rw [List.length_range] at h2
  omega

theorem stack_section_ne_nil (T : Target) (Rsp : Nat) (S : StackRead) :
    stack_section T Rsp S ≠ [] ↔ 0x10000 < Rsp ∧ Rsp < 0x7FFFFFFE0000 := by
  unfold stack_section
  by_cases h : 0x10000 < Rsp ∧ Rsp < 0x7FFFFFFE0000
  · rw [if_pos h]
    refine ⟨fun _ => h, fun _ hnil => ?_⟩
    have hlen := congrArg List.length hnil
    simp only [List.length_append, STACK_HEADER] at hlen
    simp at hlen
  · rw [if_neg h]
    exact ⟨fun c => absurd rfl c, fun c => absurd c h⟩

/-- C25 (counterexample): when the read of the stack stops after 12 bytes, the
second word, of which only four bytes were read, is listed with the first. -/
theorem partly_read_word_listed :
    stack_entries sample_partial_stack_read = [(0, 0x1111), (8, 0x2222)] ∧
    ¬ ((1 + 1) * 8 ≤ sample_partial_stack_read.read) ∧
    ¬ (∀ (S : StackRead) (offset word : Nat),
        (offset, word) ∈ stack_entries S ↔
          ∃ i, i < 64 ∧ (i + 1) * 8 ≤ S.read ∧ S.stackData.getD i 0 ≠ 0 ∧
            offset = i * 8 ∧ word = S.stackData.getD i 0) := by
  have he : stack_entries sample_partial_stack_read = [(0, 0x1111), (8, 0x2222)] := by decide
  refine ⟨he, by decide, ?_⟩
  intro hall
  have hm : (8, 0x2222) ∈ stack_entries sample_partial_stack_read := by
    rw [he]; decide
  obtain ⟨i, _, hread, _, ho, _⟩ := (hall sample_partial_stack_read 8 0x2222).1 hm
  have hr : sample_partial_stack_read.read = 12 := rfl
  omega

/-- C25 (amended): the section `Stack` is produced exactly when the stack
pointer lies strictly between 0x10000 and 0x7FFFFFFE0000.  It is then the
header, one line `[RSP+offset]` and the resolved word for each listed word, and
the closing line.  The listed words are exactly the non-zero words with an
index `i < 64` whose offset `8 * i` is smaller than the number of bytes read, in
increasing order of the offsets, so there are at most 64 of them and none is
zero; when the number of bytes read is a multiple of 8, these are the words
that were completely read. -/
theorem stack_window (T : Target) (Rsp : Nat) (S : StackRead) :
    (stack_section T Rsp S ≠ [] ↔ 0x10000 < Rsp ∧ Rsp < 0x7FFFFFFE0000) ∧
    (0x10000 < Rsp ∧ Rsp < 0x7FFFFFFE0000 →
      stack_section T Rsp S =
        STACK_HEADER
        ++ ((stack_entries S).map (fun entry =>
            "\n  [RSP+".toList ++ HEX entry.1 ++ [Char.ofNat 93, TAB]
              ++ (to_address_string T entry.2 true).text)).flatten
        ++ SECTION_END) ∧
    (∀ offset word : Nat,
      (offset, word) ∈ stack_entries S ↔
        ∃ i, i < 64 ∧ i * 8 < S.read ∧ S.stackData.getD i 0 ≠ 0 ∧
          offset = i * 8 ∧ word = S.stackData.getD i 0) ∧
    (stack_entries S).Pairwise (fun a b => a.1 < b.1) ∧
    (stack_entries S).length ≤ 64 ∧
    (∀ entry ∈ stack_entries S, entry.2 ≠ 0) ∧
    (S.read % 8 = 0 → ∀ i : Nat, i * 8 < S.read ↔ (i + 1) * 8 ≤ S.read) := by
  refine ⟨stack_section_ne_nil T Rsp S, ?_, mem_stack_entries S, stack_entries_increasing S,
    stack_entries_length S, ?_, ?_⟩
  · intro h
    rw [stack_section, if_pos h]
    rfl
  · intro entry hentry
    obtain ⟨offset, word⟩ := entry
    obtain ⟨i, _, _, hz, _, hw⟩ := (mem_stack_entries S offset word).1 hentry
    rw [hw]
    exact hz
  · intro hmod i
    omega

/-- C25 (witness): the amended claim at a complete read of the window, with a
stack pointer in the range. -/
theorem stack_window_witness :
    stack_section sample_target 0x7FF000001000 sample_stack_read =
        STACK_HEADER
        ++ ((stack_entries sample_stack_read).map (fun entry =>
            "\n  [RSP+".toList ++ HEX entry.1 ++ [Char.ofNat 93, TAB]
              ++ (to_address_string sample_target entry.2 true).text)).flatten
        ++ SECTION_END ∧
      stack_entries sample_stack_read = [(0, 0x7FF600003000), (16, 5)] ∧
      (∀ i : Nat, i * 8 < sample_stack_read.read ↔ (i + 1) * 8 ≤ sample_stack_read.read) :=
  ⟨(stack_window sample_target 0x7FF000001000 sample_stack_read).2.1 (by decide),
    by decide,
    (stack_window sample_target 0x7FF000001000 sample_stack_read).2.2.2.2.2.2 (by decide)⟩

end CrashHandler

/-! ## Attaching again, and the empty list of launcher arguments -/

namespace CrashHandler


theorem report_no_attach (W : World) (cfg : Startup) (x : exception_info) (e : Event) :
    (report W cfg x e).count Step.DebugCreate = 0 ∧
    (report W cfg x e).count Step.AttachProcess = 0 := by
  have hd : (reporting x e).count Step.DebugCreate = 0 :=
    List.count_eq_zero.2 (fun hm => Bool.noConfusion (reporting_all_reporting x e _ hm))
  have ha : (reporting x e).count Step.AttachProcess = 0 :=
    List.count_eq_zero.2 (fun hm => Bool.noConfusion (reporting_all_reporting x e _ hm))
  unfold report
  constructor <;>
  · simp only [List.count_append, hd, ha]
    split_ifs <;> simp

theorem before_decision_attach (W : World) (cfg : Startup) (attached : Bool)
    (x : exception_info) (e : Event) (hattach : e.attach_failure = none) :
    (before_decision W cfg attached x e).count Step.DebugCreate = 1 ∧
    (before_decision W cfg attached x e).count Step.AttachProcess = 1 := by
  have hr := report_no_attach W cfg x e
  unfold before_decision
  rw [hattach]
  constructor
  · rw [List.count_append, hr.1]
    cases attached <;> simp [try_attach_xclr, attach_debugger]
  · rw [List.count_append, hr.2]
    cases attached <;> simp [try_attach_xclr, attach_debugger]

theorem resumed_fault_turn (W : World) (cfg : Startup) (attached : Bool) (e : Event)
    (rest : List Event) (h : e.is_resumed_fault = true) :
    ∃ x, e.ReadFile = some x ∧ e.attach_failure = none ∧
      main_loop W cfg attached (e :: rest) =
        (main_loop W cfg (try_attach_xclr attached e).2 rest).after
          (before_decision W cfg attached x e ++ [Step.ResumeThread x.hThreadHandle]) := by
  unfold Event.is_resumed_fault at h
  simp only [Bool.and_eq_true] at h
  obtain ⟨⟨⟨hread, hattach⟩, hresume⟩, hdialog⟩ := h
  have hattach2 : e.attach_failure = none := Option.isNone_iff_eq_none.1 hattach
  cases hx : e.ReadFile with
  | none => rw [hx] at hread; exact Bool.noConfusion hread
  | some x =>
    rw [hx] at hread
    have hcode : x.ExceptionCode ≠ 0x12345678 := of_decide_eq_true hread
    refine ⟨x, rfl, hattach2, ?_⟩
    cases hd : e.TaskDialogIndirect with
    | none => exact main_loop_dialog_failed W cfg attached e rest x hx hcode hattach2 hd
    | some p =>
      obtain ⟨b, r⟩ := p
      rw [hd] at hdialog
      have hb : b ≠ IdButtonRestart := of_decide_eq_true hdialog
      rw [main_loop_other_button W cfg attached e rest x b r hx hcode hattach2 hd hb, hresume]
      rfl

theorem attach_debugger_every_fault (W : World) (cfg : Startup) (events : List Event)
    (h : ∀ e ∈ events, e.is_resumed_fault = true) :
    ∀ attached : Bool,
      (main_loop W cfg attached events).trace.count Step.DebugCreate = events.length ∧
      (main_loop W cfg attached events).trace.count Step.AttachProcess = events.length := by
  induction events with
  | nil => intro attached; exact ⟨rfl, rfl⟩
  | cons e rest ih =>
    intro attached
    obtain ⟨x, _, hattach, hrun⟩ :=
      resumed_fault_turn W cfg attached e rest (h e (List.mem_cons_self _ _))
    have hrest := ih (fun e2 he2 => h e2 (List.mem_cons_of_mem _ he2))
      (try_attach_xclr attached e).2
    have hb := before_decision_attach W cfg attached x e hattach
    rw [hrun]
    simp only [Run.after, List.count_append, hb.1, hb.2, hrest.1, hrest.2, List.length_cons]
    constructor <;> simp <;> omega

/-- C26, at the failing input: two faults of one run, the first one followed by
a resume.  The managed-runtime library is loaded once, but `DebugCreate` and
`AttachProcess` are called at each of the two faults. -/
theorem attach_repeated_after_resume :
    sample_resumed_fault.is_resumed_fault = true ∧
    (main_loop sample_world sample_startup false
        [sample_resumed_fault, sample_resumed_fault]).trace.count
      Step.LoadLibraryW_mscordaccore = 1 ∧
    (main_loop sample_world sample_startup false
        [sample_resumed_fault, sample_resumed_fault]).trace.count Step.DebugCreate = 2 ∧
    (main_loop sample_world sample_startup false
        [sample_resumed_fault, sample_resumed_fault]).trace.count Step.AttachProcess = 2 := by
  refine ⟨by decide, by decide, by decide, by decide⟩

theorem main_loop_restart_request_empty (W : World) (cfg : Startup) (attached : Bool)
    (e : Event) (rest : List Event) (x : exception_info)
    (hread : e.ReadFile = some x) (hcode : x.ExceptionCode = 0x12345678)
    (hl : cfg.launcherArgs = none) :
    main_loop W cfg attached (e :: rest) =
      { exit := Exit.empty_optional_dereferenced,
        trace := [Step.ReadFile_exinfo, Step.TerminateProcess 0] } := by
  rw [main_loop, hread]
  simp only
  rw [if_pos hcode, hl]

theorem parse_args_without_separator (W : World) (rest : List WString)
    (hsep : SEPARATOR ∉ rest) (cfg : Startup)
    (hparse : parse_args W rest Startup.initial = some cfg) : cfg.launcherArgs = none := by
  have h := parse_args_options W rest (fun a ha e => hsep (e ▸ ha)) Startup.initial rfl
  rw [h] at hparse
  by_cases hall : rest.all recognised = true
  · rw [if_pos hall] at hparse
    rw [← Option.some.inj hparse]
  · rw [if_neg hall] at hparse
    exact Option.noConfusion hparse

theorem restart_request_without_any_separator (W : World) (argv0 : WString)
    (rest : List WString) (e : Event) (events : List Event) (x : exception_info)
    (hsep : SEPARATOR ∉ rest)
    (hvalid : (main W (argv0 :: rest) (e :: events)).exit ≠ Exit.returned InvalidParameter)
    (hread : e.ReadFile = some x) (hcode : x.ExceptionCode = 0x12345678) :
    main W (argv0 :: rest) (e :: events) =
      { exit := Exit.empty_optional_dereferenced,
        trace := [Step.ReadFile_exinfo, Step.TerminateProcess 0] } := by
  unfold main at hvalid ⊢
  simp only [List.drop_succ_cons, List.drop_zero] at hvalid ⊢
  cases hparse : parse_args W rest Startup.initial with
  | none => rw [hparse] at hvalid; exact absurd rfl hvalid
  | some cfg =>
    rw [hparse] at hvalid
    simp only at hvalid ⊢
    have hl := parse_args_without_separator W rest hsep cfg hparse
    split_ifs at hvalid ⊢
    · exact absurd rfl hvalid
    · exact absurd rfl hvalid
    · exact absurd rfl hvalid
    · exact absurd rfl hvalid
    · exact main_loop_restart_request_empty W cfg false e events x hread hcode hl

/-- C27, at the failing input: a command line that passes the validation and
has no `--` leaves `launcherArgs` empty, and the monitor dereferences it at the
Restart decision and at the restart request of the trap. -/
theorem launcher_arguments_read_while_empty :
    (parse_args sample_world sample_options Startup.initial).map Startup.launcherArgs
      = some none ∧
    (main sample_world ("DalamudCrashHandler.exe".toList :: sample_options)
        [sample_restart_pressed_event]).exit = Exit.empty_optional_dereferenced ∧
    (main sample_world ("DalamudCrashHandler.exe".toList :: sample_options)
        [sample_restart_pressed_event]).trace.getLast?
      = some (Step.TerminateProcess 0xC0000005) ∧
    (main sample_world ("DalamudCrashHandler.exe".toList :: sample_options)
        [sample_restart_pressed_event]).trace.any Step.is_CreateProcessW = false ∧
    (main sample_world ("DalamudCrashHandler.exe".toList :: sample_options)
        [sample_restart_event]).exit = Exit.empty_optional_dereferenced := by
  refine ⟨by decide, by decide, by decide, by decide, by decide⟩

end CrashHandler

/-! ## The two narratives -/

theorem c_str_prefix_append (a b : WString) : c_str a <+: c_str (a ++ b) := by
  unfold c_str
  induction a with
  | nil => exact List.nil_prefix
  | cons x a ih =>
    rw [List.cons_append, List.takeWhile_cons, List.takeWhile_cons]
    by_cases hx : (x != NUL) = true
    · rw [if_pos hx, if_pos hx]
      exact (List.prefix_cons_inj x).2 ih
    · rw [if_neg hx]
      exact List.nil_prefix

theorem c_str_initial (a : WString) : c_str a <+: a :=
  List.takeWhile_prefix _

/-- C28 (the visible narrative is a prefix of the expanded narrative).  In the
monitor the dialog receives `window_log_str` and the log file receives `log`;
in the trap the dialog, whenever it is presented, receives `window_log_str` and
the managed callback receives `log`.  In both, `log` is `window_log_str` followed by what
`print_exception_info_extended` appends, which is the sections of the registers,
of the stack and of the modules; so `window_log_str`, and with it the
null-terminated string that the dialog is given, is a prefix of `log`. -/
theorem narrative_extension (W : CrashHandler.World) (cfg : CrashHandler.Startup)
    (x : CrashHandler.exception_info) (e : CrashHandler.Event)
    (G : Veh.Globals) (h : Veh.Host) (f : Veh.Fault) :
    (CrashHandler.Step.wofstream (CrashHandler.logPath W cfg e) (CrashHandler.log W cfg x e)
        ∈ CrashHandler.report W cfg x e ∧
      CrashHandler.Step.TaskDialogIndirect (CrashHandler.window_log_str W cfg x e)
        ∈ CrashHandler.report W cfg x e ∧
      CrashHandler.log W cfg x e =
        CrashHandler.window_log_str W cfg x e ++ e.print_exception_info_extended ∧
      CrashHandler.window_log_str W cfg x e <+: CrashHandler.log W cfg x e ∧
      c_str (CrashHandler.window_log_str W cfg x e) <+: CrashHandler.log W cfg x e ∧
      (∀ (T : CrashHandler.Target) (ctx : CONTEXT) (S : CrashHandler.StackRead),
        e.print_exception_info_extended = CrashHandler.print_exception_info_extended T ctx S →
          CrashHandler.log W cfg x e =
            CrashHandler.window_log_str W cfg x e
            ++ (registers_section
                  (fun value => (CrashHandler.to_address_string T value true).text) ctx
                ++ CrashHandler.stack_section T ctx.Rsp S
                ++ CrashHandler.modules_section T))) ∧
    (Veh.Step.narrative (Veh.window_log_str h) (Veh.log h) ∈ Veh.narration G h f ∧
      (h.get_function_pointer = 0 →
        Veh.Step.VehCallback h.dmp_path h.log_path (Veh.log h) ∈ Veh.narration G h f) ∧
      (Veh.passed_both_filters h f → Veh.stack_fault h f = none →
        Veh.Step.TaskDialogIndirect (Veh.message h) (Veh.window_log_str h)
          ∈ (Veh.exception_handler G h f).trace) ∧
      (∀ s ∈ (Veh.exception_handler G h f).trace, s.is_dialog = true →
        s = Veh.Step.TaskDialogIndirect (Veh.message h) (Veh.window_log_str h)) ∧
      Veh.log h = Veh.window_log_str h ++ h.print_exception_info_extended ∧
      Veh.window_log_str h <+: Veh.log h ∧
      c_str (Veh.window_log_str h) <+: c_str (Veh.log h) ∧
      (∀ (process : Veh.Host) (i : Veh.Introspection) (ctx : CONTEXT) (word : Nat → Nat)
          (snapshot : List (Nat × WString)),
        h.print_exception_info_extended =
            Veh.print_exception_info_extended process i ctx word snapshot →
          Veh.log h =
            Veh.window_log_str h
            ++ (registers_section
                  (fun value => (Veh.to_address_string process i value true).text) ctx
                ++ Veh.stack_section process i ctx.Rsp word
                ++ Veh.modules_section snapshot))) := by
  refine ⟨⟨?_, ?_, rfl, List.prefix_append _ _, ?_, ?_⟩,
    ⟨?_, ?_, ?_, Veh.dialog_step_carries G h f, rfl, List.prefix_append _ _, ?_, ?_⟩⟩
  · unfold CrashHandler.report
    simp
  · unfold CrashHandler.report
    simp
  · exact (c_str_initial _).trans (List.prefix_append _ _)
  · intro T ctx S he
    rw [CrashHandler.log, he]
    rfl
  · unfold Veh.narration
    simp
  · intro hfn
    unfold Veh.narration
    simp [hfn]
  · intro hp hstack
    rw [Veh.exception_handler_narrated G h f hp hstack]
    simp
  · exact c_str_prefix_append _ _
  · intro process i ctx word snapshot he
    rw [Veh.log, he]
    rfl

/-- C28 at a fault of the sample target in the monitor and at a fault of the
sample host in the trap. -/
theorem narrative_extension_witness :
    CrashHandler.log CrashHandler.sample_world CrashHandler.sample_startup
        CrashHandler.sample_fault_info CrashHandler.sample_narrated_event =
      CrashHandler.window_log_str CrashHandler.sample_world CrashHandler.sample_startup
        CrashHandler.sample_fault_info CrashHandler.sample_narrated_event
      ++ (registers_section
            (fun value =>
              (CrashHandler.to_address_string CrashHandler.sample_target value true).text)
            sample_context
          ++ CrashHandler.stack_section CrashHandler.sample_target sample_context.Rsp
              CrashHandler.sample_stack_read
          ++ CrashHandler.modules_section CrashHandler.sample_target) ∧
    Veh.Step.VehCallback Veh.sample_narrated_host.dmp_path Veh.sample_narrated_host.log_path
        (Veh.log Veh.sample_narrated_host)
      ∈ Veh.narration Veh.sample_globals Veh.sample_narrated_host Veh.sample_fault ∧
    Veh.Step.TaskDialogIndirect (Veh.message Veh.sample_narrated_host)
        (Veh.window_log_str Veh.sample_narrated_host)
      ∈ (Veh.exception_handler Veh.sample_globals Veh.sample_narrated_host
          Veh.sample_fault).trace ∧
    Veh.log Veh.sample_narrated_host =
      Veh.window_log_str Veh.sample_narrated_host
      ++ (registers_section
            (fun value =>
              (Veh.to_address_string Veh.sample_host Veh.sample_introspection value true).text)
            sample_context
          ++ Veh.stack_section Veh.sample_host Veh.sample_introspection sample_context.Rsp
              (fun _ => 0)
          ++ Veh.modules_section
              [(0x140000000, "C:\\Games\\FFXIV\\game\\FFXIV_DX11.EXE".toList)]) :=
  ⟨(narrative_extension CrashHandler.sample_world CrashHandler.sample_startup
      CrashHandler.sample_fault_info CrashHandler.sample_narrated_event Veh.sample_globals
      Veh.sample_narrated_host Veh.sample_fault).1.2.2.2.2.2
      CrashHandler.sample_target sample_context CrashHandler.sample_stack_read rfl,
    (narrative_extension CrashHandler.sample_world CrashHandler.sample_startup
      CrashHandler.sample_fault_info CrashHandler.sample_narrated_event Veh.sample_globals
      Veh.sample_narrated_host Veh.sample_fault).2.2.1 rfl,
    (narrative_extension CrashHandler.sample_world CrashHandler.sample_startup
      CrashHandler.sample_fault_info CrashHandler.sample_narrated_event Veh.sample_globals
      Veh.sample_narrated_host Veh.sample_fault).2.2.2.1 ⟨by decide, Or.inl (by decide)⟩
      (by decide),
    (narrative_extension CrashHandler.sample_world CrashHandler.sample_startup
      CrashHandler.sample_fault_info CrashHandler.sample_narrated_event Veh.sample_globals
      Veh.sample_narrated_host Veh.sample_fault).2.2.2.2.2.2.2.2
      Veh.sample_host Veh.sample_introspection sample_context (fun _ => 0)
      [(0x140000000, "C:\\Games\\FFXIV\\game\\FFXIV_DX11.EXE".toList)] rfl⟩

end Dalamud
